import Mathlib

/-!
# EduCRM backend: the financial ledger

A shallow embedding of the payment service (`services/payment.service.js`), the payment
controller (`controllers/payment.controller.js`), the payment validators and the parts of the
`Payment` and `Student` models they touch, followed by the conversion of leads
(`convertToStudent`) and the enrollment into groups (`enrollStudent`, `Group.isFull`).

Modelling conventions

* Money is a whole number of currency units (`Int`); object ids are `Nat`; instants are
  milliseconds since the epoch (`Nat`).
* The schemas declare money as `Number`, an IEEE 754 double, and the validators admit
  fractions.  The section on `Number` models the doubles: on the whole numbers within
  `MAX_SAFE_INTEGER` their arithmetic is the arithmetic of `Int` (`add_ofInt`, `sub_ofInt`,
  `max_ofInt`), on fractions it is not.  The theorems that rest on exact arithmetic (C9, C27)
  carry that bound and are stated on the doubles as well.
* The document store is a pair of lists; `findById` returns the first document with the id and
  `save` overwrites the documents with the saved document's id.  The `createdAt`/`updatedAt`
  stamps that the store library maintains by itself are not part of the model.
* An `async` function that may throw after it has already written to the store returns the
  store it leaves behind together with `Except JsError _`.
-/

namespace EduCRM

/-! ## Data model -/

abbrev ObjectId := Nat

/-- The values of `PAYMENT_STATUS` in `config/constants.js`. -/
inductive PaymentStatus where
  | pending
  | completed
  | failed
  | refunded
deriving DecidableEq, Repr

/-- The values of `PAYMENT_METHODS` in `config/constants.js`. -/
inductive PaymentMethod where
  | cash
  | card
  | bank_transfer
  | payme
  | click
  | uzum
deriving DecidableEq, Repr

/-- The values of the `paymentFor.type` enum in `models/Payment.js`. -/
inductive PaymentForType where
  | tuition
  | registration
  | materials
  | exam
  | certificate
  | other
deriving DecidableEq, Repr

/-- The `refund` sub-document of `models/Payment.js`. -/
structure Refund where
  amount : Int
  reason : String
  refundedBy : ObjectId
  refundDate : Nat
deriving DecidableEq, Repr

/-- A stored document of `models/Payment.js` (schema defaults already applied).  The money
fields are `Number` in the schema; here they hold whole numbers, and `NumberPayment` below is
the document with its amount as a double. -/
structure Payment where
  id : ObjectId
  organizationId : ObjectId
  studentId : ObjectId
  amount : Int
  paymentMethod : PaymentMethod
  status : PaymentStatus
  receiptNumber : String
  paymentForType : PaymentForType
  paymentDate : Nat
  discountAmount : Int
  lateFeeAmount : Int
  collectedBy : ObjectId
  verifiedBy : Option ObjectId
  verifiedAt : Option Nat
  notes : Option String
  refund : Option Refund
deriving DecidableEq, Repr

/-- The `netAmount` virtual of `models/Payment.js`. -/
def Payment.netAmount (this : Payment) : Int :=
  this.amount - this.discountAmount + this.lateFeeAmount

/-- A stored document of `models/Student.js`: the two ledger fields and the fields around
them that the ledger must leave alone.  `totalDebt` and `totalPaid` are `Number` in the schema;
here they hold whole numbers, and `updateStudentFinancialsNumber` and `processRefundNumber`
below are the assignments to them on doubles. -/
structure Student where
  id : ObjectId
  userId : ObjectId
  studentId : String
  organizationId : ObjectId
  status : String
  currentGroups : List ObjectId
  totalDebt : Int
  totalPaid : Int
  notes : Option String
deriving DecidableEq, Repr

/-- The two collections the ledger reads and writes. -/
structure Db where
  students : List Student
  payments : List Payment
deriving DecidableEq, Repr

/-- What a rejected promise carries. -/
inductive JsError where
  /-- `new Error(message)` -/
  | error (message : String)
  /-- a schema `ValidationError` on the given path -/
  | validationError (path : String)
  /-- the duplicate-key error (code 11000) of a unique index -/
  | duplicateKey (field : String)
  /-- a property access on `null` -/
  | typeError
deriving DecidableEq, Repr

/-- The fields of `new Date()` that the code reads. -/
structure JsDate where
  /-- `getTime()` -/
  time : Nat
  /-- `getFullYear()` -/
  fullYear : Nat
  /-- `getMonth()`, 0 to 11 -/
  month : Nat
  /-- `getDate()`, 1 to 31 -/
  date : Nat
deriving DecidableEq, Repr

/-- The clock reading and the `Math.random()` draw that one request consumes. -/
structure Env where
  now : JsDate
  random : ℚ

/-! ## Store primitives -/

def Student.findById (db : Db) (id : ObjectId) : Option Student :=
  db.students.find? (fun s => s.id == id)

def Payment.findById (db : Db) (id : ObjectId) : Option Payment :=
  db.payments.find? (fun p => p.id == id)

/-- The effect of `student.save()` on a loaded document. -/
def Student.save (db : Db) (student : Student) : Db :=
  { db with students := db.students.map (fun s => if s.id == student.id then student else s) }

/-- The effect of `payment.save()` on a loaded document. -/
def Payment.save (db : Db) (payment : Payment) : Db :=
  { db with payments := db.payments.map (fun p => if p.id == payment.id then payment else p) }

/-- An id that no stored payment has. -/
def Payment.freshId (db : Db) : ObjectId :=
  (db.payments.map (fun p => p.id)).foldr max 0 + 1

/-! ## utils/generators.js -/

/-- The method `String.prototype.padStart(n, "0")`. -/
def padStart (s : String) (n : Nat) : String :=
  String.mk (List.replicate (n - s.length) '0') ++ s

/-- The function `generateReceiptNumber`, as a function of the clock and the random draw. -/
def generateReceiptNumber (date : JsDate) (u : ℚ) : String :=
  let year := date.fullYear
  let month := padStart (toString (date.month + 1)) 2
  let day := padStart (toString date.date) 2
  let random := Rat.floor (1000 + u * 9000)
  "RCP-" ++ toString year ++ month ++ day ++ "-" ++ toString random

/-! ## services/payment.service.js -/

/-- The body of a payment request (`paymentData`): `discount` and `lateFee` hold
`discount?.amount` and `lateFee?.amount`, absent when either level is. -/
structure PaymentData where
  organizationId : ObjectId
  studentId : ObjectId
  amount : Int
  paymentMethod : PaymentMethod
  paymentForType : PaymentForType
  discount : Option Int
  lateFee : Option Int
  paymentDate : Option Nat
  notes : Option String
  status : Option PaymentStatus
  receiptNumber : Option String
  collectedBy : Option ObjectId
  verifiedBy : Option ObjectId := none
  verifiedAt : Option Nat := none
  refund : Option Refund := none
deriving DecidableEq, Repr

/-- The expression `x || 0` on an optional number: `undefined` and `0` are falsy. -/
def orZero (x : Option Int) : Int :=
  match x with
  | some v => if v = 0 then 0 else v
  | none => 0

/-- The call `Payment.create(doc)`: schema validation (`amount` has `min: 0`, `notes` has
`maxlength: 500`, `receiptNumber` and `collectedBy` are required), schema defaults, the unique
index on `receiptNumber`, then the insert. -/
def Payment.create (db : Db) (now : JsDate) (doc : PaymentData) :
    Db × Except JsError Payment :=
  if doc.amount < 0 then (db, .error (.validationError "amount"))
  else if 500 < (doc.notes.getD "").length then (db, .error (.validationError "notes"))
  else
    match doc.receiptNumber, doc.collectedBy with
    | none, _ => (db, .error (.validationError "receiptNumber"))
    | some _, none => (db, .error (.validationError "collectedBy"))
    | some receiptNumber, some collectedBy =>
      if db.payments.any (fun p => p.receiptNumber == receiptNumber) then
        (db, .error (.duplicateKey "receiptNumber"))
      else
        let payment : Payment :=
          { id := Payment.freshId db
            organizationId := doc.organizationId
            studentId := doc.studentId
            amount := doc.amount
            paymentMethod := doc.paymentMethod
            status := doc.status.getD .pending
            receiptNumber := receiptNumber
            paymentForType := doc.paymentForType
            paymentDate := doc.paymentDate.getD now.time
            discountAmount := doc.discount.getD 0
            lateFeeAmount := doc.lateFee.getD 0
            collectedBy := collectedBy
            verifiedBy := doc.verifiedBy
            verifiedAt := doc.verifiedAt
            notes := doc.notes
            refund := doc.refund }
        ({ db with payments := db.payments ++ [payment] }, .ok payment)

/-- The function `updateStudentFinancials`. -/
def updateStudentFinancials (db : Db) (studentId : ObjectId) (amount : Int) :
    Db × Except JsError Student :=
  match Student.findById db studentId with
  | none => (db, .error (.error "Student not found"))
  | some student =>
    let student := { student with totalPaid := student.totalPaid + amount }
    let student := { student with totalDebt := max 0 (student.totalDebt - amount) }
    (Student.save db student, .ok student)

/-- The function `processPayment`. -/
def processPayment (env : Env) (db : Db) (paymentData : PaymentData) (collectedBy : ObjectId) :
    Db × Except JsError Payment :=
  let receiptNumber := generateReceiptNumber env.now env.random
  let netAmount :=
    paymentData.amount - orZero paymentData.discount + orZero paymentData.lateFee
  match Payment.create db env.now
      { paymentData with
        receiptNumber := some receiptNumber
        collectedBy := some collectedBy
        status := some .completed } with
  | (db, .error e) => (db, .error e)
  | (db, .ok payment) =>
    match updateStudentFinancials db paymentData.studentId netAmount with
    | (db, .error e) => (db, .error e)
    | (db, .ok _) => (db, .ok payment)

/-- The `refundData` argument of `processRefund`. -/
structure RefundData where
  amount : Int
  reason : String
deriving DecidableEq, Repr

/-- The function `processRefund`.  A payment whose student is gone makes the balance update
throw after the payment has been saved. -/
def processRefund (env : Env) (db : Db) (paymentId : ObjectId) (refundData : RefundData)
    (refundedBy : ObjectId) : Db × Except JsError Payment :=
  match Payment.findById db paymentId with
  | none => (db, .error (.error "Payment not found"))
  | some payment =>
    if payment.status = .refunded then (db, .error (.error "Payment already refunded"))
    else
      let payment := { payment with status := .refunded }
      let payment :=
        { payment with
          refund := some
            { amount := refundData.amount
              reason := refundData.reason
              refundedBy := refundedBy
              refundDate := env.now.time } }
      let db := Payment.save db payment
      match Student.findById db payment.studentId with
      | none => (db, .error .typeError)
      | some student =>
        let student := { student with totalPaid := student.totalPaid - refundData.amount }
        let student := { student with totalDebt := student.totalDebt + refundData.amount }
        (Student.save db student, .ok payment)

/-- The `paymentDate` condition of the match query. -/
structure DateRange where
  gte : Option Nat
  lte : Option Nat
deriving DecidableEq, Repr

/-- The object `matchQuery` of `getPaymentStatistics`. -/
structure MatchQuery where
  organizationId : ObjectId
  status : PaymentStatus
  paymentDate : Option DateRange
deriving DecidableEq, Repr

/-- Whether a date satisfies the `$gte` / `$lte` conditions that are present. -/
def DateRange.holds (r : DateRange) (d : Nat) : Bool :=
  (match r.gte with
   | some lo => decide (lo ≤ d)
   | none => true) &&
  (match r.lte with
   | some hi => decide (d ≤ hi)
   | none => true)

/-- The `$match` stage: every condition of the query holds of the document. -/
def MatchQuery.holds (q : MatchQuery) (p : Payment) : Bool :=
  (p.organizationId == q.organizationId) && decide (p.status = q.status) &&
  (match q.paymentDate with
   | some r => r.holds p.paymentDate
   | none => true)

/-- The document of the `$group` stage with `_id: null`. -/
structure Summary where
  totalAmount : Int
  totalDiscount : Int
  totalLateFee : Int
  totalPayments : Nat
  averagePayment : ℚ
deriving DecidableEq

/-- A document of the `$group` stage with `_id: "$paymentMethod"`. -/
structure MethodGroup where
  id : PaymentMethod
  count : Nat
  amount : Int
deriving DecidableEq, Repr

/-- The `$group` stage with `_id: null`: no document for no input, else one document with the
`$sum` and `$avg` accumulators. -/
def groupAll (docs : List Payment) : List Summary :=
  match docs with
  | [] => []
  | _ :: _ =>
    [{ totalAmount := (docs.map (fun p => p.amount)).sum
       totalDiscount := (docs.map (fun p => p.discountAmount)).sum
       totalLateFee := (docs.map (fun p => p.lateFeeAmount)).sum
       totalPayments := docs.length
       averagePayment := ((docs.map (fun p => p.amount)).sum : ℚ) / (docs.length : ℚ) }]

/-- One step of the `$group` stage by payment method: the document joins the group of its
method, or opens it. -/
def addToGroups (groups : List MethodGroup) (p : Payment) : List MethodGroup :=
  match groups with
  | [] => [{ id := p.paymentMethod, count := 1, amount := p.amount }]
  | g :: rest =>
    if g.id = p.paymentMethod then
      { g with count := g.count + 1, amount := g.amount + p.amount } :: rest
    else g :: addToGroups rest p

/-- The `$group` stage with `_id: "$paymentMethod"`, groups in order of first appearance. -/
def groupByMethod (docs : List Payment) : List MethodGroup :=
  docs.foldl addToGroups []

/-- The result of `getPaymentStatistics`. -/
structure Statistics where
  summary : Summary
  byMethod : List MethodGroup
deriving DecidableEq

/-- The function `getPaymentStatistics`; the optional dates arrive already parsed. -/
def getPaymentStatistics (db : Db) (organizationId : ObjectId) (startDate endDate : Option Nat) :
    Statistics :=
  let matchQuery : MatchQuery :=
    { organizationId := organizationId
      status := .completed
      paymentDate :=
        if startDate.isSome || endDate.isSome then
          some { gte := startDate, lte := endDate }
        else none }
  let stats := groupAll (db.payments.filter matchQuery.holds)
  let paymentMethods := groupByMethod (db.payments.filter matchQuery.holds)
  { summary :=
      (stats.head?).getD
        { totalAmount := 0
          totalDiscount := 0
          totalLateFee := 0
          totalPayments := 0
          averagePayment := 0 }
    byMethod := paymentMethods }

/-! ## utils/apiResponse.js and middlewares/error.middleware.js -/

/-- What a handler sends: the status code and the JSON body. -/
structure Response where
  statusCode : Nat
  success : Bool
  message : String
  data : Option Payment
deriving DecidableEq, Repr

def successResponse (message : String) (data : Option Payment) : Response :=
  { statusCode := 200, success := true, message := message, data := data }

def createdResponse (message : String) (data : Option Payment) : Response :=
  { statusCode := 201, success := true, message := message, data := data }

def errorResponse (message : String) (statusCode : Nat) : Response :=
  { statusCode := statusCode, success := false, message := message, data := none }

def badRequestResponse (message : String) : Response := errorResponse message 400

def notFoundResponse (message : String) : Response := errorResponse message 404

def forbiddenResponse (message : String) : Response := errorResponse message 403

def unauthorizedResponse (message : String) : Response := errorResponse message 401

def validationErrorResponse : Response := errorResponse "Validation failed" 422

/-- The middleware `errorHandler`, which answers for every error a handler throws.  The
message of a schema validation error is abbreviated to its path. -/
def errorHandler (err : JsError) : Response :=
  match err with
  | .error message => errorResponse (if message = "" then "Server Error" else message) 500
  | .validationError path => errorResponse path 400
  | .duplicateKey field => errorResponse (field ++ " already exists") 409
  | .typeError => errorResponse "Cannot read properties of null" 500

/-! ## controllers/payment.controller.js -/

/-- The authenticated user `req.user`. -/
structure User where
  id : ObjectId
  organizationId : ObjectId
  role : String
deriving DecidableEq, Repr

/-- The handler `refundPayment`. -/
def refundPayment (env : Env) (db : Db) (user : User) (id : ObjectId) (body : RefundData) :
    Db × Response :=
  match Payment.findById db id with
  | none => (db, notFoundResponse "Payment not found")
  | some payment =>
    if payment.status ≠ .completed then
      (db, badRequestResponse "Can only refund completed payments")
    else if body.amount > payment.amount then
      (db, badRequestResponse "Refund amount cannot exceed payment amount")
    else
      match processRefund env db payment.id
          { amount := body.amount, reason := body.reason } user.id with
      | (db, .error e) => (db, errorHandler e)
      | (db, .ok refundedPayment) =>
        (db, successResponse "Payment refunded successfully" (some refundedPayment))

/-- The handler `verifyPayment`. -/
def verifyPayment (env : Env) (db : Db) (user : User) (id : ObjectId) : Db × Response :=
  match Payment.findById db id with
  | none => (db, notFoundResponse "Payment not found")
  | some payment =>
    if payment.status ≠ .pending then
      (db, badRequestResponse "Payment is not pending verification")
    else
      let payment := { payment with status := .completed }
      let payment := { payment with verifiedBy := some user.id }
      let payment := { payment with verifiedAt := some env.now.time }
      let db := Payment.save db payment
      match updateStudentFinancials db payment.studentId payment.amount with
      | (db, .error e) => (db, errorHandler e)
      | (db, .ok _) => (db, successResponse "Payment verified successfully" (some payment))

/-- The body of an update request: the three keys the handler reads, each absent or present,
and the names of the other keys. -/
structure UpdateBody where
  status : Option PaymentStatus
  notes : Option String
  verifiedBy : Option ObjectId
  otherKeys : List String
deriving DecidableEq, Repr

/-- The value of `Object.keys(req.body)`. -/
def UpdateBody.keys (body : UpdateBody) : List String :=
  (if body.status.isSome then ["status"] else []) ++
  (if body.notes.isSome then ["notes"] else []) ++
  (if body.verifiedBy.isSome then ["verifiedBy"] else []) ++
  body.otherKeys

/-- The assignments of `updatePayment` between its guards and the save: `if (status) ...`,
`if (notes) ...`, `if (verifiedBy) ...`; an empty `notes` is falsy. -/
def applyUpdateBody (env : Env) (payment : Payment) (body : UpdateBody) : Payment :=
  let payment : Payment :=
    match body.status with
    | some status => { payment with status := status }
    | none => payment
  let payment : Payment :=
    match body.notes with
    | some notes => if notes = "" then payment else { payment with notes := some notes }
    | none => payment
  match body.verifiedBy with
  | some verifiedBy =>
    { payment with verifiedBy := some verifiedBy, verifiedAt := some env.now.time }
  | none => payment

/-- The handler `updatePayment`.  The save validates the modified `notes` against the schema's
`maxlength: 500`. -/
def updatePayment (env : Env) (db : Db) (user : User) (id : ObjectId) (body : UpdateBody) :
    Db × Response :=
  match Payment.findById db id with
  | none => (db, notFoundResponse "Payment not found")
  | some payment =>
    if payment.organizationId ≠ user.organizationId then
      (db, notFoundResponse "Payment not found")
    else if payment.status = .completed ∧ body.keys.any (fun key => key != "notes") then
      (db, badRequestResponse "Cannot update completed payment")
    else
      let payment := applyUpdateBody env payment body
      if 500 < (body.notes.getD "").length then
        (db, errorHandler (.validationError "notes"))
      else
        (Payment.save db payment, successResponse "Payment updated successfully" (some payment))

/-- Whether each of the two receipt senders that `createPayment` awaits resolves or throws;
they write nothing to the store. -/
structure Notifier where
  sendPaymentReceiptEmail : Student → Payment → Except JsError Unit
  sendPaymentReceiptSMS : Student → Payment → Except JsError Unit

/-- The handler `createPayment`, with `req.body` as the payment data.  The third component is
what the `catch` around the senders hands to `logger.error`. -/
def createPayment (env : Env) (notifier : Notifier) (db : Db) (user : User)
    (body : PaymentData) : Db × Response × List JsError :=
  let paymentData : PaymentData := { body with organizationId := user.organizationId }
  match Student.findById db paymentData.studentId with
  | none => (db, notFoundResponse "Student not found", [])
  | some student =>
    match processPayment env db paymentData user.id with
    | (db, .error e) => (db, errorHandler e, [])
    | (db, .ok payment) =>
      let logged : List JsError :=
        match notifier.sendPaymentReceiptEmail student payment with
        | .error error => [error]
        | .ok _ =>
          match notifier.sendPaymentReceiptSMS student payment with
          | .error error => [error]
          | .ok _ => []
      (db, createdResponse "Payment created successfully" (some payment), logged)

/-- The handler `deletePayment`; `payment.deleteOne()` removes the document of that id. -/
def deletePayment (db : Db) (user : User) (id : ObjectId) : Db × Response :=
  match Payment.findById db id with
  | none => (db, notFoundResponse "Payment not found")
  | some payment =>
    if payment.organizationId ≠ user.organizationId then
      (db, notFoundResponse "Payment not found")
    else if payment.status = .completed then
      (db, badRequestResponse "Cannot delete completed payment. Please use refund instead.")
    else
      ({ db with payments := db.payments.filter (fun p => p.id != payment.id) },
        successResponse "Payment deleted successfully" none)

/-! ## Late fees: `calculateLateFee` of services/payment.service.js -/

/-- The two `financialSettings` of `models/Organization.js` that the late fee reads. -/
structure FinancialSettings where
  lateFeePerDay : Int
  gracePeriodDays : Int
deriving DecidableEq, Repr

/-- A stored document of `models/Organization.js`. -/
structure Organization where
  id : ObjectId
  financialSettings : FinancialSettings
deriving DecidableEq, Repr

/-- The object that `calculateLateFee` returns. -/
structure LateFee where
  amount : Int
  daysLate : Int
deriving DecidableEq, Repr

def Organization.findById (organizations : List Organization) (id : ObjectId) :
    Option Organization :=
  organizations.find? (fun o => o.id == id)

/-- The function `calculateLateFee`; its third argument is not used. -/
def calculateLateFee (db : Db) (organizations : List Organization) (studentId : ObjectId)
    (daysLate : Int) (_baseFee : Int) : Except JsError LateFee :=
  match Student.findById db studentId with
  | none => .error (.error "Student not found")
  | some student =>
    match Organization.findById organizations student.organizationId with
    | none => .error (.error "Organization not found")
    | some organization =>
      if daysLate ≤ organization.financialSettings.gracePeriodDays then
        .ok { amount := 0, daysLate := 0 }
      else
        let actualDaysLate := daysLate - organization.financialSettings.gracePeriodDays
        let lateFeePerDay := organization.financialSettings.lateFeePerDay
        let lateFeeAmount := actualDaysLate * lateFeePerDay
        .ok { amount := lateFeeAmount, daysLate := actualDaysLate }

/-! ## Leads and groups: models/Group.js, models/Lead.js, `convertToStudent` of
controllers/lead.controller.js and `enrollStudent` of controllers/student.controller.js -/

/-- An entry of `currentStudents` in `models/Group.js`. -/
structure GroupMember where
  studentId : ObjectId
  enrollmentDate : Nat
  status : String
deriving DecidableEq, Repr

/-- A stored document of `models/Group.js`: the fields that enrollment reads and writes, and
some that it must leave alone. -/
structure Group where
  id : ObjectId
  organizationId : ObjectId
  name : String
  maxStudents : Int
  currentStudents : List GroupMember
  status : String
deriving DecidableEq, Repr

/-- The method `getAvailableSlots`. -/
def Group.getAvailableSlots (this : Group) : Int :=
  this.maxStudents - ((this.currentStudents.filter (fun s => s.status == "active")).length : Int)

/-- The method `isFull`. -/
def Group.isFull (this : Group) : Bool :=
  decide (this.getAvailableSlots ≤ 0)

/-- The `enrollmentStatus` of `models/Lead.js`. -/
structure EnrollmentStatus where
  isEnrolled : Bool
  enrolledDate : Option Nat
  enrolledGroupId : Option ObjectId
  studentId : Option ObjectId
deriving DecidableEq, Repr

/-- A stored document of `models/Lead.js`: the fields that the conversion reads and writes. -/
structure Lead where
  id : ObjectId
  organizationId : ObjectId
  firstName : String
  lastName : String
  phone : String
  email : Option String
  status : String
  enrollmentStatus : EnrollmentStatus
deriving DecidableEq, Repr

/-- A document of the `User` model, with the fields that `convertToStudent` passes to
`User.create`. -/
structure UserAccount where
  id : ObjectId
  firstName : String
  lastName : String
  email : String
  password : String
  phone : String
  role : String
  organizationId : ObjectId
deriving DecidableEq, Repr

/-- The collections that the conversion and the enrollment touch; the students live in the
ledger's store. -/
structure Crm where
  ledger : Db
  leads : List Lead
  users : List UserAccount
  groups : List Group
deriving DecidableEq, Repr

def Lead.findById (db : Crm) (id : ObjectId) : Option Lead :=
  db.leads.find? (fun l => l.id == id)

def Group.findById (db : Crm) (id : ObjectId) : Option Group :=
  db.groups.find? (fun g => g.id == id)

/-- The effect of `lead.save()` on a loaded document. -/
def Lead.save (db : Crm) (lead : Lead) : Crm :=
  { db with leads := db.leads.map (fun l => if l.id == lead.id then lead else l) }

/-- The effect of `group.save()` on a loaded document. -/
def Group.save (db : Crm) (group : Group) : Crm :=
  { db with groups := db.groups.map (fun g => if g.id == group.id then group else g) }

/-- The call `User.create(doc)`.  The `User` model is not among the sources, so the verdict
of its schema on a document is a parameter; an accepted document is inserted under a new
id. -/
def User.create (userValidation : List UserAccount → UserAccount → Option JsError) (db : Crm)
    (doc : UserAccount) : Crm × Except JsError UserAccount :=
  match userValidation db.users doc with
  | some e => (db, .error e)
  | none =>
    let user : UserAccount := { doc with id := (db.users.map (fun u => u.id)).foldr max 0 + 1 }
    ({ db with users := db.users ++ [user] }, .ok user)

/-- The function `generateStudentId` of `utils/generators.js`. -/
def generateStudentId (date : JsDate) (u : ℚ) : String :=
  let year := date.fullYear
  let month := padStart (toString (date.month + 1)) 2
  let day := padStart (toString date.date) 2
  let random := Rat.floor (1000 + u * 9000)
  "STD-" ++ toString year ++ month ++ day ++ "-" ++ toString random

/-- The body of a conversion request that the model keeps: the group and the two fields
that the `Student` schema requires. -/
structure ConvertBody where
  groupId : ObjectId
  dateOfBirth : Option Nat
  gender : Option String
deriving DecidableEq, Repr

/-- The call `Student.create(doc)` of `convertToStudent`: `dateOfBirth` and `gender` are
required, `gender` is `male` or `female`, `userId` and `studentId` are unique; the other
fields take the schema defaults. -/
def Student.create (db : Crm) (userId : ObjectId) (studentId : String)
    (organizationId : ObjectId) (body : ConvertBody) : Crm × Except JsError Student :=
  match body.dateOfBirth, body.gender with
  | none, _ => (db, .error (.validationError "dateOfBirth"))
  | some _, none => (db, .error (.validationError "gender"))
  | some _, some gender =>
    if !(["male", "female"].contains gender) then (db, .error (.validationError "gender"))
    else if db.ledger.students.any (fun s => s.userId == userId) then
      (db, .error (.duplicateKey "userId"))
    else if db.ledger.students.any (fun s => s.studentId == studentId) then
      (db, .error (.duplicateKey "studentId"))
    else
      let student : Student :=
        { id := (db.ledger.students.map (fun s => s.id)).foldr max 0 + 1
          userId := userId
          studentId := studentId
          organizationId := organizationId
          status := "active"
          currentGroups := []
          totalDebt := 0
          totalPaid := 0
          notes := none }
      ({ db with ledger := { db.ledger with students := db.ledger.students ++ [student] } },
        .ok student)

/-- The handler `convertToStudent`.  The temporary password comes from `generatePassword`;
the welcome messages, sent inside a `try`/`catch` that only logs, and the data of the
response are left out. -/
def convertToStudent (env : Env) (tempPassword : String)
    (userValidation : List UserAccount → UserAccount → Option JsError) (db : Crm)
    (id : ObjectId) (body : ConvertBody) : Crm × Response :=
  match Lead.findById db id with
  | none => (db, notFoundResponse "Lead not found")
  | some lead =>
    if lead.enrollmentStatus.isEnrolled then
      (db, badRequestResponse "Lead already converted to student")
    else
      match Group.findById db body.groupId with
      | none => (db, notFoundResponse "Group not found")
      | some group =>
        if group.isFull then (db, badRequestResponse "Group is full")
        else
          match User.create userValidation db
              { id := 0
                firstName := lead.firstName
                lastName := lead.lastName
                email :=
                  if lead.email.getD "" = "" then lead.phone ++ "@educrm.temp"
                  else lead.email.getD ""
                password := tempPassword
                phone := lead.phone
                role := "student"
                organizationId := lead.organizationId } with
          | (db, .error e) => (db, errorHandler e)
          | (db, .ok user) =>
            match Student.create db user.id (generateStudentId env.now env.random)
                lead.organizationId body with
            | (db, .error e) => (db, errorHandler e)
            | (db, .ok student) =>
              let student : Student :=
                { student with currentGroups := student.currentGroups ++ [body.groupId] }
              let db : Crm := { db with ledger := Student.save db.ledger student }
              let group : Group :=
                { group with
                  currentStudents := group.currentStudents ++
                    [{ studentId := student.id
                       enrollmentDate := env.now.time
                       status := "active" }] }
              let db : Crm := Group.save db group
              let lead : Lead :=
                { lead with
                  enrollmentStatus :=
                    { isEnrolled := true
                      enrolledDate := some env.now.time
                      enrolledGroupId := some body.groupId
                      studentId := some student.id }
                  status := "enrolled" }
              let db : Crm := Lead.save db lead
              (db, createdResponse "Lead converted to student successfully" none)

/-- The handler `enrollStudent`; the student in the data of the response is left out. -/
def enrollStudent (env : Env) (db : Crm) (id : ObjectId) (groupId : ObjectId) :
    Crm × Response :=
  match Student.findById db.ledger id with
  | none => (db, notFoundResponse "Student not found")
  | some student =>
    match Group.findById db groupId with
    | none => (db, notFoundResponse "Group not found")
    | some group =>
      if group.isFull then (db, badRequestResponse "Group is full")
      else if student.currentGroups.contains groupId then
        (db, badRequestResponse "Student already enrolled in this group")
      else
        let student : Student :=
          { student with currentGroups := student.currentGroups ++ [groupId] }
        let db : Crm := { db with ledger := Student.save db.ledger student }
        let group : Group :=
          { group with
            currentStudents := group.currentStudents ++
              [{ studentId := student.id
                 enrollmentDate := env.now.time
                 status := "active" }] }
        let db : Crm := Group.save db group
        (db, successResponse "Student enrolled successfully" none)

/-! ## validators/payment.validator.js, middlewares and routes/payment.routes.js -/

/-- The sanitizer `trim()`: whitespace removed at both ends. -/
def trim (s : String) : String :=
  String.mk ((s.data.dropWhile Char.isWhitespace).reverse.dropWhile Char.isWhitespace).reverse

/-- The chain `refundPaymentValidator` followed by `validate`: `amount` passes
`isFloat({ min: 0.01 })`, which on whole amounts is `1 ≤ amount`, and the trimmed `reason` has
3 to 200 characters. -/
def refundPaymentValidator (body : RefundData) : Bool :=
  decide (1 ≤ body.amount) && (body.reason != "") &&
  decide (3 ≤ (trim body.reason).length) && decide ((trim body.reason).length ≤ 200)

/-- The middleware `isAdminOrSuperAdmin`. -/
def isAdminOrSuperAdmin (user : User) : Bool :=
  ["superadmin", "admin"].contains user.role

/-- The route `POST /:id/refund`: `isAdminOrSuperAdmin`, `refundPaymentValidator`, `validate`,
`refundPayment`; the handler receives the sanitized body. -/
def refundRoute (env : Env) (db : Db) (user : User) (id : ObjectId) (body : RefundData) :
    Db × Response :=
  if !isAdminOrSuperAdmin user then
    (db, forbiddenResponse "Only admin or superadmin can perform this action")
  else if !refundPaymentValidator body then (db, validationErrorResponse)
  else refundPayment env db user id { body with reason := trim body.reason }

/-- The chain `createPaymentValidator` followed by `validate`, on the fields of the model:
`amount` passes `isFloat({ min: 0.01 })`, which on whole amounts is `1 ≤ amount`, and a
`discount.amount` that is present passes `isFloat({ min: 0 })`. -/
def createPaymentValidator (body : PaymentData) : Bool :=
  decide (1 ≤ body.amount) &&
  (match body.discount with
   | some d => decide (0 ≤ d)
   | none => true)

/-- The middleware `authorize(...roles)`. -/
def authorize (roles : List String) (user : User) : Bool :=
  roles.contains user.role

/-- The route `POST /`: `authorize("admin", "accountant")`, `createPaymentValidator`,
`validate`, `createPayment`. -/
def createRoute (env : Env) (notifier : Notifier) (db : Db) (user : User)
    (body : PaymentData) : Db × Response × List JsError :=
  if !authorize ["admin", "accountant"] user then
    (db, unauthorizedResponse
      ("User role '" ++ user.role ++ "' is not authorized to access this route"), [])
  else if !createPaymentValidator body then (db, validationErrorResponse, [])
  else createPayment env notifier db user body

/-! ## The `Number` of the schemas: IEEE 754 doubles

The money fields of `models/Payment.js` and `models/Student.js` have `type: Number`, and the
validators accept fractions (`isFloat` with `min: 0.01`).  A finite double is a whole multiple
of 2^-1074 with at most 53 significant bits, and the sum of two doubles is their exact sum
rounded to the nearest double, a tie going to the even significand.  Infinities, `NaN` and the
sign of zero are not modelled. -/

/-- A finite double, given by its value in units of 2^-1074. -/
structure Number where
  units : Int
deriving DecidableEq, Repr

/-- The binade of a magnitude `m` in units of 2^-1074: the least exponent `e`, searched
upwards from the given one, with `m < 2 ^ (53 + e)`; the doubles around `m` are then the
multiples of `2 ^ e`.  The finite doubles lie below `2 ^ (53 + 2045)`, which bounds the
search. -/
def Number.binade : Nat → Nat → Nat → Nat
  | 0, e, _ => e
  | fuel + 1, e, m => if m < 2 ^ (53 + e) then e else Number.binade fuel (e + 1) m

/-- Rounding of a magnitude to the nearest double: the nearest multiple of the spacing of its
binade, a tie going to the even multiple. -/
def Number.roundMagnitude (m : Nat) : Nat :=
  let e := Number.binade 2046 0 m
  let q := m / 2 ^ e
  let r := m % 2 ^ e
  if 2 * r < 2 ^ e then q * 2 ^ e
  else if 2 * r = 2 ^ e ∧ q % 2 = 0 then q * 2 ^ e
  else (q + 1) * 2 ^ e

/-- Rounding of an exact value in units of 2^-1074 to the nearest double. -/
def Number.round (x : Int) : Number :=
  if x < 0 then { units := -(Number.roundMagnitude x.natAbs : Int) }
  else { units := (Number.roundMagnitude x.natAbs : Int) }

/-- The double nearest to a whole number. -/
def Number.ofInt (n : Int) : Number :=
  Number.round (n * 2 ^ 1074)

/-- The operator `+` on numbers. -/
def Number.add (a b : Number) : Number :=
  Number.round (a.units + b.units)

/-- The operator `-` on numbers. -/
def Number.sub (a b : Number) : Number :=
  Number.round (a.units - b.units)

/-- The function `Math.max` on two numbers. -/
def Number.max (a b : Number) : Number :=
  if a.units ≤ b.units then b else a

/-- The accumulator `$sum`, and a sum that a reader of the result forms with `+`: from 0, one
addition for each number in turn. -/
def Number.sum (xs : List Number) : Number :=
  xs.foldl Number.add (Number.ofInt 0)

/-- The constant `Number.MAX_SAFE_INTEGER`, 2^53 - 1. -/
def MAX_SAFE_INTEGER : Nat := 9007199254740991

/-- The test `Number.isSafeInteger` on a whole number: every whole number of this range is a
double. -/
abbrev isSafeInteger (x : Int) : Prop :=
  x.natAbs ≤ MAX_SAFE_INTEGER

/-- The two balance assignments of `updateStudentFinancials` on the stored doubles,
`student.totalPaid += amount` and
`student.totalDebt = Math.max(0, student.totalDebt - amount)`: the new `totalPaid` and the new
`totalDebt`. -/
def updateStudentFinancialsNumber (totalPaid totalDebt amount : Number) : Number × Number :=
  (totalPaid.add amount, Number.max (Number.ofInt 0) (totalDebt.sub amount))

/-- The two balance assignments of `processRefund` on the stored doubles,
`student.totalPaid -= refundData.amount` and `student.totalDebt += refundData.amount`: the new
`totalPaid` and the new `totalDebt`. -/
def processRefundNumber (totalPaid totalDebt amount : Number) : Number × Number :=
  (totalPaid.sub amount, totalDebt.add amount)

/-- What the two pipelines of `getPaymentStatistics` read of a stored payment, the amount as
the double it is stored as. -/
structure NumberPayment where
  organizationId : ObjectId
  status : PaymentStatus
  paymentDate : Nat
  paymentMethod : PaymentMethod
  amount : Number
deriving DecidableEq, Repr

/-- The stored form of a payment whose amount is a whole number. -/
def Payment.toNumber (p : Payment) : NumberPayment :=
  { organizationId := p.organizationId
    status := p.status
    paymentDate := p.paymentDate
    paymentMethod := p.paymentMethod
    amount := Number.ofInt p.amount }

/-- The `$match` stage on the stored form: every condition of the query holds of the
document. -/
def MatchQuery.holdsNumber (q : MatchQuery) (p : NumberPayment) : Bool :=
  (p.organizationId == q.organizationId) && decide (p.status = q.status) &&
  (match q.paymentDate with
   | some r => r.holds p.paymentDate
   | none => true)

/-- The object `matchQuery` that `getPaymentStatistics` builds from its arguments. -/
def statisticsQuery (organizationId : ObjectId) (startDate endDate : Option Nat) : MatchQuery :=
  { organizationId := organizationId
    status := .completed
    paymentDate :=
      if startDate.isSome || endDate.isSome then
        some { gte := startDate, lte := endDate }
      else none }

/-- The two accumulators of the `$group` stage with `_id: null` that the breakdown by method
repeats, `totalAmount` and `totalPayments`. -/
structure NumberSummary where
  totalAmount : Number
  totalPayments : Nat
deriving DecidableEq, Repr

/-- A document of the `$group` stage with `_id: "$paymentMethod"`, the amount a double. -/
structure NumberMethodGroup where
  id : PaymentMethod
  count : Nat
  amount : Number
deriving DecidableEq, Repr

/-- The stored form of a group whose amount is a whole number. -/
def MethodGroup.toNumber (g : MethodGroup) : NumberMethodGroup :=
  { id := g.id, count := g.count, amount := Number.ofInt g.amount }

/-- The `$group` stage with `_id: null` on doubles: no document for no input, else one
document with `$sum: "$amount"` and `$sum: 1`. -/
def groupAllNumber (docs : List NumberPayment) : List NumberSummary :=
  match docs with
  | [] => []
  | _ :: _ =>
    [{ totalAmount := Number.sum (docs.map (fun p => p.amount))
       totalPayments := docs.length }]

/-- One step of the `$group` stage by payment method on doubles: the document joins the group
of its method, or opens it with its amount added to 0. -/
def addToGroupsNumber (groups : List NumberMethodGroup) (p : NumberPayment) :
    List NumberMethodGroup :=
  match groups with
  | [] => [{ id := p.paymentMethod, count := 1, amount := (Number.ofInt 0).add p.amount }]
  | g :: rest =>
    if g.id = p.paymentMethod then
      { g with count := g.count + 1, amount := g.amount.add p.amount } :: rest
    else g :: addToGroupsNumber rest p

/-- The `$group` stage with `_id: "$paymentMethod"` on doubles, groups in order of first
appearance. -/
def groupByMethodNumber (docs : List NumberPayment) : List NumberMethodGroup :=
  docs.foldl addToGroupsNumber []

/-- The part of the result of `getPaymentStatistics` that the two pipelines share. -/
structure NumberStatistics where
  summary : NumberSummary
  byMethod : List NumberMethodGroup
deriving DecidableEq, Repr

/-- The function `getPaymentStatistics` on the stored doubles, for the amounts and the
counts. -/
def getPaymentStatisticsNumber (payments : List NumberPayment) (organizationId : ObjectId)
    (startDate endDate : Option Nat) : NumberStatistics :=
  let matchQuery : MatchQuery :=
    { organizationId := organizationId
      status := .completed
      paymentDate :=
        if startDate.isSome || endDate.isSome then
          some { gte := startDate, lte := endDate }
        else none }
  let stats := groupAllNumber (payments.filter matchQuery.holdsNumber)
  let paymentMethods := groupByMethodNumber (payments.filter matchQuery.holdsNumber)
  { summary := (stats.head?).getD { totalAmount := Number.ofInt 0, totalPayments := 0 }
    byMethod := paymentMethods }

/-! ## Fixtures of `__tests__/payment.test.js` -/

/-- A clock reading and a random draw. -/
def fixtureEnv : Env :=
  { now := { time := 1700000000000, fullYear := 2023, month := 10, date := 14 }
    random := 1 / 2 }

/-- The student the tests mock: nothing paid, 5000 owed. -/
def fixtureStudent : Student :=
  { id := 123
    userId := 10
    studentId := "STD-20231114-1234"
    organizationId := 7
    status := "active"
    currentGroups := []
    totalDebt := 5000
    totalPaid := 0
    notes := none }

def fixtureDb : Db := { students := [fixtureStudent], payments := [] }

/-- The request of the test "should calculate net amount correctly". -/
def fixtureRequest : PaymentData :=
  { organizationId := 7
    studentId := 123
    amount := 1000
    paymentMethod := .cash
    paymentForType := .tuition
    discount := some 100
    lateFee := some 50
    paymentDate := none
    notes := none
    status := none
    receiptNumber := none
    collectedBy := none }

/-- The payment that the request above leaves behind, with the receipt number as text. -/
def fixturePayment : Payment :=
  { id := 1
    organizationId := 7
    studentId := 123
    amount := 1000
    paymentMethod := .cash
    status := .completed
    receiptNumber := "RCP-20231114-5500"
    paymentForType := .tuition
    paymentDate := 1700000000000
    discountAmount := 100
    lateFeeAmount := 50
    collectedBy := 99
    verifiedBy := none
    verifiedAt := none
    notes := none
    refund := none }

/-- The store after that payment: 950 paid, 4050 owed. -/
def fixturePaidDb : Db :=
  { students := [{ fixtureStudent with totalPaid := 950, totalDebt := 4050 }]
    payments := [fixturePayment] }

/-- The same store with the payment still awaiting verification. -/
def fixturePendingDb : Db :=
  { students := [fixtureStudent]
    payments := [{ fixturePayment with status := .pending }] }

/-- An administrator of the payment's organization. -/
def fixtureAdmin : User := { id := 99, organizationId := 7, role := "admin" }

/-- The store after a refund of 500 of that payment: 450 paid, 4550 owed. -/
def fixtureRefundedDb : Db :=
  { students := [{ fixtureStudent with totalPaid := 450, totalDebt := 4550 }]
    payments := [{ fixturePayment with
      status := .refunded
      refund := some
        { amount := 500, reason := "course cancelled", refundedBy := 99
          refundDate := 1700000000000 } }] }

/-- The student of the test "should not allow negative debt", with a completed payment. -/
def fixtureSmallDebtDb : Db :=
  { students := [{ fixtureStudent with totalPaid := 500, totalDebt := 300 }]
    payments := [fixturePayment] }

/-- A later request on the same day, with another random draw. -/
def fixtureEnvLater : Env :=
  { now := { time := 1700000600000, fullYear := 2023, month := 10, date := 14 }
    random := 1 / 4 }

/-- A store for the statistics: two completed payments of organization 7 (cash 1000, card
500), one pending payment, and one completed payment of organization 8. -/
def fixtureStatsDb : Db :=
  { students := [fixtureStudent]
    payments :=
      [fixturePayment,
       { fixturePayment with
         id := 2, amount := 500, paymentMethod := .card, discountAmount := 0
         lateFeeAmount := 0, receiptNumber := "RCP-20231114-3250" },
       { fixturePayment with
         id := 3, amount := 700, status := .pending, receiptNumber := "RCP-20231114-1000" },
       { fixturePayment with
         id := 4, organizationId := 8, amount := 900
         receiptNumber := "RCP-20231114-9999" }] }

/-- Senders that both resolve. -/
def fixtureNotifier : Notifier :=
  { sendPaymentReceiptEmail := fun _ _ => .ok ()
    sendPaymentReceiptSMS := fun _ _ => .ok () }

/-- An accountant of the payment's organization. -/
def fixtureAccountant : User := { id := 98, organizationId := 7, role := "accountant" }

/-- An administrator of another organization. -/
def fixtureOtherAdmin : User := { id := 77, organizationId := 8, role := "admin" }

/-- The organization of the fixtures: three days of grace, 10 a day afterwards. -/
def fixtureOrganizations : List Organization :=
  [{ id := 7, financialSettings := { lateFeePerDay := 10, gracePeriodDays := 3 } }]

/-- Senders of which the first throws, so that the second is never reached. -/
def fixtureFailingNotifier : Notifier :=
  { sendPaymentReceiptEmail := fun _ _ => .error (.error "SMTP connection refused")
    sendPaymentReceiptSMS := fun _ _ => .error (.error "SMS gateway down") }

/-- A lead who has not been converted. -/
def fixtureLead : Lead :=
  { id := 1
    organizationId := 7
    firstName := "Aziz"
    lastName := "Karimov"
    phone := "+998901234567"
    email := none
    status := "test_completed"
    enrollmentStatus :=
      { isEnrolled := false, enrolledDate := none, enrolledGroupId := none
        studentId := none } }

/-- A group of two places with one active and one dropped student. -/
def fixtureGroup : Group :=
  { id := 5
    organizationId := 7
    name := "IELTS evening"
    maxStudents := 2
    currentStudents :=
      [{ studentId := 123, enrollmentDate := 1690000000000, status := "active" },
       { studentId := 124, enrollmentDate := 1690000000000, status := "dropped" }]
    status := "active" }

/-- A store with that lead, that group and the fixture student. -/
def fixtureCrm : Crm :=
  { ledger :=
      { students := [{ fixtureStudent with studentId := "STD-20230901-1234" }]
        payments := [] }
    leads := [fixtureLead]
    users := []
    groups := [fixtureGroup] }

/-- A `User` schema that accepts every document. -/
def fixtureUserValidation : List UserAccount → UserAccount → Option JsError :=
  fun _ _ => none

/-- A conversion request for the fixture group. -/
def fixtureConvertBody : ConvertBody :=
  { groupId := 5, dateOfBirth := some 1000000000000, gender := some "male" }

/-- The double of the literal `0.01`. -/
def fixtureCent : Number :=
  { units := 5764607523034235 * 2 ^ 1015 }

/-- The double of the literal `0.04`. -/
def fixtureFourCents : Number :=
  { units := 5764607523034235 * 2 ^ 1017 }

/-- The double of the literal `0.05`. -/
def fixtureFiveCents : Number :=
  { units := 7205759403792794 * 2 ^ 1017 }

/-- The double of the literal `0.06`. -/
def fixtureSixCents : Number :=
  { units := 8646911284551352 * 2 ^ 1017 }

/-- The double of the literal `0.1`. -/
def fixtureTenth : Number :=
  { units := 7205759403792794 * 2 ^ 1018 }

/-- The double of the literal `0.2`. -/
def fixtureFifth : Number :=
  { units := 7205759403792794 * 2 ^ 1019 }

/-- Three completed payments of organization 7 as stored: 0.01 in cash, 0.01 by card and 0.04
in cash. -/
def fixtureFractionPayments : List NumberPayment :=
  [{ organizationId := 7, status := .completed, paymentDate := 1700000000000
     paymentMethod := .cash, amount := fixtureCent },
   { organizationId := 7, status := .completed, paymentDate := 1700000000000
     paymentMethod := .card, amount := fixtureCent },
   { organizationId := 7, status := .completed, paymentDate := 1700000000000
     paymentMethod := .cash, amount := fixtureFourCents }]

/-! ## Lemmas on the store -/

theorem orZero_eq (x : Option Int) : orZero x = x.getD 0 := by
  cases x with
  | none => rfl
  | some v =>
    by_cases h : v = 0
    · simp [orZero, h]
    · simp [orZero, h]

/-- Looking a key up after overwriting the entries of one key. -/
theorem find?_replace {α : Type} (key : α → Nat) (l : List α) (x : α) (i : Nat) :
    (l.map (fun a => if key a == key x then x else a)).find? (fun a => key a == i) =
      if i = key x then (l.find? (fun a => key a == i)).map (fun _ => x)
      else l.find? (fun a => key a == i) := by
  induction l with
  | nil => simp
  | cons a t ih =>
    rw [List.map_cons, List.find?_cons, List.find?_cons, ih]
    by_cases h1 : key a = key x
    · by_cases h2 : i = key x
      · have hb : (key x == i) = true := by simpa using h2.symm
        have hc : (key a == i) = true := by simpa using (h1.trans h2.symm)
        simp [h1, h2, hb, hc]
      · have hb : (key x == i) = false := by simpa using (fun h => h2 (Eq.symm h))
        have hc : (key a == i) = false := by simpa [h1] using (fun h => h2 (Eq.symm h))
        simp [h1, h2, hb, hc]
    · by_cases h3 : key a = i
      · have hc : (key a == i) = true := by simpa using h3
        have h2 : ¬ i = key x := fun h => h1 (h3.trans h)
        simp [h1, h2, hc]
      · have hc : (key a == i) = false := by simpa using h3
        simp [h1, hc]

theorem findStudent_save (db : Db) (s : Student) (i : ObjectId) :
    Student.findById (Student.save db s) i =
      if i = s.id then (Student.findById db i).map (fun _ => s) else Student.findById db i :=
  find?_replace (fun a : Student => a.id) db.students s i

theorem findPayment_save (db : Db) (p : Payment) (i : ObjectId) :
    Payment.findById (Payment.save db p) i =
      if i = p.id then (Payment.findById db i).map (fun _ => p) else Payment.findById db i :=
  find?_replace (fun a : Payment => a.id) db.payments p i

theorem findStudent_id {db : Db} {i : ObjectId} {s : Student}
    (h : Student.findById db i = some s) : s.id = i := by
  have h' := List.find?_some h
  simpa using h'

theorem findPayment_id {db : Db} {i : ObjectId} {p : Payment}
    (h : Payment.findById db i = some p) : p.id = i := by
  have h' := List.find?_some h
  simpa using h'

/-- Saving a loaded student makes it the document found under its id. -/
theorem findStudent_save_self {db : Db} {i : ObjectId} {s s' : Student}
    (h : Student.findById db i = some s) (hid : s'.id = s.id) :
    Student.findById (Student.save db s') i = some s' := by
  rw [findStudent_save, h, hid, findStudent_id h]
  simp

/-- Saving a loaded payment makes it the document found under its id. -/
theorem findPayment_save_self {db : Db} {i : ObjectId} {p p' : Payment}
    (h : Payment.findById db i = some p) (hid : p'.id = p.id) :
    Payment.findById (Payment.save db p') i = some p' := by
  rw [findPayment_save, h, hid, findPayment_id h]
  simp

theorem findStudent_save_payment (db : Db) (p : Payment) (i : ObjectId) :
    Student.findById (Payment.save db p) i = Student.findById db i := rfl

theorem findPayment_save_student (db : Db) (s : Student) (i : ObjectId) :
    Payment.findById (Student.save db s) i = Payment.findById db i := rfl

/-- Creating a payment leaves the students alone. -/
theorem Payment.create_students (db : Db) (now : JsDate) (doc : PaymentData) :
    (Payment.create db now doc).1.students = db.students := by
  unfold Payment.create
  split
  · rfl
  · split
    · rfl
    · split
      · rfl
      · rfl
      · split <;> rfl

/-- What a successful `Payment.create` stores and returns. -/
theorem Payment.create_ok {db db1 : Db} {now : JsDate} {doc : PaymentData} {payment : Payment}
    (h : Payment.create db now doc = (db1, .ok payment)) :
    db1 = { db with payments := db.payments ++ [payment] } ∧
    payment.amount = doc.amount ∧ payment.discountAmount = doc.discount.getD 0 ∧
    payment.lateFeeAmount = doc.lateFee.getD 0 ∧ payment.studentId = doc.studentId ∧
    payment.status = doc.status.getD .pending ∧ some payment.receiptNumber = doc.receiptNumber ∧
    some payment.collectedBy = doc.collectedBy := by
  unfold Payment.create at h
  split at h
  · simp at h
  · split at h
    · simp at h
    · split at h
      · simp at h
      · simp at h
      · rename_i r c hr hc
        split at h
        · simp at h
        · simp only [Prod.mk.injEq, Except.ok.injEq] at h
          obtain ⟨h1, h2⟩ := h
          subst h2
          exact ⟨h1.symm, rfl, rfl, rfl, rfl, rfl, hr.symm, hc.symm⟩

/-- When `Payment.create` goes through: a valid document with a receipt number not yet used. -/
theorem Payment.create_succeeds (db : Db) (now : JsDate) (doc : PaymentData)
    (receiptNumber : String) (collectedBy : ObjectId)
    (hamount : 0 ≤ doc.amount) (hnotes : (doc.notes.getD "").length ≤ 500)
    (hr : doc.receiptNumber = some receiptNumber) (hc : doc.collectedBy = some collectedBy)
    (huniq : db.payments.any (fun p => p.receiptNumber == receiptNumber) = false) :
    ∃ payment, Payment.create db now doc =
      ({ db with payments := db.payments ++ [payment] }, .ok payment) := by
  unfold Payment.create
  rw [if_neg (not_lt.mpr hamount), if_neg (not_lt.mpr hnotes), hr, hc]
  simp only [huniq]
  exact ⟨_, rfl⟩

/-- The function `processPayment` with the net amount written out. -/
theorem processPayment_eq (env : Env) (db : Db) (paymentData : PaymentData)
    (collectedBy : ObjectId) :
    processPayment env db paymentData collectedBy =
      (match Payment.create db env.now
          { paymentData with
            receiptNumber := some (generateReceiptNumber env.now env.random)
            collectedBy := some collectedBy
            status := some .completed } with
       | (db1, .error e) => (db1, .error e)
       | (db1, .ok payment) =>
         match updateStudentFinancials db1 paymentData.studentId
             (paymentData.amount - paymentData.discount.getD 0
               + paymentData.lateFee.getD 0) with
         | (db2, .error e) => (db2, .error e)
         | (db2, .ok _) => (db2, .ok payment)) := by
  unfold processPayment
  simp only [orZero_eq]

/-- The function `updateStudentFinancials` on a student that exists. -/
theorem updateStudentFinancials_eq {db : Db} {studentId : ObjectId} {s : Student} (a : Int)
    (h : Student.findById db studentId = some s) :
    updateStudentFinancials db studentId a =
      (Student.save db
          { s with totalPaid := s.totalPaid + a, totalDebt := max 0 (s.totalDebt - a) },
        .ok { s with totalPaid := s.totalPaid + a, totalDebt := max 0 (s.totalDebt - a) }) := by
  unfold updateStudentFinancials
  rw [h]

/-! ## Lemmas on doubles: exact on the safe integers -/

/-- The search for the binade stops at or below any exponent that fits the magnitude. -/
theorem binade_le (E m : Nat) (hm : m < 2 ^ (53 + E)) :
    ∀ (fuel e : Nat), e ≤ E → E ≤ e + fuel → Number.binade fuel e m ≤ E := by
  intro fuel
  induction fuel with
  | zero =>
    intro e h1 _
    unfold Number.binade
    exact h1
  | succ fuel ih =>
    intro e h1 h2
    unfold Number.binade
    by_cases h : m < 2 ^ (53 + e)
    · rw [if_pos h]
      exact h1
    · rw [if_neg h]
      have hne : e ≠ E := by
        intro he
        subst he
        exact h hm
      exact ih (e + 1) (by omega) (by omega)

/-- A magnitude of 53 bits times a power of two is a double: rounding leaves it as it is. -/
theorem roundMagnitude_exact (n k : Nat) (hn : n < 2 ^ 53) (hk : k ≤ 1074) :
    Number.roundMagnitude (n * 2 ^ k) = n * 2 ^ k := by
  have hm : n * 2 ^ k < 2 ^ (53 + k) := by
    rw [pow_add]
    exact Nat.mul_lt_mul_of_pos_right hn (Nat.two_pow_pos k)
  have he : Number.binade 2046 0 (n * 2 ^ k) ≤ k :=
    binade_le k _ hm 2046 0 (by omega) (by omega)
  have hdvd : 2 ^ Number.binade 2046 0 (n * 2 ^ k) ∣ n * 2 ^ k :=
    Dvd.dvd.mul_left (pow_dvd_pow 2 he) n
  have hr : n * 2 ^ k % 2 ^ Number.binade 2046 0 (n * 2 ^ k) = 0 :=
    Nat.mod_eq_zero_of_dvd hdvd
  unfold Number.roundMagnitude
  simp only [hr]
  rw [if_pos (by simp)]
  exact Nat.div_mul_cancel hdvd

/-- Rounding a value whose magnitude is a double gives that value. -/
theorem round_of_exact (x : Int) (h : Number.roundMagnitude x.natAbs = x.natAbs) :
    Number.round x = { units := x } := by
  unfold Number.round
  rw [h]
  by_cases hneg : x < 0
  · rw [if_pos hneg, Int.ofNat_natAbs_of_nonpos (le_of_lt hneg), neg_neg]
  · rw [if_neg hneg, Int.natAbs_of_nonneg (not_lt.mp hneg)]

/-- Rounding leaves a whole number of 53 bits, scaled by a power of two, as it is. -/
theorem round_mul_pow (n : Int) (k : Nat) (hn : n.natAbs < 2 ^ 53) (hk : k ≤ 1074) :
    Number.round (n * 2 ^ k) = { units := n * 2 ^ k } := by
  apply round_of_exact
  have hnat : (n * 2 ^ k).natAbs = n.natAbs * 2 ^ k := by
    rw [Int.natAbs_mul, Int.natAbs_pow]
    rfl
  rw [hnat]
  exact roundMagnitude_exact _ k hn hk

/-- A safe integer is a double: its double is the whole number itself. -/
theorem ofInt_eq (n : Int) (h : isSafeInteger n) :
    Number.ofInt n = { units := n * 2 ^ 1074 } := by
  unfold isSafeInteger MAX_SAFE_INTEGER at h
  exact round_mul_pow n 1074 (by omega) (le_refl _)

/-- The sum of two safe integers in doubles is the double nearest to their sum, which is
their sum when that is a safe integer. -/
theorem add_ofInt (a b : Int) (ha : isSafeInteger a) (hb : isSafeInteger b) :
    Number.add (Number.ofInt a) (Number.ofInt b) = Number.ofInt (a + b) := by
  rw [ofInt_eq a ha, ofInt_eq b hb]
  unfold Number.add
  exact congrArg Number.round (add_mul a b _).symm

/-- The difference of two safe integers in doubles is the double nearest to their
difference. -/
theorem sub_ofInt (a b : Int) (ha : isSafeInteger a) (hb : isSafeInteger b) :
    Number.sub (Number.ofInt a) (Number.ofInt b) = Number.ofInt (a - b) := by
  rw [ofInt_eq a ha, ofInt_eq b hb]
  unfold Number.sub
  exact congrArg Number.round (sub_mul a b _).symm

/-- On safe integers `Math.max` is the maximum of the whole numbers. -/
theorem max_ofInt (a b : Int) (ha : isSafeInteger a) (hb : isSafeInteger b) :
    Number.max (Number.ofInt a) (Number.ofInt b) = Number.ofInt (max a b) := by
  have hpos : (0 : Int) < 2 ^ 1074 := by positivity
  by_cases h : a ≤ b
  · rw [max_eq_right h]
    unfold Number.max
    rw [if_pos]
    rw [ofInt_eq a ha, ofInt_eq b hb]
    exact Int.mul_le_mul_of_nonneg_right h (le_of_lt hpos)
  · rw [max_eq_left (le_of_lt (not_le.mp h))]
    unfold Number.max
    rw [if_neg]
    rw [ofInt_eq a ha, ofInt_eq b hb]
    intro h'
    exact h (le_of_mul_le_mul_right h' hpos)

/-- Adding whole numbers one by one in doubles gives their sum, as long as the absolute
values add up to a safe integer. -/
theorem foldl_add_ofInt (l : List Int) :
    ∀ acc : Int, acc.natAbs + (l.map Int.natAbs).sum ≤ MAX_SAFE_INTEGER →
      (l.map Number.ofInt).foldl Number.add (Number.ofInt acc) = Number.ofInt (acc + l.sum) := by
  induction l with
  | nil =>
    intro acc _
    simp
  | cons a l ih =>
    intro acc h
    simp only [List.map_cons, List.sum_cons, List.foldl_cons] at h ⊢
    rw [add_ofInt acc a (by unfold isSafeInteger; omega) (by unfold isSafeInteger; omega),
      ih (acc + a) (by omega), add_assoc]

/-- The accumulator `$sum` on whole numbers whose absolute values add up to a safe integer
gives their sum. -/
theorem sum_ofInt (l : List Int) (h : (l.map Int.natAbs).sum ≤ MAX_SAFE_INTEGER) :
    Number.sum (l.map Number.ofInt) = Number.ofInt l.sum := by
  unfold Number.sum
  rw [foldl_add_ofInt l 0 (by simpa using h), zero_add]

/-- The balance assignments of `updateStudentFinancials` and then of `processRefund`, on
the doubles of safe integers whose sum `totalPaid + r` and difference `totalDebt - r` are safe
integers, compute the doubles of the whole numbers that `Int` arithmetic gives. -/
theorem balances_ofInt (totalPaid totalDebt r : Int)
    (hpaid : isSafeInteger totalPaid) (hdebt : isSafeInteger totalDebt) (hr : isSafeInteger r)
    (hsum : isSafeInteger (totalPaid + r)) (hdiff : isSafeInteger (totalDebt - r)) :
    processRefundNumber
        (updateStudentFinancialsNumber (Number.ofInt totalPaid) (Number.ofInt totalDebt)
          (Number.ofInt r)).1
        (updateStudentFinancialsNumber (Number.ofInt totalPaid) (Number.ofInt totalDebt)
          (Number.ofInt r)).2
        (Number.ofInt r) =
      (Number.ofInt (totalPaid + r - r), Number.ofInt (max 0 (totalDebt - r) + r)) := by
  have hmax : isSafeInteger (max 0 (totalDebt - r)) := by
    unfold isSafeInteger at hdiff ⊢
    omega
  unfold processRefundNumber updateStudentFinancialsNumber
  simp only
  rw [add_ofInt _ _ hpaid hr, sub_ofInt _ _ hsum hr, sub_ofInt _ _ hdebt hr,
    max_ofInt _ _ (by decide) hdiff, add_ofInt _ _ hmax hr]

/-- The fraction fixtures are doubles: rounding leaves each of them as it is. -/
theorem fixtureCent_double :
    Number.round fixtureCent.units = fixtureCent ∧
    Number.round fixtureFourCents.units = fixtureFourCents ∧
    Number.round fixtureFiveCents.units = fixtureFiveCents ∧
    Number.round fixtureSixCents.units = fixtureSixCents ∧
    Number.round fixtureTenth.units = fixtureTenth ∧
    Number.round fixtureFifth.units = fixtureFifth := by
  decide!

/-- The fraction fixtures are the doubles nearest to their decimals: each lies within half
the spacing of its binade of the decimal (1/100, 4/100, 5/100, 6/100, 1/10, 2/10). -/
theorem fixtureCent_nearest :
    2 * |100 * fixtureCent.units - 1 * 2 ^ 1074| ≤ 100 * 2 ^ 1015 ∧
    2 * |100 * fixtureFourCents.units - 4 * 2 ^ 1074| ≤ 100 * 2 ^ 1017 ∧
    2 * |100 * fixtureFiveCents.units - 5 * 2 ^ 1074| ≤ 100 * 2 ^ 1017 ∧
    2 * |100 * fixtureSixCents.units - 6 * 2 ^ 1074| ≤ 100 * 2 ^ 1017 ∧
    2 * |10 * fixtureTenth.units - 1 * 2 ^ 1074| ≤ 10 * 2 ^ 1018 ∧
    2 * |10 * fixtureFifth.units - 2 * 2 ^ 1074| ≤ 10 * 2 ^ 1019 := by
  decide!

/-! ## Payments: net amount and balance update (C1 to C4) -/

/-- C1: the net amount that `processPayment` computes and hands to `updateStudentFinancials`
is `amount - discount.amount + lateFee.amount`, a missing discount or late fee counting as 0,
and it is the `netAmount` of the payment it has just created. -/
theorem processPayment_netAmount (env : Env) (db : Db) (paymentData : PaymentData)
    (collectedBy : ObjectId) :
    processPayment env db paymentData collectedBy =
      (match Payment.create db env.now
          { paymentData with
            receiptNumber := some (generateReceiptNumber env.now env.random)
            collectedBy := some collectedBy
            status := some .completed } with
       | (db1, .error e) => (db1, .error e)
       | (db1, .ok payment) =>
         match updateStudentFinancials db1 paymentData.studentId
             (paymentData.amount - paymentData.discount.getD 0
               + paymentData.lateFee.getD 0) with
         | (db2, .error e) => (db2, .error e)
         | (db2, .ok _) => (db2, .ok payment)) ∧
    ∀ db1 payment,
      Payment.create db env.now
          { paymentData with
            receiptNumber := some (generateReceiptNumber env.now env.random)
            collectedBy := some collectedBy
            status := some .completed } = (db1, .ok payment) →
      payment.netAmount =
        paymentData.amount - paymentData.discount.getD 0 + paymentData.lateFee.getD 0 := by
  refine ⟨processPayment_eq env db paymentData collectedBy, ?_⟩
  · intro db1 payment h
    obtain ⟨-, h1, h2, h3, -⟩ := Payment.create_ok h
    simp only [Payment.netAmount, h1, h2, h3]

/-- C1 on the test's request: amount 1000, discount 100 and late fee 50 give 950. -/
theorem processPayment_netAmount_witness :
    ∃ db1 payment,
      Payment.create fixtureDb fixtureEnv.now
          { fixtureRequest with
            receiptNumber := some (generateReceiptNumber fixtureEnv.now fixtureEnv.random)
            collectedBy := some 99
            status := some .completed } = (db1, .ok payment) ∧
      payment.netAmount = 950 ∧
      processPayment fixtureEnv fixtureDb fixtureRequest 99 =
        (match updateStudentFinancials db1 123 950 with
         | (db2, .error e) => (db2, .error e)
         | (db2, .ok _) => (db2, .ok payment)) :=
  ⟨_, _, rfl,
    (processPayment_netAmount fixtureEnv fixtureDb fixtureRequest 99).2 _ _ rfl,
    (processPayment_netAmount fixtureEnv fixtureDb fixtureRequest 99).1⟩

/-- C2: for an existing student, `updateStudentFinancials` saves and returns the student
with `totalPaid + a` and `max 0 (totalDebt - a)` and every other field as it was; the saved
document is the one found afterwards, and no other document changes. -/
theorem updateStudentFinancials_spec (db : Db) (studentId : ObjectId) (a : Int) (s : Student)
    (h : Student.findById db studentId = some s) :
    updateStudentFinancials db studentId a =
      (Student.save db
          { s with totalPaid := s.totalPaid + a, totalDebt := max 0 (s.totalDebt - a) },
        .ok { s with totalPaid := s.totalPaid + a, totalDebt := max 0 (s.totalDebt - a) }) ∧
    Student.findById (updateStudentFinancials db studentId a).1 studentId =
      some { s with totalPaid := s.totalPaid + a, totalDebt := max 0 (s.totalDebt - a) } ∧
    (∀ i, i ≠ studentId →
      Student.findById (updateStudentFinancials db studentId a).1 i = Student.findById db i) ∧
    (updateStudentFinancials db studentId a).1.payments = db.payments := by
  have e := updateStudentFinancials_eq a h
  refine ⟨e, ?_, ?_, ?_⟩
  · rw [e]
    exact findStudent_save_self h rfl
  · intro i hi
    rw [e, findStudent_save]
    have hid : s.id = studentId := findStudent_id h
    simp only [hid, if_neg hi]
  · rw [e]
    rfl

/-- C2 on the test's student: 500 paid and 4500 owed become 1500 and 3500 after 1000. -/
theorem updateStudentFinancials_spec_witness :
    updateStudentFinancials
        { students := [{ fixtureStudent with totalPaid := 500, totalDebt := 4500 }]
          payments := [] } 123 1000 =
      ({ students := [{ fixtureStudent with totalPaid := 1500, totalDebt := 3500 }]
         payments := [] },
        .ok { fixtureStudent with totalPaid := 1500, totalDebt := 3500 }) :=
  (updateStudentFinancials_spec
    { students := [{ fixtureStudent with totalPaid := 500, totalDebt := 4500 }]
      payments := [] } 123 1000
    { fixtureStudent with totalPaid := 500, totalDebt := 4500 } rfl).1

/-- C3: whatever the student's state and the amount, the debt that `updateStudentFinancials`
leaves is not negative, and an amount above the current debt leaves a debt of exactly 0. -/
theorem updateStudentFinancials_debt_nonneg (db : Db) (studentId : ObjectId) (a : Int)
    (s : Student) (h : Student.findById db studentId = some s) :
    ∃ s', updateStudentFinancials db studentId a = (Student.save db s', .ok s') ∧
      Student.findById (Student.save db s') studentId = some s' ∧
      0 ≤ s'.totalDebt ∧ (s.totalDebt < a → s'.totalDebt = 0) := by
  refine ⟨{ s with totalPaid := s.totalPaid + a, totalDebt := max 0 (s.totalDebt - a) },
    updateStudentFinancials_eq a h, findStudent_save_self h rfl, le_max_left _ _, ?_⟩
  · intro hlt
    exact max_eq_left (by omega)

/-- C3 on the test's student: a debt of 300 met by 1000 becomes 0, not -700. -/
theorem updateStudentFinancials_debt_nonneg_witness :
    ∃ s', updateStudentFinancials
        { students := [{ fixtureStudent with totalPaid := 500, totalDebt := 300 }]
          payments := [] } 123 1000 =
        (Student.save
          { students := [{ fixtureStudent with totalPaid := 500, totalDebt := 300 }]
            payments := [] } s', .ok s') ∧
      s'.totalDebt = 0 := by
  obtain ⟨s', h1, -, -, h4⟩ := updateStudentFinancials_debt_nonneg
    { students := [{ fixtureStudent with totalPaid := 500, totalDebt := 300 }]
      payments := [] } 123 1000
    { fixtureStudent with totalPaid := 500, totalDebt := 300 } rfl
  exact ⟨s', h1, h4 (by decide)⟩

/-- C4: when `processPayment` succeeds for an existing student, the student's `totalPaid` has
grown by exactly the net amount and `totalDebt` is `max 0 (totalDebt - netAmount)`, where the
net amount is `amount - discount.amount + lateFee.amount`; and it does succeed on a request
with a valid amount and notes whose receipt number is not yet taken. -/
theorem processPayment_balances (env : Env) (db : Db) (paymentData : PaymentData)
    (collectedBy : ObjectId) (s : Student)
    (h : Student.findById db paymentData.studentId = some s) :
    (∀ db' payment, processPayment env db paymentData collectedBy = (db', .ok payment) →
      Student.findById db' paymentData.studentId =
        some { s with
          totalPaid := s.totalPaid +
            (paymentData.amount - paymentData.discount.getD 0 + paymentData.lateFee.getD 0)
          totalDebt := max 0 (s.totalDebt -
            (paymentData.amount - paymentData.discount.getD 0
              + paymentData.lateFee.getD 0)) }) ∧
    (0 ≤ paymentData.amount → (paymentData.notes.getD "").length ≤ 500 →
      db.payments.any
        (fun p => p.receiptNumber == generateReceiptNumber env.now env.random) = false →
      ∃ db' payment, processPayment env db paymentData collectedBy = (db', .ok payment)) := by
  constructor
  · intro db' payment hp
    rw [processPayment_eq] at hp
    rcases hc : Payment.create db env.now
        { paymentData with
          receiptNumber := some (generateReceiptNumber env.now env.random)
          collectedBy := some collectedBy
          status := some .completed } with ⟨db1, e | created⟩
    · rw [hc] at hp
      simp at hp
    · rw [hc] at hp
      have hs : Student.findById db1 paymentData.studentId = some s := by
        have h1 := Payment.create_students db env.now
          { paymentData with
            receiptNumber := some (generateReceiptNumber env.now env.random)
            collectedBy := some collectedBy
            status := some .completed }
        rw [hc] at h1
        simp only [Student.findById] at h ⊢
        rw [h1]
        exact h
      simp only [updateStudentFinancials_eq _ hs, Prod.mk.injEq, Except.ok.injEq] at hp
      rw [← hp.1]
      exact findStudent_save_self hs rfl
  · intro hamount hnotes huniq
    obtain ⟨created, hc⟩ := Payment.create_succeeds db env.now
      { paymentData with
        receiptNumber := some (generateReceiptNumber env.now env.random)
        collectedBy := some collectedBy
        status := some .completed }
      (generateReceiptNumber env.now env.random) collectedBy hamount hnotes rfl rfl huniq
    have hs : Student.findById { db with payments := db.payments ++ [created] }
        paymentData.studentId = some s := h
    rw [processPayment_eq, hc]
    simp only [updateStudentFinancials_eq _ hs]
    exact ⟨_, _, rfl⟩

/-- C4 on the spec's scenario: from 5000 owed and nothing paid, a payment of 1000 with
discount 100 and late fee 50 succeeds and leaves 950 paid and 4050 owed. -/
theorem processPayment_balances_witness :
    (∃ db' payment, processPayment fixtureEnv fixtureDb fixtureRequest 99 = (db', .ok payment)) ∧
    Student.findById (processPayment fixtureEnv fixtureDb fixtureRequest 99).1 123 =
      some { fixtureStudent with totalPaid := 950, totalDebt := 4050 } :=
  ⟨(processPayment_balances fixtureEnv fixtureDb fixtureRequest 99 fixtureStudent rfl).2
      (by decide) (by decide) rfl,
    (processPayment_balances fixtureEnv fixtureDb fixtureRequest 99 fixtureStudent rfl).1
      _ _ rfl⟩

/-- The function `processRefund` on a payment that exists, is not refunded, and whose student
exists. -/
theorem processRefund_eq {db : Db} {paymentId : ObjectId} {p : Payment} {s : Student}
    (env : Env) (refundData : RefundData) (refundedBy : ObjectId)
    (hp : Payment.findById db paymentId = some p) (hst : p.status ≠ .refunded)
    (hs : Student.findById db p.studentId = some s) :
    processRefund env db paymentId refundData refundedBy =
      (Student.save
          (Payment.save db
            { p with
              status := .refunded
              refund := some
                { amount := refundData.amount
                  reason := refundData.reason
                  refundedBy := refundedBy
                  refundDate := env.now.time } })
          { s with
            totalPaid := s.totalPaid - refundData.amount
            totalDebt := s.totalDebt + refundData.amount },
        .ok
          { p with
            status := .refunded
            refund := some
              { amount := refundData.amount
                reason := refundData.reason
                refundedBy := refundedBy
                refundDate := env.now.time } }) := by
  unfold processRefund
  rw [hp]
  simp only [if_neg hst, findStudent_save_payment, hs]

/-- The function `processRefund` on a payment that is already refunded. -/
theorem processRefund_refunded {db : Db} {paymentId : ObjectId} {p : Payment}
    (env : Env) (refundData : RefundData) (refundedBy : ObjectId)
    (hp : Payment.findById db paymentId = some p) (hst : p.status = .refunded) :
    processRefund env db paymentId refundData refundedBy =
      (db, .error (.error "Payment already refunded")) := by
  unfold processRefund
  rw [hp]
  simp only [if_pos hst]

/-- The payment found after `processRefund` has gone past its status check is refunded. -/
theorem processRefund_marks {db : Db} {paymentId : ObjectId} {p : Payment}
    (env : Env) (refundData : RefundData) (refundedBy : ObjectId)
    (hp : Payment.findById db paymentId = some p) (hst : p.status ≠ .refunded) :
    ∃ q, Payment.findById (processRefund env db paymentId refundData refundedBy).1 paymentId
        = some q ∧ q.status = .refunded := by
  refine ⟨{ p with
      status := .refunded
      refund := some
        { amount := refundData.amount
          reason := refundData.reason
          refundedBy := refundedBy
          refundDate := env.now.time } }, ?_, rfl⟩
  cases hs : Student.findById db p.studentId with
  | none =>
    unfold processRefund
    rw [hp]
    simp only [if_neg hst, findStudent_save_payment, hs]
    exact findPayment_save_self hp rfl
  | some s =>
    rw [processRefund_eq env refundData refundedBy hp hst hs, findPayment_save_student]
    exact findPayment_save_self hp rfl

/-- What the assignments of `updatePayment` leave alone, and what the status becomes. -/
theorem applyUpdateBody_frame (env : Env) (p : Payment) (body : UpdateBody) :
    (applyUpdateBody env p body).id = p.id ∧
    (applyUpdateBody env p body).refund = p.refund ∧
    (applyUpdateBody env p body).amount = p.amount ∧
    ((applyUpdateBody env p body).status = p.status ∨
      body.status = some (applyUpdateBody env p body).status) := by
  unfold applyUpdateBody
  rcases body.status with _ | st <;> rcases body.notes with _ | n <;>
    rcases body.verifiedBy with _ | v <;> simp only [] <;> (try split_ifs) <;> simp

/-- The handler `updatePayment` on a payment that exists. -/
theorem updatePayment_found {db : Db} {id : ObjectId} {p : Payment} (env : Env) (user : User)
    (body : UpdateBody) (hp : Payment.findById db id = some p) :
    updatePayment env db user id body =
      if p.organizationId ≠ user.organizationId then
        (db, notFoundResponse "Payment not found")
      else if p.status = .completed ∧ body.keys.any (fun key => key != "notes") then
        (db, badRequestResponse "Cannot update completed payment")
      else if 500 < (body.notes.getD "").length then
        (db, errorHandler (.validationError "notes"))
      else
        (Payment.save db (applyUpdateBody env p body),
          successResponse "Payment updated successfully" (some (applyUpdateBody env p body))) := by
  unfold updatePayment
  rw [hp]

/-- The handler `verifyPayment` on a payment that exists. -/
theorem verifyPayment_found {db : Db} {id : ObjectId} {p : Payment} (env : Env) (user : User)
    (hp : Payment.findById db id = some p) :
    verifyPayment env db user id =
      if p.status ≠ .pending then
        (db, badRequestResponse "Payment is not pending verification")
      else
        match updateStudentFinancials
            (Payment.save db
              { p with
                status := .completed
                verifiedBy := some user.id
                verifiedAt := some env.now.time })
            p.studentId p.amount with
        | (db', .error e) => (db', errorHandler e)
        | (db', .ok _) =>
          (db', successResponse "Payment verified successfully"
            (some
              { p with
                status := .completed
                verifiedBy := some user.id
                verifiedAt := some env.now.time })) := by
  unfold verifyPayment
  rw [hp]

/-- The handler `refundPayment` on a payment that exists. -/
theorem refundPayment_found {db : Db} {id : ObjectId} {p : Payment} (env : Env) (user : User)
    (body : RefundData) (hp : Payment.findById db id = some p) :
    refundPayment env db user id body =
      if p.status ≠ .completed then
        (db, badRequestResponse "Can only refund completed payments")
      else if body.amount > p.amount then
        (db, badRequestResponse "Refund amount cannot exceed payment amount")
      else
        match processRefund env db id body user.id with
        | (db', .error e) => (db', errorHandler e)
        | (db', .ok refundedPayment) =>
          (db', successResponse "Payment refunded successfully" (some refundedPayment)) := by
  unfold refundPayment
  rw [hp]
  simp only [findPayment_id hp]

/-! ## Refunds (C5 to C9) -/

/-- C5: on a completed payment whose student exists, `processRefund` marks the payment
refunded, attaches the refund sub-record (amount, reason, `refundedBy`, refund date), and
saves the student with `totalPaid - r` and `totalDebt + r`, unclamped. -/
theorem processRefund_spec (env : Env) (db : Db) (paymentId : ObjectId) (r : Int)
    (reason : String) (refundedBy : ObjectId) (p : Payment) (s : Student)
    (hp : Payment.findById db paymentId = some p) (hc : p.status = .completed)
    (hs : Student.findById db p.studentId = some s) :
    (processRefund env db paymentId { amount := r, reason := reason } refundedBy).2 =
      .ok { p with
        status := .refunded
        refund := some
          { amount := r, reason := reason, refundedBy := refundedBy
            refundDate := env.now.time } } ∧
    Payment.findById
        (processRefund env db paymentId { amount := r, reason := reason } refundedBy).1
        paymentId =
      some { p with
        status := .refunded
        refund := some
          { amount := r, reason := reason, refundedBy := refundedBy
            refundDate := env.now.time } } ∧
    Student.findById
        (processRefund env db paymentId { amount := r, reason := reason } refundedBy).1
        p.studentId =
      some { s with totalPaid := s.totalPaid - r, totalDebt := s.totalDebt + r } := by
  have hst : p.status ≠ .refunded := by rw [hc]; decide
  rw [processRefund_eq env { amount := r, reason := reason } refundedBy hp hst hs]
  refine ⟨rfl, ?_, ?_⟩
  · rw [findPayment_save_student]
    exact findPayment_save_self hp rfl
  · exact @findStudent_save_self (Payment.save db _) _ _ _ hs rfl

/-- C5 on the spec's scenario: refunding 500 from 950 paid and 4050 owed leaves 450 paid
and 4550 owed, and the payment refunded. -/
theorem processRefund_spec_witness :
    (processRefund fixtureEnv fixturePaidDb 1
        { amount := 500, reason := "course cancelled" } 99).2 =
      .ok { fixturePayment with
        status := .refunded
        refund := some
          { amount := 500, reason := "course cancelled", refundedBy := 99
            refundDate := 1700000000000 } } ∧
    Student.findById
        (processRefund fixtureEnv fixturePaidDb 1
          { amount := 500, reason := "course cancelled" } 99).1 123 =
      some { fixtureStudent with totalPaid := 450, totalDebt := 4550 } :=
  ⟨(processRefund_spec fixtureEnv fixturePaidDb 1 500 "course cancelled" 99 fixturePayment
      { fixtureStudent with totalPaid := 950, totalDebt := 4050 } rfl rfl rfl).1,
    (processRefund_spec fixtureEnv fixturePaidDb 1 500 "course cancelled" 99 fixturePayment
      { fixtureStudent with totalPaid := 950, totalDebt := 4050 } rfl rfl rfl).2.2⟩

/-- C6 as stated fails: `processRefund` itself goes through, and moves the balances, for a
pending payment, for a refund of -5 and for a refund of 1001 on a payment of 1000. -/
theorem processRefund_rejects_counterexample :
    ((processRefund fixtureEnv fixturePendingDb 1 { amount := 500, reason := "r" } 99).1 =
      { students := [{ fixtureStudent with totalPaid := -500, totalDebt := 5500 }]
        payments := [{ fixturePayment with
          status := .refunded
          refund := some
            { amount := 500, reason := "r", refundedBy := 99
              refundDate := 1700000000000 } }] }) ∧
    ((processRefund fixtureEnv fixturePaidDb 1 { amount := -5, reason := "r" } 99).1 =
      { students := [{ fixtureStudent with totalPaid := 955, totalDebt := 4045 }]
        payments := [{ fixturePayment with
          status := .refunded
          refund := some
            { amount := -5, reason := "r", refundedBy := 99
              refundDate := 1700000000000 } }] }) ∧
    ((processRefund fixtureEnv fixturePaidDb 1 { amount := 1001, reason := "r" } 99).1 =
      { students := [{ fixtureStudent with totalPaid := -51, totalDebt := 5051 }]
        payments := [{ fixturePayment with
          status := .refunded
          refund := some
            { amount := 1001, reason := "r", refundedBy := 99
              refundDate := 1700000000000 } }] }) := by
  refine ⟨?_, ?_, ?_⟩ <;> decide

/-- C6, amended: the refund route (role check, `refundPaymentValidator`, `refundPayment`,
`processRefund`) rejects the refund and leaves the whole store as it was whenever the payment
is not completed, or `r ≤ 0`, or `r > payment.amount`; `processRefund` alone rejects an
existing payment without a change exactly when it is already refunded. -/
theorem refundRoute_rejects (env : Env) (db : Db) (user : User) (id : ObjectId)
    (body : RefundData) (p : Payment) (hp : Payment.findById db id = some p)
    (h : p.status ≠ .completed ∨ body.amount ≤ 0 ∨ body.amount > p.amount) :
    ((refundRoute env db user id body).1 = db ∧
      (refundRoute env db user id body).2.success = false ∧
      ((refundRoute env db user id body).2.statusCode = 403 ∨
        (refundRoute env db user id body).2.statusCode = 422 ∨
        (refundRoute env db user id body).2.statusCode = 400)) ∧
    ((∃ e, processRefund env db id body user.id = (db, .error e)) ↔
      p.status = .refunded) := by
  constructor
  · unfold refundRoute
    by_cases hrole : isAdminOrSuperAdmin user = true
    · by_cases hval : refundPaymentValidator body = true
      · have hamount : 1 ≤ body.amount := by
          simp only [refundPaymentValidator, Bool.and_eq_true, decide_eq_true_eq] at hval
          exact hval.1.1.1
        simp only [hrole, hval, Bool.not_true, Bool.false_eq_true, if_false]
        unfold refundPayment
        rw [hp]
        by_cases hst : p.status = .completed
        · have hgt : body.amount > p.amount := by
            rcases h with h | h | h
            · exact absurd hst h
            · omega
            · exact h
          simp [hst, hgt, badRequestResponse, errorResponse]
        · simp [hst, badRequestResponse, errorResponse]
      · simp [hrole, hval, validationErrorResponse, errorResponse]
    · simp [hrole, forbiddenResponse, errorResponse]
  · constructor
    · rintro ⟨e, he⟩
      by_contra hst
      obtain ⟨q, hq, hqs⟩ := processRefund_marks env body user.id hp hst
      rw [he] at hq
      simp only at hq
      rw [hp] at hq
      simp only [Option.some.injEq] at hq
      rw [hq] at hst
      exact hst hqs
    · intro hst
      exact ⟨_, processRefund_refunded env body user.id hp hst⟩

/-- C6, amended, on a pending payment: the route answers with an error and the store is the
same. -/
theorem refundRoute_rejects_witness :
    (refundRoute fixtureEnv fixturePendingDb fixtureAdmin 1
      { amount := 500, reason := "course cancelled" }).1 = fixturePendingDb ∧
    (refundRoute fixtureEnv fixturePendingDb fixtureAdmin 1
      { amount := 500, reason := "course cancelled" }).2.success = false :=
  ⟨(refundRoute_rejects fixtureEnv fixturePendingDb fixtureAdmin 1
      { amount := 500, reason := "course cancelled" }
      { fixturePayment with status := .pending } rfl (Or.inl (by decide))).1.1,
    (refundRoute_rejects fixtureEnv fixturePendingDb fixtureAdmin 1
      { amount := 500, reason := "course cancelled" }
      { fixturePayment with status := .pending } rfl (Or.inl (by decide))).1.2.1⟩

/-- C7: for an existing payment the handler `refundPayment` goes on to `processRefund`
exactly when the payment is completed and the requested amount is at most the payment's
amount; otherwise it answers 400 and the store is unchanged.  A refund of the full amount of
a completed payment whose student exists is answered 200; one unit more is answered 400. -/
theorem refundPayment_gate (env : Env) (db : Db) (user : User) (id : ObjectId)
    (body : RefundData) (p : Payment) (hp : Payment.findById db id = some p) :
    (p.status = .completed ∧ body.amount ≤ p.amount →
      refundPayment env db user id body =
        (match processRefund env db id body user.id with
         | (db', .error e) => (db', errorHandler e)
         | (db', .ok refundedPayment) =>
           (db', successResponse "Payment refunded successfully" (some refundedPayment)))) ∧
    (¬ (p.status = .completed ∧ body.amount ≤ p.amount) →
      (refundPayment env db user id body).1 = db ∧
      (refundPayment env db user id body).2.statusCode = 400) ∧
    (p.status = .completed → body.amount = p.amount →
      ∀ s, Student.findById db p.studentId = some s →
        (refundPayment env db user id body).2.statusCode = 200 ∧
        (∃ q, Payment.findById (refundPayment env db user id body).1 id = some q ∧
          q.status = .refunded)) ∧
    (body.amount = p.amount + 1 →
      (refundPayment env db user id body).1 = db ∧
      (refundPayment env db user id body).2.statusCode = 400) := by
  have hid : p.id = id := findPayment_id hp
  have hgo : p.status = .completed ∧ body.amount ≤ p.amount →
      refundPayment env db user id body =
        (match processRefund env db id body user.id with
         | (db', .error e) => (db', errorHandler e)
         | (db', .ok refundedPayment) =>
           (db', successResponse "Payment refunded successfully" (some refundedPayment))) := by
    rintro ⟨hst, hle⟩
    unfold refundPayment
    rw [hp]
    simp only [hst, ne_eq, not_true_eq_false, if_false, gt_iff_lt, not_lt.mpr hle, hid]
  have hno : ¬ (p.status = .completed ∧ body.amount ≤ p.amount) →
      (refundPayment env db user id body).1 = db ∧
      (refundPayment env db user id body).2.statusCode = 400 := by
    intro hn
    unfold refundPayment
    rw [hp]
    by_cases hst : p.status = .completed
    · have hgt : body.amount > p.amount := by
        by_contra hle
        exact hn ⟨hst, not_lt.mp hle⟩
      simp [hst, hgt, badRequestResponse, errorResponse]
    · simp [hst, badRequestResponse, errorResponse]
  refine ⟨hgo, hno, ?_, ?_⟩
  · intro hst heq s hs
    have hne : p.status ≠ .refunded := by rw [hst]; decide
    rw [hgo ⟨hst, le_of_eq heq⟩]
    have hq := processRefund_marks env body user.id hp hne
    rw [processRefund_eq env body user.id hp hne hs] at hq ⊢
    exact ⟨rfl, hq⟩
  · intro heq
    exact hno (fun hc => by omega)

/-- C7 on a completed payment of 1000: a refund of 1000 is answered 200 and a refund of 1001
is answered 400 with the store unchanged. -/
theorem refundPayment_gate_witness :
    (refundPayment fixtureEnv fixturePaidDb fixtureAdmin 1
      { amount := 1000, reason := "course cancelled" }).2.statusCode = 200 ∧
    (refundPayment fixtureEnv fixturePaidDb fixtureAdmin 1
      { amount := 1001, reason := "course cancelled" }).1 = fixturePaidDb ∧
    (refundPayment fixtureEnv fixturePaidDb fixtureAdmin 1
      { amount := 1001, reason := "course cancelled" }).2.statusCode = 400 :=
  ⟨((refundPayment_gate fixtureEnv fixturePaidDb fixtureAdmin 1
      { amount := 1000, reason := "course cancelled" } fixturePayment rfl).2.2.1 rfl rfl
      { fixtureStudent with totalPaid := 950, totalDebt := 4050 } rfl).1,
    ((refundPayment_gate fixtureEnv fixturePaidDb fixtureAdmin 1
      { amount := 1001, reason := "course cancelled" } fixturePayment rfl).2.2.2 rfl).1,
    ((refundPayment_gate fixtureEnv fixturePaidDb fixtureAdmin 1
      { amount := 1001, reason := "course cancelled" } fixturePayment rfl).2.2.2 rfl).2⟩

/-- C8 as stated fails: `updatePayment` sets a refunded payment back to completed, after
which `refundPayment` applies a second refund of 500 to the same payment. -/
theorem refunded_frozen_counterexample :
    (updatePayment fixtureEnv fixtureRefundedDb fixtureAdmin 1
        { status := some .completed, notes := none, verifiedBy := none, otherKeys := [] }).1 =
      { students := [{ fixtureStudent with totalPaid := 450, totalDebt := 4550 }]
        payments := [{ fixturePayment with
          status := .completed
          refund := some
            { amount := 500, reason := "course cancelled", refundedBy := 99
              refundDate := 1700000000000 } }] } ∧
    (refundPayment fixtureEnv
        (updatePayment fixtureEnv fixtureRefundedDb fixtureAdmin 1
          { status := some .completed, notes := none, verifiedBy := none
            otherKeys := [] }).1
        fixtureAdmin 1 { amount := 500, reason := "again" }).1 =
      { students := [{ fixtureStudent with totalPaid := -50, totalDebt := 5050 }]
        payments := [{ fixturePayment with
          status := .refunded
          refund := some
            { amount := 500, reason := "again", refundedBy := 99
              refundDate := 1700000000000 } }] } := by
  constructor <;> decide

/-- C8, amended: a refunded payment is rejected by `processRefund`, `refundPayment` and
`verifyPayment`, which leave the whole store as it was; `updatePayment` leaves its refund
sub-record, its amount and every student unchanged, and its status is afterwards either what
it was or the status given in the request body. -/
theorem refunded_frozen (env : Env) (db : Db) (user : User) (id : ObjectId) (p : Payment)
    (hp : Payment.findById db id = some p) (hst : p.status = .refunded) :
    (∀ refundData refundedBy,
      processRefund env db id refundData refundedBy =
        (db, .error (.error "Payment already refunded"))) ∧
    (∀ body, (refundPayment env db user id body).1 = db ∧
      (refundPayment env db user id body).2.statusCode = 400) ∧
    ((verifyPayment env db user id).1 = db ∧
      (verifyPayment env db user id).2.statusCode = 400) ∧
    (∀ body, (updatePayment env db user id body).1.students = db.students ∧
      ∃ q, Payment.findById (updatePayment env db user id body).1 id = some q ∧
        q.refund = p.refund ∧ q.amount = p.amount ∧
        (q.status = p.status ∨ body.status = some q.status)) := by
  refine ⟨fun refundData refundedBy => processRefund_refunded env refundData refundedBy hp hst,
    ?_, ?_, ?_⟩
  · intro body
    have hnc : p.status ≠ .completed := by rw [hst]; decide
    rw [refundPayment_found env user body hp, if_pos hnc]
    exact ⟨rfl, rfl⟩
  · have hnp : p.status ≠ .pending := by rw [hst]; decide
    rw [verifyPayment_found env user hp, if_pos hnp]
    exact ⟨rfl, rfl⟩
  · intro body
    rw [updatePayment_found env user body hp]
    by_cases horg : p.organizationId = user.organizationId
    · have hnc : ¬ (p.status = .completed ∧
          body.keys.any (fun key => key != "notes") = true) := by
        rw [hst]
        simp
      rw [if_neg (not_not.mpr horg), if_neg hnc]
      by_cases hlen : 500 < (body.notes.getD "").length
      · rw [if_pos hlen]
        exact ⟨rfl, p, hp, rfl, rfl, Or.inl rfl⟩
      · rw [if_neg hlen]
        obtain ⟨h1, h2, h3, h4⟩ := applyUpdateBody_frame env p body
        exact ⟨rfl, _, findPayment_save_self hp h1, h2, h3, h4⟩
    · rw [if_pos horg]
      exact ⟨rfl, p, hp, rfl, rfl, Or.inl rfl⟩

/-- C8, amended, on the refunded fixture: a further refund and a verification are both
answered 400 and the store stays the same. -/
theorem refunded_frozen_witness :
    ((refundPayment fixtureEnv fixtureRefundedDb fixtureAdmin 1
        { amount := 100, reason := "once more" }).1 = fixtureRefundedDb ∧
      (refundPayment fixtureEnv fixtureRefundedDb fixtureAdmin 1
        { amount := 100, reason := "once more" }).2.statusCode = 400) ∧
    ((verifyPayment fixtureEnv fixtureRefundedDb fixtureAdmin 1).1 = fixtureRefundedDb ∧
      (verifyPayment fixtureEnv fixtureRefundedDb fixtureAdmin 1).2.statusCode = 400) :=
  ⟨(refunded_frozen fixtureEnv fixtureRefundedDb fixtureAdmin 1
      { fixturePayment with
        status := .refunded
        refund := some
          { amount := 500, reason := "course cancelled", refundedBy := 99
            refundDate := 1700000000000 } } rfl rfl).2.1
      { amount := 100, reason := "once more" },
    (refunded_frozen fixtureEnv fixtureRefundedDb fixtureAdmin 1
      { fixturePayment with
        status := .refunded
        refund := some
          { amount := 500, reason := "course cancelled", refundedBy := 99
            refundDate := 1700000000000 } } rfl rfl).2.2.1⟩

/-- C9 as stated fails: with 300 owed, a balance update of 1000 followed by the refund of
the same 1000 restores `totalPaid` to 500 but leaves 1000 owed. -/
theorem refund_inverse_counterexample :
    Student.findById fixtureSmallDebtDb 123 =
      some { fixtureStudent with totalPaid := 500, totalDebt := 300 } ∧
    Student.findById
        (processRefund fixtureEnv (updateStudentFinancials fixtureSmallDebtDb 123 1000).1 1
          { amount := 1000, reason := "r" } 99).1 123 =
      some { fixtureStudent with totalPaid := 500, totalDebt := 1000 } := by
  constructor <;> decide

/-- On fractions the update and the refund do not cancel: from a `totalPaid` of 0.1, adding
0.2 and subtracting 0.2 again leaves 0.10000000000000003, two units in the last place above
0.1. -/
theorem processRefundNumber_fraction :
    (processRefundNumber
        (updateStudentFinancialsNumber fixtureTenth (Number.ofInt 1) fixtureFifth).1
        (updateStudentFinancialsNumber fixtureTenth (Number.ofInt 1) fixtureFifth).2
        fixtureFifth).1 = { units := 7205759403792796 * 2 ^ 1018 } ∧
    (processRefundNumber
        (updateStudentFinancialsNumber fixtureTenth (Number.ofInt 1) fixtureFifth).1
        (updateStudentFinancialsNumber fixtureTenth (Number.ofInt 1) fixtureFifth).2
        fixtureFifth).1 ≠ fixtureTenth := by
  decide!

/-- C9, amended: when `totalPaid`, `totalDebt`, `r` and the numbers that the two functions
compute from them, `totalPaid + r`, `totalDebt - r` and `max 0 (totalDebt - r) + r`, are safe
integers, `updateStudentFinancials` with `r` and then the refund of the same `r` on a payment
of that student bring `totalPaid` back to its original value and leave `totalDebt` at
`max 0 (totalDebt - r) + r`, which is the original debt exactly when `r ≤ totalDebt`; then the
whole student record is restored.  The balances that result are safe integers, and the doubles
that the balance assignments of the two functions compute are these whole numbers. -/
theorem refund_inverse (env : Env) (db : Db) (studentId paymentId : ObjectId) (r : Int)
    (reason : String) (refundedBy : ObjectId) (s : Student) (p : Payment)
    (hs : Student.findById db studentId = some s)
    (hp : Payment.findById db paymentId = some p)
    (hps : p.studentId = studentId) (hst : p.status ≠ .refunded)
    (hpaid : isSafeInteger s.totalPaid) (hdebt : isSafeInteger s.totalDebt)
    (hr : isSafeInteger r) (hsum : isSafeInteger (s.totalPaid + r))
    (hdiff : isSafeInteger (s.totalDebt - r))
    (hback : isSafeInteger (max 0 (s.totalDebt - r) + r)) :
    ∃ s', Student.findById
        (processRefund env (updateStudentFinancials db studentId r).1 paymentId
          { amount := r, reason := reason } refundedBy).1 studentId = some s' ∧
      s'.totalPaid = s.totalPaid ∧
      s'.totalDebt = max 0 (s.totalDebt - r) + r ∧
      (s'.totalDebt = s.totalDebt ↔ r ≤ s.totalDebt) ∧
      (r ≤ s.totalDebt → s' = s) ∧
      isSafeInteger s'.totalPaid ∧ isSafeInteger s'.totalDebt ∧
      processRefundNumber
          (updateStudentFinancialsNumber (Number.ofInt s.totalPaid) (Number.ofInt s.totalDebt)
            (Number.ofInt r)).1
          (updateStudentFinancialsNumber (Number.ofInt s.totalPaid) (Number.ofInt s.totalDebt)
            (Number.ofInt r)).2
          (Number.ofInt r) =
        (Number.ofInt s'.totalPaid, Number.ofInt s'.totalDebt) := by
  have hs1 : Student.findById
      (Student.save db
        { s with totalPaid := s.totalPaid + r, totalDebt := max 0 (s.totalDebt - r) })
      p.studentId =
      some { s with totalPaid := s.totalPaid + r, totalDebt := max 0 (s.totalDebt - r) } := by
    rw [hps]
    exact findStudent_save_self hs rfl
  have hp1 : Payment.findById
      (Student.save db
        { s with totalPaid := s.totalPaid + r, totalDebt := max 0 (s.totalDebt - r) })
      paymentId = some p := by
    rw [findPayment_save_student]
    exact hp
  have hcancel : s.totalPaid + r - r = s.totalPaid := by omega
  rw [updateStudentFinancials_eq r hs]
  simp only
  rw [processRefund_eq env { amount := r, reason := reason } refundedBy hp1 hst hs1]
  refine ⟨{ s with
      totalPaid := s.totalPaid + r - r
      totalDebt := max 0 (s.totalDebt - r) + r }, ?_, hcancel, rfl, ?_, ?_, ?_, hback, ?_⟩
  · rw [← hps]
    exact @findStudent_save_self (Payment.save _ _) _ _ _ hs1 rfl
  · show max 0 (s.totalDebt - r) + r = s.totalDebt ↔ r ≤ s.totalDebt
    rcases le_total 0 (s.totalDebt - r) with h | h
    · rw [max_eq_right h]
      constructor
      · intro _
        omega
      · intro _
        omega
    · rw [max_eq_left h]
      constructor
      · intro h1
        omega
      · intro h1
        omega
  · intro hle
    have h2 : max 0 (s.totalDebt - r) + r = s.totalDebt := by
      rw [max_eq_right (by omega)]
      omega
    cases s
    simp only [Student.mk.injEq, true_and, and_true] at hcancel h2 ⊢
    exact ⟨h2, hcancel⟩
  · show isSafeInteger (s.totalPaid + r - r)
    rw [hcancel]
    exact hpaid
  · exact balances_ofInt s.totalPaid s.totalDebt r hpaid hdebt hr hsum hdiff

/-- C9, amended, on the paid fixture: 950 paid and 4050 owed, all amounts safe integers, and
4050 covers a further 1000, so the update followed by the refund gives the student record
back, in whole numbers and in doubles. -/
theorem refund_inverse_witness :
    ∃ s', Student.findById
        (processRefund fixtureEnv (updateStudentFinancials fixturePaidDb 123 1000).1 1
          { amount := 1000, reason := "r" } 99).1 123 = some s' ∧
      s' = { fixtureStudent with totalPaid := 950, totalDebt := 4050 } ∧
      processRefundNumber
          (updateStudentFinancialsNumber (Number.ofInt 950) (Number.ofInt 4050)
            (Number.ofInt 1000)).1
          (updateStudentFinancialsNumber (Number.ofInt 950) (Number.ofInt 4050)
            (Number.ofInt 1000)).2
          (Number.ofInt 1000) =
        (Number.ofInt s'.totalPaid, Number.ofInt s'.totalDebt) := by
  obtain ⟨s', h1, -, -, -, h5, -, -, h8⟩ :=
    refund_inverse fixtureEnv fixturePaidDb 123 1 1000 "r" 99
      { fixtureStudent with totalPaid := 950, totalDebt := 4050 } fixturePayment
      rfl rfl rfl (by decide) (by decide) (by decide) (by decide) (by decide) (by decide)
      (by decide)
  exact ⟨s', h1, h5 (by decide), h8⟩

/-! ## Statistics (C10) -/

/-- What the match query of `getPaymentStatistics` selects: the completed payments of the
organization whose payment date lies within the bounds that are given. -/
theorem statisticsQuery_holds (organizationId : ObjectId) (startDate endDate : Option Nat)
    (p : Payment) :
    MatchQuery.holds
        { organizationId := organizationId
          status := .completed
          paymentDate :=
            if startDate.isSome || endDate.isSome then
              some { gte := startDate, lte := endDate }
            else none } p = true ↔
      (p.status = .completed ∧ p.organizationId = organizationId ∧
        (∀ lo, startDate = some lo → lo ≤ p.paymentDate) ∧
        (∀ hi, endDate = some hi → p.paymentDate ≤ hi)) := by
  rcases startDate with _ | lo <;> rcases endDate with _ | hi <;>
    simp [MatchQuery.holds, DateRange.holds] <;> tauto

/-- C10: when no completed payment of the organization lies in the date range,
`getPaymentStatistics` returns the zeroed summary and an empty `byMethod`. -/
theorem getPaymentStatistics_empty (db : Db) (organizationId : ObjectId)
    (startDate endDate : Option Nat)
    (h : ∀ p ∈ db.payments,
      ¬ (p.status = .completed ∧ p.organizationId = organizationId ∧
        (∀ lo, startDate = some lo → lo ≤ p.paymentDate) ∧
        (∀ hi, endDate = some hi → p.paymentDate ≤ hi))) :
    getPaymentStatistics db organizationId startDate endDate =
      { summary :=
          { totalAmount := 0
            totalDiscount := 0
            totalLateFee := 0
            totalPayments := 0
            averagePayment := 0 }
        byMethod := [] } := by
  have hnil : db.payments.filter
      (MatchQuery.holds
        { organizationId := organizationId
          status := .completed
          paymentDate :=
            if startDate.isSome || endDate.isSome then
              some { gte := startDate, lte := endDate }
            else none }) = [] := by
    rw [List.filter_eq_nil_iff]
    intro p hp hq
    exact h p hp ((statisticsQuery_holds organizationId startDate endDate p).mp hq)
  unfold getPaymentStatistics
  simp only [hnil]
  rfl

/-- C10 on the paid fixture: its one completed payment is dated before the range asked for,
and the statistics are the zeroed defaults. -/
theorem getPaymentStatistics_empty_witness :
    getPaymentStatistics fixturePaidDb 7 (some 1800000000000) none =
      { summary :=
          { totalAmount := 0
            totalDiscount := 0
            totalLateFee := 0
            totalPayments := 0
            averagePayment := 0 }
        byMethod := [] } :=
  getPaymentStatistics_empty fixturePaidDb 7 (some 1800000000000) none (by
    intro p hp hq
    have hp' : p = fixturePayment := by simpa [fixturePaidDb] using hp
    subst hp'
    have hlo := hq.2.2.1 1800000000000 rfl
    exact absurd hlo (by decide))

/-! ## Statistics over the selected payments (C11) -/

/-- The group ids after one more document: its method is appended unless already there. -/
theorem addToGroups_ids (groups : List MethodGroup) (p : Payment) :
    (addToGroups groups p).map (fun g => g.id) =
      if p.paymentMethod ∈ groups.map (fun g => g.id) then groups.map (fun g => g.id)
      else groups.map (fun g => g.id) ++ [p.paymentMethod] := by
  induction groups with
  | nil => simp [addToGroups]
  | cons g rest ih =>
    unfold addToGroups
    by_cases h : g.id = p.paymentMethod
    · simp [h]
    · have h' : ¬ p.paymentMethod = g.id := fun e => h e.symm
      simp only [if_neg h, List.map_cons, ih, List.mem_cons, h', false_or]
      split <;> simp

/-- If every group holds the tally of its method, then after one more document every group
holds the tally with that document counted in. -/
theorem addToGroups_tally (c : PaymentMethod → Nat) (a : PaymentMethod → Int)
    (groups : List MethodGroup) (p : Payment)
    (hnodup : (groups.map (fun g => g.id)).Nodup)
    (hg : ∀ g ∈ groups, g.count = c g.id ∧ g.amount = a g.id)
    (hz : p.paymentMethod ∉ groups.map (fun g => g.id) →
      c p.paymentMethod = 0 ∧ a p.paymentMethod = 0) :
    ∀ g ∈ addToGroups groups p,
      g.count = c g.id + (if g.id = p.paymentMethod then 1 else 0) ∧
      g.amount = a g.id + (if g.id = p.paymentMethod then p.amount else 0) := by
  induction groups with
  | nil =>
    intro g hgm
    simp only [addToGroups, List.mem_singleton] at hgm
    subst hgm
    have h0 := hz (by simp)
    simp [h0.1, h0.2]
  | cons g0 rest ih =>
    intro g hgm
    unfold addToGroups at hgm
    rw [List.map_cons, List.nodup_cons] at hnodup
    by_cases h : g0.id = p.paymentMethod
    · rw [if_pos h] at hgm
      rcases List.mem_cons.mp hgm with e | hmem
      · subst e
        have h0 := hg g0 (List.mem_cons_self _ _)
        simp [h, h0.1, h0.2]
      · have hne : g.id ≠ p.paymentMethod := by
          intro e
          apply hnodup.1
          rw [h, ← e]
          exact List.mem_map_of_mem _ hmem
        have h0 := hg g (List.mem_cons_of_mem _ hmem)
        simp [hne, h0.1, h0.2]
    · rw [if_neg h] at hgm
      rcases List.mem_cons.mp hgm with e | hmem
      · subst e
        have h0 := hg g (List.mem_cons_self _ _)
        simp [h, h0.1, h0.2]
      · refine ih hnodup.2 (fun g' hg' => hg g' (List.mem_cons_of_mem _ hg')) ?_ g hmem
        intro hnot
        apply hz
        simp only [List.map_cons, List.mem_cons, not_or]
        exact ⟨fun e => h e.symm, hnot⟩

theorem groupByMethod_append (docs : List Payment) (p : Payment) :
    groupByMethod (docs ++ [p]) = addToGroups (groupByMethod docs) p := by
  simp [groupByMethod, List.foldl_append]

/-- The `$group` stage by method: one group per method that occurs, holding the number and
the summed amount of the documents of that method. -/
theorem groupByMethod_spec (docs : List Payment) :
    ((groupByMethod docs).map (fun g => g.id)).Nodup ∧
    (∀ m, m ∈ (groupByMethod docs).map (fun g => g.id) ↔
      ∃ p ∈ docs, p.paymentMethod = m) ∧
    (∀ g ∈ groupByMethod docs,
      g.count = (docs.filter (fun p => p.paymentMethod = g.id)).length ∧
      g.amount =
        ((docs.filter (fun p => p.paymentMethod = g.id)).map (fun p => p.amount)).sum) := by
  induction docs using List.reverseRecOn with
  | nil => simp [groupByMethod]
  | append_singleton docs p ih =>
    obtain ⟨hnodup, hmem, htally⟩ := ih
    rw [groupByMethod_append]
    refine ⟨?_, ?_, ?_⟩
    · rw [addToGroups_ids]
      split
      · exact hnodup
      · rename_i hnot
        rw [List.nodup_append]
        refine ⟨hnodup, List.nodup_singleton _, ?_⟩
        intro m hm hm'
        rw [List.mem_singleton] at hm'
        subst hm'
        exact hnot hm
    · intro m
      rw [addToGroups_ids]
      split
      · rename_i hin
        rw [hmem]
        constructor
        · rintro ⟨q, hq, e⟩
          exact ⟨q, List.mem_append_left _ hq, e⟩
        · rintro ⟨q, hq, e⟩
          rcases List.mem_append.mp hq with hq | hq
          · exact ⟨q, hq, e⟩
          · rw [List.mem_singleton] at hq
            subst hq
            subst e
            exact (hmem _).mp hin
      · rw [List.mem_append, hmem, List.mem_singleton]
        constructor
        · rintro (⟨q, hq, e⟩ | e)
          · exact ⟨q, List.mem_append_left _ hq, e⟩
          · exact ⟨p, by simp, e.symm⟩
        · rintro ⟨q, hq, e⟩
          rcases List.mem_append.mp hq with hq | hq
          · exact Or.inl ⟨q, hq, e⟩
          · rw [List.mem_singleton] at hq
            subst hq
            exact Or.inr e.symm
    · intro g hg
      have h := addToGroups_tally
        (fun m => (docs.filter (fun q => q.paymentMethod = m)).length)
        (fun m => ((docs.filter (fun q => q.paymentMethod = m)).map (fun q => q.amount)).sum)
        (groupByMethod docs) p hnodup htally
        (by
          intro hnot
          have hnone : ∀ q ∈ docs, ¬ q.paymentMethod = p.paymentMethod := by
            intro q hq e
            exact hnot ((hmem _).mpr ⟨q, hq, e⟩)
          have hnil : docs.filter (fun q => q.paymentMethod = p.paymentMethod) = [] := by
            rw [List.filter_eq_nil_iff]
            intro q hq
            simpa using hnone q hq
          simp [hnil]) g hg
      simp only at h
      rw [List.filter_append, List.length_append, List.map_append, List.sum_append, h.1, h.2]
      by_cases e : g.id = p.paymentMethod
      · have e' : p.paymentMethod = g.id := e.symm
        simp [e, List.filter_cons]
      · have e' : ¬ p.paymentMethod = g.id := fun x => e x.symm
        simp [e, e', List.filter_cons]

/-- C11: `getPaymentStatistics` works on exactly the completed payments of the organization
whose payment date lies within the optional inclusive bounds; over them the summary holds
the sums of `amount`, `discount.amount` and `lateFee.amount`, the count, and the mean of
`amount` (0 when nothing is selected), and `byMethod` holds one entry per payment method
that occurs, with its count and its summed `amount`. -/
theorem getPaymentStatistics_spec (db : Db) (organizationId : ObjectId)
    (startDate endDate : Option Nat) :
    ∃ selected : List Payment,
      selected = db.payments.filter (fun p =>
        decide (p.status = .completed ∧ p.organizationId = organizationId ∧
          (∀ lo ∈ startDate, lo ≤ p.paymentDate) ∧
          (∀ hi ∈ endDate, p.paymentDate ≤ hi))) ∧
      (getPaymentStatistics db organizationId startDate endDate).summary.totalAmount =
        (selected.map (fun p => p.amount)).sum ∧
      (getPaymentStatistics db organizationId startDate endDate).summary.totalDiscount =
        (selected.map (fun p => p.discountAmount)).sum ∧
      (getPaymentStatistics db organizationId startDate endDate).summary.totalLateFee =
        (selected.map (fun p => p.lateFeeAmount)).sum ∧
      (getPaymentStatistics db organizationId startDate endDate).summary.totalPayments =
        selected.length ∧
      (selected ≠ [] →
        (getPaymentStatistics db organizationId startDate endDate).summary.averagePayment =
          ((selected.map (fun p => p.amount)).sum : ℚ) / (selected.length : ℚ)) ∧
      (selected = [] →
        (getPaymentStatistics db organizationId startDate endDate).summary.averagePayment
          = 0) ∧
      ((getPaymentStatistics db organizationId startDate endDate).byMethod.map
        (fun g => g.id)).Nodup ∧
      (∀ m, m ∈ (getPaymentStatistics db organizationId startDate endDate).byMethod.map
          (fun g => g.id) ↔ ∃ p ∈ selected, p.paymentMethod = m) ∧
      (∀ g ∈ (getPaymentStatistics db organizationId startDate endDate).byMethod,
        g.count = (selected.filter (fun p => p.paymentMethod = g.id)).length ∧
        g.amount =
          ((selected.filter (fun p => p.paymentMethod = g.id)).map
            (fun p => p.amount)).sum) := by
  have hsel : db.payments.filter
      (MatchQuery.holds
        { organizationId := organizationId
          status := .completed
          paymentDate :=
            if startDate.isSome || endDate.isSome then
              some { gte := startDate, lte := endDate }
            else none }) =
      db.payments.filter (fun p =>
        decide (p.status = .completed ∧ p.organizationId = organizationId ∧
          (∀ lo ∈ startDate, lo ≤ p.paymentDate) ∧
          (∀ hi ∈ endDate, p.paymentDate ≤ hi))) := by
    apply List.filter_congr
    intro p _
    rw [Bool.eq_iff_iff, statisticsQuery_holds, decide_eq_true_iff]
    simp only [Option.mem_def]
  refine ⟨_, rfl, ?_⟩
  rw [← hsel]
  obtain ⟨h1, h2, h3⟩ := groupByMethod_spec
    (db.payments.filter
      (MatchQuery.holds
        { organizationId := organizationId
          status := .completed
          paymentDate :=
            if startDate.isSome || endDate.isSome then
              some { gte := startDate, lte := endDate }
            else none }))
  unfold getPaymentStatistics
  simp only
  refine ⟨?_, ?_, ?_, ?_, ?_, ?_, h1, h2, h3⟩
  all_goals
    cases hl : db.payments.filter
      (MatchQuery.holds
        { organizationId := organizationId
          status := .completed
          paymentDate :=
            if startDate.isSome || endDate.isSome then
              some { gte := startDate, lte := endDate }
            else none }) with
    | nil => simp [groupAll]
    | cons a t => simp [groupAll]

/-- C11 on the statistics fixture: of the four payments the two completed ones of
organization 7 are selected, giving 1500 in total, 2 payments and a mean of 750. -/
theorem getPaymentStatistics_spec_witness :
    (getPaymentStatistics fixtureStatsDb 7 none none).summary.totalAmount = 1500 ∧
    (getPaymentStatistics fixtureStatsDb 7 none none).summary.totalDiscount = 100 ∧
    (getPaymentStatistics fixtureStatsDb 7 none none).summary.totalLateFee = 50 ∧
    (getPaymentStatistics fixtureStatsDb 7 none none).summary.totalPayments = 2 ∧
    (getPaymentStatistics fixtureStatsDb 7 none none).summary.averagePayment = 750 ∧
    (getPaymentStatistics fixtureStatsDb 7 none none).byMethod =
      [{ id := .cash, count := 1, amount := 1000 },
       { id := .card, count := 1, amount := 500 }] := by
  obtain ⟨selected, hsel, h1, h2, h3, h4, h5, -, -, -, -⟩ :=
    getPaymentStatistics_spec fixtureStatsDb 7 none none
  have e : selected =
      [fixturePayment,
       { fixturePayment with
         id := 2, amount := 500, paymentMethod := .card, discountAmount := 0
         lateFeeAmount := 0, receiptNumber := "RCP-20231114-3250" }] := by
    rw [hsel]
    decide
  have hne : selected ≠ [] := by rw [e]; simp
  refine ⟨?_, ?_, ?_, ?_, ?_, by decide⟩
  · rw [h1, e]
    decide
  · rw [h2, e]
    decide
  · rw [h3, e]
    decide
  · rw [h4, e]
    rfl
  · rw [h5 hne, e]
    simp [fixturePayment]
    norm_num

/-! ## Receipt numbers (C12, C13) -/

/-- One round of the digit loop behind `toString` on a natural number. -/
theorem toDigitsCore_step (fuel n : Nat) (ds : List Char) :
    Nat.toDigitsCore 10 (fuel + 1) n ds =
      if n / 10 = 0 then Nat.digitChar (n % 10) :: ds
      else Nat.toDigitsCore 10 fuel (n / 10) (Nat.digitChar (n % 10) :: ds) := by
  simp [Nat.toDigitsCore]

theorem toString_one_digit (n : Nat) (h : n ≤ 9) :
    toString n = String.mk [Nat.digitChar n] := by
  show (Nat.toDigits 10 n).asString = _
  unfold Nat.toDigits
  rw [toDigitsCore_step, if_pos (by omega), Nat.mod_eq_of_lt (by omega)]
  rfl

theorem toString_two_digits (n : Nat) (h1 : 10 ≤ n) (h2 : n ≤ 99) :
    toString n = String.mk [Nat.digitChar (n / 10), Nat.digitChar (n % 10)] := by
  show (Nat.toDigits 10 n).asString = _
  unfold Nat.toDigits
  have e : n + 1 = (n - 1) + 1 + 1 := by omega
  rw [e, toDigitsCore_step, if_neg (by omega), toDigitsCore_step, if_pos (by omega),
    Nat.mod_eq_of_lt (show n / 10 < 10 by omega)]
  rfl

theorem toString_four_digits (n : Nat) (h1 : 1000 ≤ n) (h2 : n ≤ 9999) :
    toString n = String.mk [Nat.digitChar (n / 1000), Nat.digitChar (n / 100 % 10),
      Nat.digitChar (n / 10 % 10), Nat.digitChar (n % 10)] := by
  show (Nat.toDigits 10 n).asString = _
  unfold Nat.toDigits
  have e : n + 1 = (n - 3) + 1 + 1 + 1 + 1 := by omega
  have e2 : n / 10 / 10 = n / 100 := by omega
  have e3 : n / 100 / 10 = n / 1000 := by omega
  rw [e, toDigitsCore_step, if_neg (by omega), toDigitsCore_step, if_neg (by omega), e2,
    toDigitsCore_step, if_neg (by omega), e3, toDigitsCore_step, if_pos (by omega),
    Nat.mod_eq_of_lt (show n / 1000 < 10 by omega)]
  rfl

/-- Padding a number below 100 to two places gives its tens digit and its units digit. -/
theorem padStart_two (n : Nat) (h : n ≤ 99) :
    padStart (toString n) 2 = String.mk [Nat.digitChar (n / 10), Nat.digitChar (n % 10)] := by
  by_cases h1 : n ≤ 9
  · rw [toString_one_digit n h1]
    have e1 : n / 10 = 0 := by omega
    have e2 : n % 10 = n := by omega
    rw [e1, e2]
    rfl
  · rw [toString_two_digits n (by omega) h]
    rfl

/-- The random part of a receipt number lies between 1000 and 9999. -/
theorem receipt_random_range (u : ℚ) (h0 : 0 ≤ u) (h1 : u < 1) :
    ∃ n : Nat, (n : Int) = Rat.floor (1000 + u * 9000) ∧ 1000 ≤ n ∧ n ≤ 9999 := by
  have hlo : (1000 : Int) ≤ Rat.floor (1000 + u * 9000) := by
    rw [Rat.le_floor]
    push_cast
    nlinarith
  have hhi : ¬ ((10000 : Int) ≤ Rat.floor (1000 + u * 9000)) := by
    rw [Rat.le_floor]
    push_cast
    intro h
    nlinarith
  refine ⟨(Rat.floor (1000 + u * 9000)).toNat, ?_, ?_, ?_⟩
  · exact Int.toNat_of_nonneg (by omega)
  · omega
  · omega

/-- The receipt number spelled out, given the four-digit year, the month, the day and the
value of the random part. -/
theorem generateReceiptNumber_eq (date : JsDate) (u : ℚ) (n : Nat)
    (hy1 : 1000 ≤ date.fullYear) (hy2 : date.fullYear ≤ 9999)
    (hm : date.month ≤ 11) (hd : date.date ≤ 31)
    (hn : (n : Int) = Rat.floor (1000 + u * 9000)) (hn1 : 1000 ≤ n) (hn2 : n ≤ 9999) :
    generateReceiptNumber date u =
      String.mk
        ['R', 'C', 'P', '-',
         Nat.digitChar (date.fullYear / 1000), Nat.digitChar (date.fullYear / 100 % 10),
         Nat.digitChar (date.fullYear / 10 % 10), Nat.digitChar (date.fullYear % 10),
         Nat.digitChar ((date.month + 1) / 10), Nat.digitChar ((date.month + 1) % 10),
         Nat.digitChar (date.date / 10), Nat.digitChar (date.date % 10),
         '-',
         Nat.digitChar (n / 1000), Nat.digitChar (n / 100 % 10),
         Nat.digitChar (n / 10 % 10), Nat.digitChar (n % 10)] := by
  unfold generateReceiptNumber
  simp only
  have hr : toString (Rat.floor (1000 + u * 9000)) = toString n := by
    rw [← hn]
    rfl
  rw [hr, toString_four_digits n hn1 hn2, toString_four_digits date.fullYear hy1 hy2,
    padStart_two (date.month + 1) (by omega), padStart_two date.date (by omega)]
  rfl

/-- C12: for a date with a four-digit year and a draw `u` in `[0, 1)`,
`generateReceiptNumber` returns `RCP-`, the four digits of the year, the two digits of the
month (counted from 1) and of the day, `-`, and the four digits of `floor(1000 + 9000 u)`,
which lies between 1000 and 9999. -/
theorem generateReceiptNumber_format (date : JsDate) (u : ℚ)
    (hy1 : 1000 ≤ date.fullYear) (hy2 : date.fullYear ≤ 9999)
    (hm : date.month ≤ 11) (hd : date.date ≤ 31)
    (hu0 : 0 ≤ u) (hu1 : u < 1) :
    ∃ n : Nat, (n : Int) = Rat.floor (1000 + u * 9000) ∧ 1000 ≤ n ∧ n ≤ 9999 ∧
      toString (Rat.floor (1000 + u * 9000)) =
        String.mk [Nat.digitChar (n / 1000), Nat.digitChar (n / 100 % 10),
          Nat.digitChar (n / 10 % 10), Nat.digitChar (n % 10)] ∧
      generateReceiptNumber date u =
        String.mk
          ['R', 'C', 'P', '-',
           Nat.digitChar (date.fullYear / 1000), Nat.digitChar (date.fullYear / 100 % 10),
           Nat.digitChar (date.fullYear / 10 % 10), Nat.digitChar (date.fullYear % 10),
           Nat.digitChar ((date.month + 1) / 10), Nat.digitChar ((date.month + 1) % 10),
           Nat.digitChar (date.date / 10), Nat.digitChar (date.date % 10),
           '-',
           Nat.digitChar (n / 1000), Nat.digitChar (n / 100 % 10),
           Nat.digitChar (n / 10 % 10), Nat.digitChar (n % 10)] ∧
      (generateReceiptNumber date u).length = 17 := by
  obtain ⟨n, hn, hn1, hn2⟩ := receipt_random_range u hu0 hu1
  have e := generateReceiptNumber_eq date u n hy1 hy2 hm hd hn hn1 hn2
  refine ⟨n, hn, hn1, hn2, ?_, e, ?_⟩
  · rw [← toString_four_digits n hn1 hn2, ← hn]
    rfl
  · rw [e]
    rfl

/-- The receipt number of the fixture clock and draw. -/
theorem fixtureEnv_receipt :
    generateReceiptNumber fixtureEnv.now fixtureEnv.random = "RCP-20231114-5500" := by
  have hn : ((5500 : Nat) : Int) = Rat.floor (1000 + fixtureEnv.random * 9000) := by
    have e : (1000 : ℚ) + fixtureEnv.random * 9000 = ((5500 : Int) : ℚ) := by
      simp only [fixtureEnv]
      norm_num
    rw [e]
    exact (@Int.floor_intCast ℚ _ _ _).symm
  rw [generateReceiptNumber_eq fixtureEnv.now fixtureEnv.random 5500
    (by decide) (by decide) (by decide) (by decide) hn (by decide) (by decide)]
  decide

/-- The receipt number of the later fixture clock and draw. -/
theorem fixtureEnvLater_receipt :
    generateReceiptNumber fixtureEnvLater.now fixtureEnvLater.random
      = "RCP-20231114-3250" := by
  have hn : ((3250 : Nat) : Int) = Rat.floor (1000 + fixtureEnvLater.random * 9000) := by
    have e : (1000 : ℚ) + fixtureEnvLater.random * 9000 = ((3250 : Int) : ℚ) := by
      simp only [fixtureEnvLater]
      norm_num
    rw [e]
    exact (@Int.floor_intCast ℚ _ _ _).symm
  rw [generateReceiptNumber_eq fixtureEnvLater.now fixtureEnvLater.random 3250
    (by decide) (by decide) (by decide) (by decide) hn (by decide) (by decide)]
  decide

/-- C12 on the fixture clock, 14 November 2023 with the draw 1/2: the receipt number has
17 characters and its random part is four digits. -/
theorem generateReceiptNumber_format_witness :
    ∃ n : Nat, (n : Int) = Rat.floor (1000 + fixtureEnv.random * 9000) ∧
      1000 ≤ n ∧ n ≤ 9999 ∧
      (generateReceiptNumber fixtureEnv.now fixtureEnv.random).length = 17 := by
  obtain ⟨n, h1, h2, h3, -, -, h6⟩ :=
    generateReceiptNumber_format fixtureEnv.now fixtureEnv.random
      (by decide) (by decide) (by decide) (by decide)
      (by simp only [fixtureEnv]; norm_num) (by simp only [fixtureEnv]; norm_num)
  exact ⟨n, h1, h2, h3, h6⟩

/-- The balance update never touches the payments. -/
theorem updateStudentFinancials_payments (db : Db) (studentId : ObjectId) (a : Int) :
    (updateStudentFinancials db studentId a).1.payments = db.payments := by
  unfold updateStudentFinancials
  cases Student.findById db studentId <;> rfl

/-- The balance update fails exactly on a missing student, and then changes nothing. -/
theorem updateStudentFinancials_none {db : Db} {studentId : ObjectId} (a : Int)
    (h : Student.findById db studentId = none) :
    updateStudentFinancials db studentId a = (db, .error (.error "Student not found")) := by
  unfold updateStudentFinancials
  rw [h]

/-- A successful `Payment.create` found no stored payment with the new receipt number. -/
theorem Payment.create_unused {db db1 : Db} {now : JsDate} {doc : PaymentData}
    {payment : Payment} (h : Payment.create db now doc = (db1, .ok payment)) :
    ∀ q ∈ db.payments, q.receiptNumber ≠ payment.receiptNumber := by
  unfold Payment.create at h
  split at h
  · simp at h
  · split at h
    · simp at h
    · split at h
      · simp at h
      · simp at h
      · split at h
        · simp at h
        · rename_i hany
          simp only [Prod.mk.injEq, Except.ok.injEq] at h
          obtain ⟨-, h2⟩ := h
          subst h2
          intro q hq e
          apply hany
          rw [List.any_eq_true]
          exact ⟨q, hq, by simpa using e⟩

/-- A failed `Payment.create` has written nothing. -/
theorem Payment.create_error {db db1 : Db} {now : JsDate} {doc : PaymentData} {e : JsError}
    (h : Payment.create db now doc = (db1, .error e)) : db1 = db := by
  unfold Payment.create at h
  split at h
  · simp only [Prod.mk.injEq] at h
    exact h.1.symm
  · split at h
    · simp only [Prod.mk.injEq] at h
      exact h.1.symm
    · split at h
      · simp only [Prod.mk.injEq] at h
        exact h.1.symm
      · simp only [Prod.mk.injEq] at h
        exact h.1.symm
      · split at h
        · simp only [Prod.mk.injEq] at h
          exact h.1.symm
        · simp at h

/-- `Payment.create` refuses a receipt number that a stored payment already has, whatever
else the document holds: it fails and writes nothing. -/
theorem Payment.create_taken (db : Db) (now : JsDate) (doc : PaymentData)
    (receiptNumber : String) (hr : doc.receiptNumber = some receiptNumber)
    (q : Payment) (hq : q ∈ db.payments) (hqr : q.receiptNumber = receiptNumber) :
    ∃ e, Payment.create db now doc = (db, .error e) := by
  have hany : db.payments.any (fun p => p.receiptNumber == receiptNumber) = true := by
    rw [List.any_eq_true]
    exact ⟨q, hq, by simpa using hqr⟩
  unfold Payment.create
  split
  · exact ⟨_, rfl⟩
  · split
    · exact ⟨_, rfl⟩
    · rw [hr]
      cases doc.collectedBy with
      | none => exact ⟨_, rfl⟩
      | some c =>
        simp only [hany, if_true]
        exact ⟨_, rfl⟩

/-- What a successful `processPayment` has done: created the payment, then updated the
student that it found. -/
theorem processPayment_ok {env : Env} {db db' : Db} {paymentData : PaymentData}
    {collectedBy : ObjectId} {payment : Payment}
    (h : processPayment env db paymentData collectedBy = (db', .ok payment)) :
    Payment.create db env.now
        { paymentData with
          receiptNumber := some (generateReceiptNumber env.now env.random)
          collectedBy := some collectedBy
          status := some .completed } =
      ({ db with payments := db.payments ++ [payment] }, .ok payment) ∧
    db'.payments = db.payments ++ [payment] ∧
    ∃ s, Student.findById db paymentData.studentId = some s ∧
      db' = Student.save { db with payments := db.payments ++ [payment] }
        { s with
          totalPaid := s.totalPaid +
            (paymentData.amount - paymentData.discount.getD 0 + paymentData.lateFee.getD 0)
          totalDebt := max 0 (s.totalDebt -
            (paymentData.amount - paymentData.discount.getD 0
              + paymentData.lateFee.getD 0)) } := by
  rw [processPayment_eq] at h
  rcases hc : Payment.create db env.now
      { paymentData with
        receiptNumber := some (generateReceiptNumber env.now env.random)
        collectedBy := some collectedBy
        status := some .completed } with ⟨db1, e | created⟩
  · rw [hc] at h
    simp at h
  · rw [hc] at h
    have hdb1 := (Payment.create_ok hc).1
    subst hdb1
    cases hs : Student.findById { db with payments := db.payments ++ [created] }
        paymentData.studentId with
    | none =>
      simp only [updateStudentFinancials_none _ hs] at h
      simp at h
    | some s =>
      simp only [updateStudentFinancials_eq _ hs, Prod.mk.injEq, Except.ok.injEq] at h
      obtain ⟨h1, h2⟩ := h
      subst h2
      refine ⟨rfl, ?_, s, hs, h1.symm⟩
      rw [← h1]
      rfl

/-- When `processPayment` goes through: the student exists, the amount and the notes pass
the schema, and the receipt number is not yet used. -/
theorem processPayment_succeeds (env : Env) (db : Db) (paymentData : PaymentData)
    (collectedBy : ObjectId) (s : Student)
    (hs : Student.findById db paymentData.studentId = some s)
    (hamount : 0 ≤ paymentData.amount) (hnotes : (paymentData.notes.getD "").length ≤ 500)
    (huniq : db.payments.any
      (fun p => p.receiptNumber == generateReceiptNumber env.now env.random) = false) :
    ∃ db' payment, processPayment env db paymentData collectedBy = (db', .ok payment) := by
  obtain ⟨created, hc⟩ := Payment.create_succeeds db env.now
    { paymentData with
      receiptNumber := some (generateReceiptNumber env.now env.random)
      collectedBy := some collectedBy
      status := some .completed }
    (generateReceiptNumber env.now env.random) collectedBy hamount hnotes rfl rfl huniq
  have hs' : Student.findById { db with payments := db.payments ++ [created] }
      paymentData.studentId = some s := hs
  rw [processPayment_eq, hc]
  simp only [updateStudentFinancials_eq _ hs']
  exact ⟨_, _, rfl⟩

/-- C13: when two calls of `processPayment` one after the other both persist a payment, the
two payments have different receipt numbers, and receipt numbers that were pairwise distinct
in the store stay so; a later call that draws the first payment's receipt number fails and
persists nothing. -/
theorem processPayment_receipts_distinct (env1 env2 : Env) (db db1 db2 : Db)
    (request1 request2 : PaymentData) (actor1 actor2 : ObjectId) (p1 p2 : Payment)
    (h1 : processPayment env1 db request1 actor1 = (db1, .ok p1))
    (h2 : processPayment env2 db1 request2 actor2 = (db2, .ok p2)) :
    p1.receiptNumber ≠ p2.receiptNumber ∧
    db2.payments = db.payments ++ [p1, p2] ∧
    ((db.payments.map (fun p => p.receiptNumber)).Nodup →
      (db2.payments.map (fun p => p.receiptNumber)).Nodup) ∧
    (∀ (env3 : Env) (request3 : PaymentData) (actor3 : ObjectId),
      generateReceiptNumber env3.now env3.random = p1.receiptNumber →
      ∃ e, processPayment env3 db1 request3 actor3 = (db1, .error e)) := by
  obtain ⟨hc1, hp1, -⟩ := processPayment_ok h1
  obtain ⟨hc2, hp2, -⟩ := processPayment_ok h2
  have hu1 := Payment.create_unused hc1
  have hu2 := Payment.create_unused hc2
  have hne : p1.receiptNumber ≠ p2.receiptNumber :=
    hu2 p1 (by rw [hp1]; simp)
  refine ⟨hne, ?_, ?_, ?_⟩
  · rw [hp2, hp1]
    simp
  · intro hnd
    rw [hp2, hp1]
    simp only [List.map_append, List.map_cons, List.map_nil, List.append_assoc]
    have hall : ∀ q ∈ db.payments, q.receiptNumber ≠ p2.receiptNumber :=
      fun q hq => hu2 q (by rw [hp1]; exact List.mem_append_left _ hq)
    rw [List.nodup_append]
    refine ⟨hnd, ?_, ?_⟩
    · simp only [List.singleton_append, List.nodup_cons, List.mem_singleton, List.not_mem_nil,
        not_false_eq_true, List.nodup_nil, and_true]
      exact hne
    · intro r hr hr'
      rw [List.mem_map] at hr
      obtain ⟨q, hq, rfl⟩ := hr
      simp only [List.singleton_append, List.mem_cons, List.mem_singleton, List.not_mem_nil,
        or_false] at hr'
      rcases hr' with e | e
      · exact hu1 q hq e
      · exact hall q hq e
  · intro env3 request3 actor3 hdraw
    obtain ⟨e, he⟩ := Payment.create_taken db1 env3.now
      { request3 with
        receiptNumber := some (generateReceiptNumber env3.now env3.random)
        collectedBy := some actor3
        status := some .completed }
      (generateReceiptNumber env3.now env3.random) rfl p1 (by rw [hp1]; simp) hdraw.symm
    refine ⟨e, ?_⟩
    rw [processPayment_eq, he]

/-- C13 on the fixtures: two payments on the same day with the draws 1/2 and 1/4 are both
persisted, with different receipt numbers. -/
theorem processPayment_receipts_distinct_witness :
    ∃ db1 p1 db2 p2,
      processPayment fixtureEnv fixtureDb fixtureRequest 99 = (db1, .ok p1) ∧
      processPayment fixtureEnvLater db1 { fixtureRequest with amount := 500 } 99 =
        (db2, .ok p2) ∧
      p1.receiptNumber ≠ p2.receiptNumber ∧ db2.payments = [p1, p2] := by
  obtain ⟨db1, p1, h1⟩ := processPayment_succeeds fixtureEnv fixtureDb fixtureRequest 99
    fixtureStudent rfl (by decide) (by decide) rfl
  obtain ⟨hc1, hp1, s, hs, hdb1⟩ := processPayment_ok h1
  have hr1 : p1.receiptNumber = "RCP-20231114-5500" := by
    have h := (Payment.create_ok hc1).2.2.2.2.2.2.1
    simp only [Option.some.injEq] at h
    rw [h, fixtureEnv_receipt]
  have hs1 : Student.findById db1 123 = some
      { s with
        totalPaid := s.totalPaid +
          (fixtureRequest.amount - fixtureRequest.discount.getD 0
            + fixtureRequest.lateFee.getD 0)
        totalDebt := max 0 (s.totalDebt -
          (fixtureRequest.amount - fixtureRequest.discount.getD 0
            + fixtureRequest.lateFee.getD 0)) } := by
    rw [hdb1]
    exact @findStudent_save_self { fixtureDb with payments := fixtureDb.payments ++ [p1] }
      123 s _ hs rfl
  have huniq : db1.payments.any
      (fun p => p.receiptNumber ==
        generateReceiptNumber fixtureEnvLater.now fixtureEnvLater.random) = false := by
    rw [hp1, fixtureEnvLater_receipt]
    simp only [fixtureDb, List.nil_append, List.any_cons, List.any_nil, Bool.or_false, hr1]
    decide
  obtain ⟨db2, p2, h2⟩ := processPayment_succeeds fixtureEnvLater db1
    { fixtureRequest with amount := 500 } 99 _ hs1 (by decide) (by decide) huniq
  have h := processPayment_receipts_distinct fixtureEnv fixtureEnvLater fixtureDb db1 db2
    fixtureRequest { fixtureRequest with amount := 500 } 99 99 p1 p2 h1 h2
  exact ⟨db1, p1, db2, p2, h1, h2, h.1, h.2.1⟩

/-! ## Failures of the ledger operations (C14 to C17) -/

/-- A negative amount fails the schema before anything is written. -/
theorem processPayment_negative (env : Env) (db : Db) (paymentData : PaymentData)
    (collectedBy : ObjectId) (h : paymentData.amount < 0) :
    processPayment env db paymentData collectedBy =
      (db, .error (.validationError "amount")) := by
  rw [processPayment_eq]
  unfold Payment.create
  simp only [if_pos h]

/-- A missing student is noticed only after the payment has been created. -/
theorem processPayment_missing_student (env : Env) (db : Db) (paymentData : PaymentData)
    (collectedBy : ObjectId)
    (hs : Student.findById db paymentData.studentId = none)
    (hamount : 0 ≤ paymentData.amount) (hnotes : (paymentData.notes.getD "").length ≤ 500)
    (huniq : db.payments.any
      (fun p => p.receiptNumber == generateReceiptNumber env.now env.random) = false) :
    ∃ payment, processPayment env db paymentData collectedBy =
      ({ db with payments := db.payments ++ [payment] },
        .error (.error "Student not found")) := by
  obtain ⟨created, hc⟩ := Payment.create_succeeds db env.now
    { paymentData with
      receiptNumber := some (generateReceiptNumber env.now env.random)
      collectedBy := some collectedBy
      status := some .completed }
    (generateReceiptNumber env.now env.random) collectedBy hamount hnotes rfl rfl huniq
  have hs' : Student.findById { db with payments := db.payments ++ [created] }
      paymentData.studentId = none := hs
  refine ⟨created, ?_⟩
  rw [processPayment_eq, hc]
  simp only [updateStudentFinancials_none _ hs']

/-- The handler `createPayment` when the student does not exist. -/
theorem createPayment_missing_student (env : Env) (notifier : Notifier) (db : Db) (user : User)
    (body : PaymentData) (hs : Student.findById db body.studentId = none) :
    createPayment env notifier db user body = (db, notFoundResponse "Student not found", []) := by
  unfold createPayment
  have hs' : Student.findById db
      ({ body with organizationId := user.organizationId } : PaymentData).studentId = none := hs
  simp only [hs']

/-- C14 as stated fails: `processPayment` accepts the amount 0, and it fails on a request
with an existing student and the amount 1000 when the receipt number drawn is already
stored. -/
theorem processPayment_outcomes_counterexample :
    (∃ db' payment,
      processPayment fixtureEnv fixtureDb
        { fixtureRequest with amount := 0, discount := none, lateFee := none } 99 =
        (db', .ok payment)) ∧
    processPayment fixtureEnv fixturePaidDb fixtureRequest 99 =
      (fixturePaidDb, .error (.duplicateKey "receiptNumber")) := by
  constructor
  · exact ⟨_, _, rfl⟩
  · rw [processPayment_eq]
    simp [Payment.create, fixtureEnv_receipt, fixtureRequest, fixturePaidDb, fixturePayment]

/-- C14, amended: `processPayment` fails with a validation error when the amount is negative;
when the payment document is accepted (amount at least 0, notes of at most 500 characters,
receipt number not yet stored) it fails with "Student not found" for a missing student and
succeeds for an existing one.  An amount `≤ 0` and a missing student are turned away, with
nothing written, by the create route (role check, `createPaymentValidator`, then the student
check of `createPayment`). -/
theorem processPayment_outcomes (env : Env) (db : Db) (paymentData : PaymentData)
    (collectedBy : ObjectId) :
    (paymentData.amount < 0 →
      processPayment env db paymentData collectedBy =
        (db, .error (.validationError "amount"))) ∧
    (0 ≤ paymentData.amount → (paymentData.notes.getD "").length ≤ 500 →
      db.payments.any
        (fun p => p.receiptNumber == generateReceiptNumber env.now env.random) = false →
      (Student.findById db paymentData.studentId = none →
        (processPayment env db paymentData collectedBy).2 =
          .error (.error "Student not found")) ∧
      (∀ s, Student.findById db paymentData.studentId = some s →
        ∃ db' payment,
          processPayment env db paymentData collectedBy = (db', .ok payment))) ∧
    (∀ (notifier : Notifier) (user : User),
      (paymentData.amount ≤ 0 ∨ Student.findById db paymentData.studentId = none) →
      (createRoute env notifier db user paymentData).1 = db ∧
      ((createRoute env notifier db user paymentData).2.1.statusCode = 401 ∨
        (createRoute env notifier db user paymentData).2.1.statusCode = 422 ∨
        (createRoute env notifier db user paymentData).2.1.statusCode = 404)) := by
  refine ⟨processPayment_negative env db paymentData collectedBy, ?_, ?_⟩
  · intro hamount hnotes huniq
    constructor
    · intro hs
      obtain ⟨payment, h⟩ := processPayment_missing_student env db paymentData collectedBy
        hs hamount hnotes huniq
      rw [h]
    · intro s hs
      exact processPayment_succeeds env db paymentData collectedBy s hs hamount hnotes huniq
  · intro notifier user h
    unfold createRoute
    by_cases hrole : authorize ["admin", "accountant"] user = true
    · by_cases hval : createPaymentValidator paymentData = true
      · have hpos : 1 ≤ paymentData.amount := by
          simp only [createPaymentValidator, Bool.and_eq_true, decide_eq_true_eq] at hval
          exact hval.1
        have hs : Student.findById db paymentData.studentId = none := by
          rcases h with h | h
          · omega
          · exact h
        simp only [hrole, hval, Bool.not_true, Bool.false_eq_true, if_false]
        rw [createPayment_missing_student env notifier db user paymentData hs]
        exact ⟨rfl, Or.inr (Or.inr rfl)⟩
      · simp only [hrole, hval, Bool.not_true, Bool.false_eq_true, if_false]
        exact ⟨rfl, Or.inr (Or.inl rfl)⟩
    · simp only [hrole]
      exact ⟨rfl, Or.inl rfl⟩

/-- C14, amended, on the fixtures: the amount -5 fails the schema, and the route answers a
request with the amount 0 with an error and writes nothing. -/
theorem processPayment_outcomes_witness :
    processPayment fixtureEnv fixtureDb { fixtureRequest with amount := -5 } 99 =
      (fixtureDb, .error (.validationError "amount")) ∧
    (createRoute fixtureEnv fixtureNotifier fixtureDb fixtureAccountant
      { fixtureRequest with amount := 0 }).1 = fixtureDb :=
  ⟨(processPayment_outcomes fixtureEnv fixtureDb { fixtureRequest with amount := -5 } 99).1
      (by decide),
    ((processPayment_outcomes fixtureEnv fixtureDb { fixtureRequest with amount := 0 } 99).2.2
      fixtureNotifier fixtureAccountant (Or.inl (by decide))).1⟩

/-- C15 as stated fails: `processPayment` for a student that does not exist fails with
"Student not found" after it has persisted the payment. -/
theorem ledger_atomicity_counterexample :
    (processPayment fixtureEnv fixtureDb { fixtureRequest with studentId := 999 } 99).2 =
      .error (.error "Student not found") ∧
    fixtureDb.payments = [] ∧
    (processPayment fixtureEnv fixtureDb { fixtureRequest with studentId := 999 } 99).1.payments.map
      (fun p => (p.studentId, p.amount, p.status)) = [(999, 1000, PaymentStatus.completed)] :=
  ⟨rfl, rfl, rfl⟩

/-- C15, amended: `processRefund` leaves the store unchanged when it fails because the payment
does not exist or is already refunded.  When `processPayment` fails, no student and no stored
payment has changed; nothing has been created unless the failure is the missing student, in
which case the new payment has already been persisted.  The handler `createPayment` checks the
student first and answers 404 with the store unchanged. -/
theorem ledger_atomicity (env : Env) (db : Db) :
    (∀ paymentId refundData refundedBy, Payment.findById db paymentId = none →
      processRefund env db paymentId refundData refundedBy =
        (db, .error (.error "Payment not found"))) ∧
    (∀ paymentId refundData refundedBy p, Payment.findById db paymentId = some p →
      p.status = .refunded →
      processRefund env db paymentId refundData refundedBy =
        (db, .error (.error "Payment already refunded"))) ∧
    (∀ paymentData collectedBy db' e,
      processPayment env db paymentData collectedBy = (db', .error e) →
      db'.students = db.students ∧
      (db' = db ∨
        (e = .error "Student not found" ∧
          Student.findById db paymentData.studentId = none ∧
          ∃ payment, db'.payments = db.payments ++ [payment]))) ∧
    (∀ notifier user body, Student.findById db body.studentId = none →
      createPayment env notifier db user body =
        (db, notFoundResponse "Student not found", [])) := by
  refine ⟨?_, ?_, ?_, ?_⟩
  · intro paymentId refundData refundedBy h
    unfold processRefund
    rw [h]
  · intro paymentId refundData refundedBy p hp hst
    exact processRefund_refunded env refundData refundedBy hp hst
  · intro paymentData collectedBy db' e h
    rw [processPayment_eq] at h
    rcases hc : Payment.create db env.now
        { paymentData with
          receiptNumber := some (generateReceiptNumber env.now env.random)
          collectedBy := some collectedBy
          status := some .completed } with ⟨db1, e1 | created⟩
    · rw [hc] at h
      simp only [Prod.mk.injEq, Except.error.injEq] at h
      have hdb := Payment.create_error hc
      rw [← h.1, hdb]
      exact ⟨rfl, Or.inl rfl⟩
    · rw [hc] at h
      have hdb1 := (Payment.create_ok hc).1
      subst hdb1
      cases hs : Student.findById { db with payments := db.payments ++ [created] }
          paymentData.studentId with
      | none =>
        simp only [updateStudentFinancials_none _ hs, Prod.mk.injEq, Except.error.injEq] at h
        rw [← h.1, ← h.2]
        exact ⟨rfl, Or.inr ⟨rfl, hs, created, rfl⟩⟩
      | some s =>
        simp only [updateStudentFinancials_eq _ hs, Prod.mk.injEq] at h
        exact absurd h.2 (by simp)
  · intro notifier user body hs
    exact createPayment_missing_student env notifier db user body hs

/-- C15, amended, on the fixtures: a refund of a payment that does not exist and a payment
request for a student that does not exist, sent to `createPayment`, leave the store as it
is. -/
theorem ledger_atomicity_witness :
    processRefund fixtureEnv fixturePaidDb 5 { amount := 100, reason := "none" } 99 =
      (fixturePaidDb, .error (.error "Payment not found")) ∧
    createPayment fixtureEnv fixtureNotifier fixtureDb fixtureAccountant
        { fixtureRequest with studentId := 999 } =
      (fixtureDb, notFoundResponse "Student not found", []) :=
  ⟨(ledger_atomicity fixtureEnv fixturePaidDb).1 5 { amount := 100, reason := "none" } 99 rfl,
    (ledger_atomicity fixtureEnv fixtureDb).2.2.2 fixtureNotifier fixtureAccountant
      { fixtureRequest with studentId := 999 } rfl⟩

/-- The document that `processPayment` has created, field by field. -/
theorem processPayment_created {env : Env} {db db1 : Db} {paymentData : PaymentData}
    {collectedBy : ObjectId} {created : Payment}
    (hc : Payment.create db env.now
        { paymentData with
          receiptNumber := some (generateReceiptNumber env.now env.random)
          collectedBy := some collectedBy
          status := some .completed } = (db1, .ok created)) :
    created =
      { id := Payment.freshId db
        organizationId := paymentData.organizationId
        studentId := paymentData.studentId
        amount := paymentData.amount
        paymentMethod := paymentData.paymentMethod
        status := .completed
        receiptNumber := generateReceiptNumber env.now env.random
        paymentForType := paymentData.paymentForType
        paymentDate := paymentData.paymentDate.getD env.now.time
        discountAmount := paymentData.discount.getD 0
        lateFeeAmount := paymentData.lateFee.getD 0
        collectedBy := collectedBy
        verifiedBy := paymentData.verifiedBy
        verifiedAt := paymentData.verifiedAt
        notes := paymentData.notes
        refund := paymentData.refund } := by
  unfold Payment.create at hc
  simp only at hc
  split at hc
  · simp at hc
  · split at hc
    · simp at hc
    · split at hc
      · simp at hc
      · simp only [Prod.mk.injEq, Except.ok.injEq] at hc
        exact hc.2.symm

/-- C16: the payment that `processPayment` persists has the status completed, the receipt
number just generated and the acting user as `collectedBy`, whatever the request carries in
those three fields; every other field is the request's, with the schema defaults for an
absent discount, late fee and payment date.  Nothing else is added to the payments. -/
theorem processPayment_persists (env : Env) (db : Db) (paymentData : PaymentData)
    (collectedBy : ObjectId) :
    ∃ persisted : Payment,
      persisted =
        { id := Payment.freshId db
          organizationId := paymentData.organizationId
          studentId := paymentData.studentId
          amount := paymentData.amount
          paymentMethod := paymentData.paymentMethod
          status := .completed
          receiptNumber := generateReceiptNumber env.now env.random
          paymentForType := paymentData.paymentForType
          paymentDate := paymentData.paymentDate.getD env.now.time
          discountAmount := paymentData.discount.getD 0
          lateFeeAmount := paymentData.lateFee.getD 0
          collectedBy := collectedBy
          verifiedBy := paymentData.verifiedBy
          verifiedAt := paymentData.verifiedAt
          notes := paymentData.notes
          refund := paymentData.refund } ∧
      ((processPayment env db paymentData collectedBy).1.payments = db.payments ∨
        (processPayment env db paymentData collectedBy).1.payments =
          db.payments ++ [persisted]) ∧
      (∀ db' payment, processPayment env db paymentData collectedBy = (db', .ok payment) →
        payment = persisted ∧ db'.payments = db.payments ++ [persisted]) := by
  refine ⟨_, rfl, ?_, ?_⟩
  · rw [processPayment_eq]
    rcases hc : Payment.create db env.now
        { paymentData with
          receiptNumber := some (generateReceiptNumber env.now env.random)
          collectedBy := some collectedBy
          status := some .completed } with ⟨db1, e1 | created⟩
    · left
      rw [Payment.create_error hc]
    · right
      have hdb1 := (Payment.create_ok hc).1
      have hcr := processPayment_created hc
      have hp := updateStudentFinancials_payments db1 paymentData.studentId
        (paymentData.amount - paymentData.discount.getD 0 + paymentData.lateFee.getD 0)
      rw [← hcr]
      simp only
      rcases hu : updateStudentFinancials db1 paymentData.studentId
        (paymentData.amount - paymentData.discount.getD 0 + paymentData.lateFee.getD 0)
        with ⟨db2, e2 | s2⟩
      · rw [hu] at hp
        show db2.payments = db.payments ++ [created]
        rw [show db2.payments = db1.payments from hp, hdb1]
      · rw [hu] at hp
        show db2.payments = db.payments ++ [created]
        rw [show db2.payments = db1.payments from hp, hdb1]
  · intro db' payment h
    obtain ⟨hc, hp, -⟩ := processPayment_ok h
    rw [← processPayment_created hc]
    exact ⟨rfl, hp⟩

/-- C16 on a request that carries its own status, receipt number and collector: the
persisted payment is completed, numbered by the generator and collected by the actor 99. -/
theorem processPayment_persists_witness :
    ∃ db' payment,
      processPayment fixtureEnv fixtureDb
        { fixtureRequest with
          status := some .pending, receiptNumber := some "MINE", collectedBy := some 5 } 99 =
        (db', .ok payment) ∧
      payment.status = .completed ∧
      payment.receiptNumber = generateReceiptNumber fixtureEnv.now fixtureEnv.random ∧
      payment.collectedBy = 99 ∧ db'.payments = [payment] := by
  obtain ⟨persisted, hrec, -, h⟩ := processPayment_persists fixtureEnv fixtureDb
    { fixtureRequest with
      status := some .pending, receiptNumber := some "MINE", collectedBy := some 5 } 99
  obtain ⟨h1, h2⟩ := h _ _ rfl
  refine ⟨_, _, rfl, ?_, ?_, ?_, ?_⟩
  · rw [h1, hrec]
  · rw [h1, hrec]
  · rw [h1, hrec]
  · rw [h2, h1]
    rfl

/-- C17: for a student id that no student has, `updateStudentFinancials` fails with
"Student not found" and the store is the one it was given. -/
theorem updateStudentFinancials_not_found (db : Db) (studentId : ObjectId) (a : Int)
    (h : Student.findById db studentId = none) :
    updateStudentFinancials db studentId a = (db, .error (.error "Student not found")) := by
  unfold updateStudentFinancials
  rw [h]

/-- C17 on the fixture store, which has no student 999. -/
theorem updateStudentFinancials_not_found_witness :
    updateStudentFinancials fixtureDb 999 1000 =
      (fixtureDb, .error (.error "Student not found")) :=
  updateStudentFinancials_not_found fixtureDb 999 1000 rfl

/-! ## Verification and update of payments (C18 to C20) -/

/-- Looking a payment up reads the payments only. -/
theorem findPayment_congr {db db' : Db} (h : db'.payments = db.payments) (id : ObjectId) :
    Payment.findById db' id = Payment.findById db id := by
  unfold Payment.findById
  rw [h]

/-- C18 at its failing input: verifying the pending payment of 1000 with discount 100 and
late fee 50 credits the gross 1000 (1000 paid, 4000 owed), whereas `processPayment` for the
same amounts credits the net 950 (950 paid, 4050 owed). -/
theorem verifyPayment_credits_gross :
    Payment.netAmount { fixturePayment with status := .pending } = 950 ∧
    Student.findById (verifyPayment fixtureEnv fixturePendingDb fixtureAdmin 1).1 123 =
      some { fixtureStudent with totalPaid := 1000, totalDebt := 4000 } ∧
    Student.findById (processPayment fixtureEnv fixtureDb fixtureRequest 99).1 123 =
      some { fixtureStudent with totalPaid := 950, totalDebt := 4050 } := by
  refine ⟨?_, ?_, ?_⟩ <;> decide

/-- C19: `verifyPayment` answers 404 for a payment that does not exist and 400 for a payment
that is not pending, and in both cases the store is unchanged; for a pending payment it saves
the payment as completed with `verifiedBy` the acting user and `verifiedAt` the current
time. -/
theorem verifyPayment_gate (env : Env) (db : Db) (user : User) (id : ObjectId) :
    (Payment.findById db id = none →
      verifyPayment env db user id = (db, notFoundResponse "Payment not found")) ∧
    (∀ p, Payment.findById db id = some p → p.status ≠ .pending →
      verifyPayment env db user id =
        (db, badRequestResponse "Payment is not pending verification") ∧
      (verifyPayment env db user id).2.statusCode = 400) ∧
    (∀ p, Payment.findById db id = some p → p.status = .pending →
      Payment.findById (verifyPayment env db user id).1 id =
        some { p with
          status := .completed
          verifiedBy := some user.id
          verifiedAt := some env.now.time }) := by
  refine ⟨?_, ?_, ?_⟩
  · intro h
    unfold verifyPayment
    rw [h]
  · intro p hp hst
    rw [verifyPayment_found env user hp, if_pos hst]
    exact ⟨rfl, rfl⟩
  · intro p hp hst
    rw [verifyPayment_found env user hp, if_neg (not_not.mpr hst)]
    have hsaved : Payment.findById
        (Payment.save db
          { p with
            status := .completed
            verifiedBy := some user.id
            verifiedAt := some env.now.time }) id =
        some { p with
          status := .completed
          verifiedBy := some user.id
          verifiedAt := some env.now.time } :=
      findPayment_save_self hp rfl
    have hpay := updateStudentFinancials_payments
      (Payment.save db
        { p with
          status := .completed
          verifiedBy := some user.id
          verifiedAt := some env.now.time }) p.studentId p.amount
    rcases hu : updateStudentFinancials
      (Payment.save db
        { p with
          status := .completed
          verifiedBy := some user.id
          verifiedAt := some env.now.time }) p.studentId p.amount with ⟨db2, e2 | s2⟩
    · rw [hu] at hpay
      show Payment.findById db2 id = _
      rw [findPayment_congr hpay]
      exact hsaved
    · rw [hu] at hpay
      show Payment.findById db2 id = _
      rw [findPayment_congr hpay]
      exact hsaved

/-- C19 on the fixtures: verifying the completed payment is answered 400 with the store
unchanged, and verifying the pending one marks it verified by the administrator 99. -/
theorem verifyPayment_gate_witness :
    verifyPayment fixtureEnv fixturePaidDb fixtureAdmin 1 =
      (fixturePaidDb, badRequestResponse "Payment is not pending verification") ∧
    Payment.findById (verifyPayment fixtureEnv fixturePendingDb fixtureAdmin 1).1 1 =
      some { fixturePayment with
        status := .completed
        verifiedBy := some 99
        verifiedAt := some 1700000000000 } :=
  ⟨((verifyPayment_gate fixtureEnv fixturePaidDb fixtureAdmin 1).2.1 fixturePayment rfl
      (by decide)).1,
    (verifyPayment_gate fixtureEnv fixturePendingDb fixtureAdmin 1).2.2
      { fixturePayment with status := .pending } rfl rfl⟩

/-- A body whose keys are all `notes` carries neither a status nor a `verifiedBy`. -/
theorem keys_only_notes {body : UpdateBody}
    (h : body.keys.any (fun key => key != "notes") = false) :
    body.status = none ∧ body.verifiedBy = none := by
  unfold UpdateBody.keys at h
  constructor
  · cases hs : body.status with
    | none => rfl
    | some st =>
      rw [hs] at h
      simp at h
  · cases hv : body.verifiedBy with
    | none => rfl
    | some v =>
      rw [hv] at h
      simp at h

/-- The assignments of `updatePayment` when the body has neither status nor `verifiedBy`. -/
theorem applyUpdateBody_notes_only (env : Env) (p : Payment) {body : UpdateBody}
    (hs : body.status = none) (hv : body.verifiedBy = none) :
    applyUpdateBody env p body =
      { p with notes := if body.notes.getD "" = "" then p.notes else body.notes } := by
  unfold applyUpdateBody
  rw [hs, hv]
  cases body.notes with
  | none => simp
  | some n =>
    by_cases hn : n = ""
    · simp [hn]
    · simp [hn]

/-- C20: for a completed payment of the actor's organization, `updatePayment` answers 400 and
changes nothing when the body has a key other than `notes`; when all its keys are `notes`
the payment saved differs from the old one in `notes` at most, the new notes being the
non-empty notes of the body (notes above the schema's 500 characters are refused with
nothing changed). -/
theorem updatePayment_completed (env : Env) (db : Db) (user : User) (id : ObjectId)
    (body : UpdateBody) (p : Payment) (hp : Payment.findById db id = some p)
    (hst : p.status = .completed) (horg : p.organizationId = user.organizationId) :
    (body.keys.any (fun key => key != "notes") = true →
      updatePayment env db user id body =
        (db, badRequestResponse "Cannot update completed payment") ∧
      (updatePayment env db user id body).2.statusCode = 400) ∧
    (body.keys.any (fun key => key != "notes") = false →
      (body.notes.getD "").length ≤ 500 →
      updatePayment env db user id body =
        (Payment.save db
            { p with notes := if body.notes.getD "" = "" then p.notes else body.notes },
          successResponse "Payment updated successfully"
            (some
              { p with notes := if body.notes.getD "" = "" then p.notes else body.notes })) ∧
      Payment.findById (updatePayment env db user id body).1 id =
        some { p with notes := if body.notes.getD "" = "" then p.notes else body.notes }) ∧
    (body.keys.any (fun key => key != "notes") = false →
      500 < (body.notes.getD "").length →
      (updatePayment env db user id body).1 = db) := by
  refine ⟨?_, ?_, ?_⟩
  · intro hkeys
    rw [updatePayment_found env user body hp, if_neg (not_not.mpr horg),
      if_pos ⟨hst, hkeys⟩]
    exact ⟨rfl, rfl⟩
  · intro hkeys hlen
    obtain ⟨hs, hv⟩ := keys_only_notes hkeys
    have hnk : ¬ (p.status = .completed ∧
        body.keys.any (fun key => key != "notes") = true) := by
      rw [hkeys]
      simp
    have e : updatePayment env db user id body =
        (Payment.save db
            { p with notes := if body.notes.getD "" = "" then p.notes else body.notes },
          successResponse "Payment updated successfully"
            (some
              { p with
                notes := if body.notes.getD "" = "" then p.notes else body.notes })) := by
      rw [updatePayment_found env user body hp, if_neg (not_not.mpr horg), if_neg hnk,
        if_neg (not_lt.mpr hlen), applyUpdateBody_notes_only env p hs hv]
    refine ⟨e, ?_⟩
    rw [e]
    exact findPayment_save_self hp rfl
  · intro hkeys hlen
    have hnk : ¬ (p.status = .completed ∧
        body.keys.any (fun key => key != "notes") = true) := by
      rw [hkeys]
      simp
    rw [updatePayment_found env user body hp, if_neg (not_not.mpr horg), if_neg hnk,
      if_pos hlen]

/-- C20 on the completed fixture: a body with a status is answered 400 and changes nothing;
a body with only notes changes the notes and nothing else. -/
theorem updatePayment_completed_witness :
    updatePayment fixtureEnv fixturePaidDb fixtureAdmin 1
        { status := some .pending, notes := some "paid at the desk", verifiedBy := none
          otherKeys := [] } =
      (fixturePaidDb, badRequestResponse "Cannot update completed payment") ∧
    Payment.findById
        (updatePayment fixtureEnv fixturePaidDb fixtureAdmin 1
          { status := none, notes := some "paid at the desk", verifiedBy := none
            otherKeys := [] }).1 1 =
      some { fixturePayment with notes := some "paid at the desk" } :=
  ⟨((updatePayment_completed fixtureEnv fixturePaidDb fixtureAdmin 1
      { status := some .pending, notes := some "paid at the desk", verifiedBy := none
        otherKeys := [] } fixturePayment rfl rfl rfl).1 (by decide)).1,
    ((updatePayment_completed fixtureEnv fixturePaidDb fixtureAdmin 1
      { status := none, notes := some "paid at the desk", verifiedBy := none
        otherKeys := [] } fixturePayment rfl rfl rfl).2.1 (by decide) (by decide)).2⟩

/-! ## Status transitions, deletion and tenant checks (C21, C22, C28, C29) -/

/-- After one found payment has been saved in a new state, every payment found before is
still found, unchanged unless it is that payment. -/
theorem payments_after_save {db db' : Db} {id : ObjectId} {p p' : Payment}
    (hp : Payment.findById db id = some p)
    (hpay : db'.payments = (Payment.save db p').payments) (hid : p'.id = p.id) :
    ∀ j q0, Payment.findById db j = some q0 →
      ∃ q, Payment.findById db' j = some q ∧ (q = q0 ∨ (q0 = p ∧ q = p')) := by
  intro j q0 hq0
  rw [findPayment_congr hpay, findPayment_save]
  by_cases hj : j = p'.id
  · have hjid : j = id := by rw [hj, hid, findPayment_id hp]
    rw [if_pos hj, hq0]
    rw [hjid, hp] at hq0
    simp only [Option.some.injEq] at hq0
    exact ⟨p', rfl, Or.inr ⟨hq0.symm, rfl⟩⟩
  · rw [if_neg hj]
    exact ⟨q0, hq0, Or.inl rfl⟩

/-- The payments that `processRefund` leaves once it is past its status check, whether or not
the student exists. -/
theorem processRefund_payments {db : Db} {paymentId : ObjectId} {p : Payment}
    (env : Env) (refundData : RefundData) (refundedBy : ObjectId)
    (hp : Payment.findById db paymentId = some p) (hst : p.status ≠ .refunded) :
    (processRefund env db paymentId refundData refundedBy).1.payments =
      (Payment.save db
        { p with
          status := .refunded
          refund := some
            { amount := refundData.amount
              reason := refundData.reason
              refundedBy := refundedBy
              refundDate := env.now.time } }).payments := by
  cases hs : Student.findById db p.studentId with
  | none =>
    unfold processRefund
    rw [hp]
    simp only [if_neg hst, findStudent_save_payment, hs]
  | some s =>
    rw [processRefund_eq env refundData refundedBy hp hst hs]
    rfl

/-- The store that `refundPayment` leaves is the store it was given or the one that
`processRefund` leaves. -/
theorem refundPayment_store {db : Db} {id : ObjectId} {p : Payment} (env : Env) (user : User)
    (body : RefundData) (hp : Payment.findById db id = some p) :
    (refundPayment env db user id body).1 = db ∨
    (p.status = .completed ∧
      (refundPayment env db user id body).1 = (processRefund env db id body user.id).1) := by
  rw [refundPayment_found env user body hp]
  by_cases hst : p.status = .completed
  · by_cases hgt : body.amount > p.amount
    · rw [if_neg (not_not.mpr hst), if_pos hgt]
      exact Or.inl rfl
    · rw [if_neg (not_not.mpr hst), if_neg hgt]
      right
      refine ⟨hst, ?_⟩
      rcases processRefund env db id body user.id with ⟨d, e | r⟩ <;> rfl
  · rw [if_pos hst]
    exact Or.inl rfl

/-- C21 as stated fails: `updatePayment` takes a pending payment to failed, and
`processRefund` takes a pending payment to refunded. -/
theorem status_transitions_counterexample :
    (Payment.findById fixturePendingDb 1).map (fun p => p.status) = some .pending ∧
    (Payment.findById
      (updatePayment fixtureEnv fixturePendingDb fixtureAdmin 1
        { status := some .failed, notes := none, verifiedBy := none, otherKeys := [] }).1
      1).map (fun p => p.status) = some .failed ∧
    (Payment.findById
      (processRefund fixtureEnv fixturePendingDb 1 { amount := 500, reason := "r" } 99).1
      1).map (fun p => p.status) = some .refunded := by
  refine ⟨?_, ?_, ?_⟩ <;> decide

/-- C21, amended: every payment in the store is still there after each operation, with its
status unchanged or changed as follows: by `refundPayment` from completed to refunded, by
`verifyPayment` from pending to completed, by `updatePayment` from a status other than
completed to the status given in the body, by `processRefund` from a status other than
refunded to refunded. -/
theorem status_transitions (env : Env) (db : Db) (user : User) (id : ObjectId) :
    (∀ body j q0, Payment.findById db j = some q0 →
      ∃ q, Payment.findById (refundPayment env db user id body).1 j = some q ∧
        (q.status = q0.status ∨ (q0.status = .completed ∧ q.status = .refunded))) ∧
    (∀ j q0, Payment.findById db j = some q0 →
      ∃ q, Payment.findById (verifyPayment env db user id).1 j = some q ∧
        (q.status = q0.status ∨ (q0.status = .pending ∧ q.status = .completed))) ∧
    (∀ body j q0, Payment.findById db j = some q0 →
      ∃ q, Payment.findById (updatePayment env db user id body).1 j = some q ∧
        (q.status = q0.status ∨ (q0.status ≠ .completed ∧ body.status = some q.status))) ∧
    (∀ refundData refundedBy j q0, Payment.findById db j = some q0 →
      ∃ q, Payment.findById (processRefund env db id refundData refundedBy).1 j = some q ∧
        (q.status = q0.status ∨ (q0.status ≠ .refunded ∧ q.status = .refunded))) := by
  cases hp : Payment.findById db id with
  | none =>
    refine ⟨?_, ?_, ?_, ?_⟩
    · intro body j q0 hq0
      refine ⟨q0, ?_, Or.inl rfl⟩
      unfold refundPayment
      rw [hp]
      exact hq0
    · intro j q0 hq0
      refine ⟨q0, ?_, Or.inl rfl⟩
      unfold verifyPayment
      rw [hp]
      exact hq0
    · intro body j q0 hq0
      refine ⟨q0, ?_, Or.inl rfl⟩
      unfold updatePayment
      rw [hp]
      exact hq0
    · intro refundData refundedBy j q0 hq0
      refine ⟨q0, ?_, Or.inl rfl⟩
      unfold processRefund
      rw [hp]
      exact hq0
  | some p =>
    have hrefund : ∀ refundData refundedBy j q0, Payment.findById db j = some q0 →
        ∃ q, Payment.findById (processRefund env db id refundData refundedBy).1 j = some q ∧
          (q.status = q0.status ∨ (q0.status ≠ .refunded ∧ q.status = .refunded)) := by
      intro refundData refundedBy j q0 hq0
      by_cases hst : p.status = .refunded
      · rw [processRefund_refunded env refundData refundedBy hp hst]
        exact ⟨q0, hq0, Or.inl rfl⟩
      · obtain ⟨q, hq, hor⟩ := payments_after_save hp
          (processRefund_payments env refundData refundedBy hp hst) rfl j q0 hq0
        refine ⟨q, hq, ?_⟩
        rcases hor with h | ⟨h1, h2⟩
        · exact Or.inl (by rw [h])
        · exact Or.inr ⟨by rw [h1]; exact hst, by rw [h2]⟩
    refine ⟨?_, ?_, ?_, hrefund⟩
    · intro body j q0 hq0
      rcases refundPayment_store env user body hp with h | ⟨hst, h⟩
      · rw [h]
        exact ⟨q0, hq0, Or.inl rfl⟩
      · rw [h]
        obtain ⟨q, hq, hor⟩ := hrefund body user.id j q0 hq0
        refine ⟨q, hq, ?_⟩
        rcases hor with h1 | ⟨-, h2⟩
        · exact Or.inl h1
        · by_cases hq0s : q0.status = .completed
          · exact Or.inr ⟨hq0s, h2⟩
          · left
            have hne : ¬ p.status = .refunded := by rw [hst]; decide
            obtain ⟨q', hq', hor'⟩ := payments_after_save hp
              (processRefund_payments env body user.id hp hne) rfl j q0 hq0
            rw [hq] at hq'
            simp only [Option.some.injEq] at hq'
            rcases hor' with h3 | ⟨h3, -⟩
            · rw [hq', h3]
            · rw [h3] at hq0s
              exact absurd hst hq0s
    · intro j q0 hq0
      rw [verifyPayment_found env user hp]
      by_cases hst : p.status = .pending
      · rw [if_neg (not_not.mpr hst)]
        have hpay := updateStudentFinancials_payments
          (Payment.save db
            { p with
              status := .completed
              verifiedBy := some user.id
              verifiedAt := some env.now.time }) p.studentId p.amount
        have hres : ∀ x : Db × Except JsError Student,
            (match x with
              | (db', .error e) => (db', errorHandler e)
              | (db', .ok _) =>
                (db', successResponse "Payment verified successfully"
                  (some
                    { p with
                      status := .completed
                      verifiedBy := some user.id
                      verifiedAt := some env.now.time }))).1 = x.1 := by
          rintro ⟨d, e | r⟩ <;> rfl
        rw [hres]
        obtain ⟨q, hq, hor⟩ := payments_after_save hp hpay rfl j q0 hq0
        refine ⟨q, hq, ?_⟩
        rcases hor with h | ⟨h1, h2⟩
        · exact Or.inl (by rw [h])
        · exact Or.inr ⟨by rw [h1]; exact hst, by rw [h2]⟩
      · rw [if_pos hst]
        exact ⟨q0, hq0, Or.inl rfl⟩
    · intro body j q0 hq0
      rw [updatePayment_found env user body hp]
      by_cases horg : p.organizationId = user.organizationId
      · rw [if_neg (not_not.mpr horg)]
        by_cases hgu : p.status = .completed ∧
            body.keys.any (fun key => key != "notes") = true
        · rw [if_pos hgu]
          exact ⟨q0, hq0, Or.inl rfl⟩
        · rw [if_neg hgu]
          by_cases hlen : 500 < (body.notes.getD "").length
          · rw [if_pos hlen]
            exact ⟨q0, hq0, Or.inl rfl⟩
          · rw [if_neg hlen]
            obtain ⟨h1, -, -, h4⟩ := applyUpdateBody_frame env p body
            obtain ⟨q, hq, hor⟩ := payments_after_save hp rfl h1 j q0 hq0
            refine ⟨q, hq, ?_⟩
            rcases hor with h | ⟨h5, h6⟩
            · exact Or.inl (by rw [h])
            · rw [h5, h6]
              rcases h4 with h4 | h4
              · exact Or.inl h4
              · by_cases hc : p.status = .completed
                · left
                  have hkeys : body.keys.any (fun key => key != "notes") = false := by
                    by_contra hk
                    exact hgu ⟨hc, by simpa using hk⟩
                  have hs := (keys_only_notes hkeys).1
                  rw [hs] at h4
                  simp at h4
                · exact Or.inr ⟨hc, h4⟩
      · rw [if_pos horg]
        exact ⟨q0, hq0, Or.inl rfl⟩

/-- C21, amended, on the fixtures: a refund takes the completed payment to refunded and a
verification takes the pending payment to completed. -/
theorem status_transitions_witness :
    (∃ q, Payment.findById
        (refundPayment fixtureEnv fixturePaidDb fixtureAdmin 1
          { amount := 500, reason := "course cancelled" }).1 1 = some q ∧
      (q.status = PaymentStatus.completed ∨
        (PaymentStatus.completed = PaymentStatus.completed ∧ q.status = .refunded))) ∧
    (∃ q, Payment.findById (verifyPayment fixtureEnv fixturePendingDb fixtureAdmin 1).1 1 =
        some q ∧
      (q.status = PaymentStatus.pending ∨
        (PaymentStatus.pending = PaymentStatus.pending ∧ q.status = .completed))) :=
  ⟨(status_transitions fixtureEnv fixturePaidDb fixtureAdmin 1).1
      { amount := 500, reason := "course cancelled" } 1 fixturePayment rfl,
    (status_transitions fixtureEnv fixturePendingDb fixtureAdmin 1).2.1 1
      { fixturePayment with status := .pending } rfl⟩

/-- The handler `deletePayment` on a payment that exists. -/
theorem deletePayment_found {db : Db} {id : ObjectId} {p : Payment} (user : User)
    (hp : Payment.findById db id = some p) :
    deletePayment db user id =
      if p.organizationId ≠ user.organizationId then
        (db, notFoundResponse "Payment not found")
      else if p.status = .completed then
        (db, badRequestResponse "Cannot delete completed payment. Please use refund instead.")
      else
        ({ db with payments := db.payments.filter (fun q => q.id != p.id) },
          successResponse "Payment deleted successfully" none) := by
  unfold deletePayment
  rw [hp]

/-- No payment is found under an id whose documents have been removed. -/
theorem find_after_delete (l : List Payment) (id : ObjectId) :
    (l.filter (fun q => q.id != id)).find? (fun q => q.id == id) = none := by
  rw [List.find?_eq_none]
  intro q hq
  rw [List.mem_filter] at hq
  simpa using hq.2

/-- C22 as stated fails: a completed payment of another organization is answered 404, not
400. -/
theorem deletePayment_completed_counterexample :
    fixturePayment.status = .completed ∧
    deletePayment fixturePaidDb fixtureOtherAdmin 1 =
      (fixturePaidDb, notFoundResponse "Payment not found") ∧
    (notFoundResponse "Payment not found").statusCode = 404 := by
  refine ⟨rfl, ?_, rfl⟩
  decide

/-- C22, amended: for a completed payment `deletePayment` leaves the store as it is and
answers 400 when the payment is in the actor's organization and 404 when it is not; the
store changes only for a payment that is in the actor's organization and not completed, and
then the payment is gone and no other payment is. -/
theorem deletePayment_completed (db : Db) (user : User) (id : ObjectId) :
    (∀ p, Payment.findById db id = some p → p.status = .completed →
      (deletePayment db user id).1 = db ∧
      (p.organizationId = user.organizationId → (deletePayment db user id).2.statusCode = 400) ∧
      (p.organizationId ≠ user.organizationId →
        (deletePayment db user id).2.statusCode = 404)) ∧
    ((deletePayment db user id).1 ≠ db →
      ∃ p, Payment.findById db id = some p ∧ p.organizationId = user.organizationId ∧
        p.status ≠ .completed) ∧
    (∀ p, Payment.findById db id = some p → p.organizationId = user.organizationId →
      p.status ≠ .completed →
      Payment.findById (deletePayment db user id).1 id = none ∧
      (deletePayment db user id).1.students = db.students ∧
      (deletePayment db user id).1.payments = db.payments.filter (fun q => q.id != id) ∧
      (deletePayment db user id).2.statusCode = 200) := by
  refine ⟨?_, ?_, ?_⟩
  · intro p hp hst
    rw [deletePayment_found user hp]
    by_cases horg : p.organizationId = user.organizationId
    · rw [if_neg (not_not.mpr horg), if_pos hst]
      exact ⟨rfl, fun _ => rfl, fun h => absurd horg h⟩
    · rw [if_pos horg]
      exact ⟨rfl, fun h => absurd h horg, fun _ => rfl⟩
  · intro hne
    cases hp : Payment.findById db id with
    | none =>
      exfalso
      apply hne
      unfold deletePayment
      rw [hp]
    | some p =>
      refine ⟨p, rfl, ?_, ?_⟩
      · by_contra horg
        apply hne
        rw [deletePayment_found user hp, if_pos horg]
      · intro hst
        apply hne
        rw [deletePayment_found user hp]
        by_cases horg : p.organizationId = user.organizationId
        · rw [if_neg (not_not.mpr horg), if_pos hst]
        · rw [if_pos horg]
  · intro p hp horg hst
    rw [deletePayment_found user hp, if_neg (not_not.mpr horg), if_neg hst, findPayment_id hp]
    exact ⟨find_after_delete db.payments id, rfl, rfl, rfl⟩

/-- C22, amended, on the fixtures: the completed payment stays, with 400 for its own
administrator; the pending payment is deleted. -/
theorem deletePayment_completed_witness :
    ((deletePayment fixturePaidDb fixtureAdmin 1).1 = fixturePaidDb ∧
      (deletePayment fixturePaidDb fixtureAdmin 1).2.statusCode = 400) ∧
    Payment.findById (deletePayment fixturePendingDb fixtureAdmin 1).1 1 = none :=
  ⟨⟨((deletePayment_completed fixturePaidDb fixtureAdmin 1).1 fixturePayment rfl rfl).1,
      ((deletePayment_completed fixturePaidDb fixtureAdmin 1).1 fixturePayment rfl rfl).2.1
        rfl⟩,
    ((deletePayment_completed fixturePendingDb fixtureAdmin 1).2.2
      { fixturePayment with status := .pending } rfl rfl (by decide)).1⟩

/-- C28: for a payment of another organization than the acting user's, `updatePayment` and
`deletePayment` answer 404 and leave the store as it is, whatever the body and the payment's
status. -/
theorem foreign_payment_hidden (env : Env) (db : Db) (user : User) (id : ObjectId)
    (p : Payment) (hp : Payment.findById db id = some p)
    (horg : p.organizationId ≠ user.organizationId) :
    (∀ body, updatePayment env db user id body = (db, notFoundResponse "Payment not found")) ∧
    deletePayment db user id = (db, notFoundResponse "Payment not found") ∧
    (notFoundResponse "Payment not found").statusCode = 404 := by
  refine ⟨?_, ?_, rfl⟩
  · intro body
    rw [updatePayment_found env user body hp, if_pos horg]
  · rw [deletePayment_found user hp, if_pos horg]

/-- C28 on the fixtures: the administrator of organization 8 can neither update nor delete
the pending payment of organization 7. -/
theorem foreign_payment_hidden_witness :
    updatePayment fixtureEnv fixturePendingDb fixtureOtherAdmin 1
        { status := some .failed, notes := none, verifiedBy := none, otherKeys := [] } =
      (fixturePendingDb, notFoundResponse "Payment not found") ∧
    deletePayment fixturePendingDb fixtureOtherAdmin 1 =
      (fixturePendingDb, notFoundResponse "Payment not found") :=
  ⟨(foreign_payment_hidden fixtureEnv fixturePendingDb fixtureOtherAdmin 1
      { fixturePayment with status := .pending } rfl (by decide)).1
      { status := some .failed, notes := none, verifiedBy := none, otherKeys := [] },
    (foreign_payment_hidden fixtureEnv fixturePendingDb fixtureOtherAdmin 1
      { fixturePayment with status := .pending } rfl (by decide)).2.1⟩

/-- C29 at its failing input: the administrator of organization 8 refunds the completed
payment of organization 7 (200, payment refunded, 450 paid and 4550 owed) and verifies its
pending payment (200, payment completed, 1000 paid and 4000 owed), while `updatePayment` by
the same user is answered 404. -/
theorem foreign_refund_verify :
    fixturePayment.organizationId ≠ fixtureOtherAdmin.organizationId ∧
    (refundPayment fixtureEnv fixturePaidDb fixtureOtherAdmin 1
      { amount := 500, reason := "course cancelled" }).2.statusCode = 200 ∧
    (refundPayment fixtureEnv fixturePaidDb fixtureOtherAdmin 1
      { amount := 500, reason := "course cancelled" }).1 =
      { students := [{ fixtureStudent with totalPaid := 450, totalDebt := 4550 }]
        payments := [{ fixturePayment with
          status := .refunded
          refund := some
            { amount := 500, reason := "course cancelled", refundedBy := 77
              refundDate := 1700000000000 } }] } ∧
    (verifyPayment fixtureEnv fixturePendingDb fixtureOtherAdmin 1).2.statusCode = 200 ∧
    (verifyPayment fixtureEnv fixturePendingDb fixtureOtherAdmin 1).1 =
      { students := [{ fixtureStudent with totalPaid := 1000, totalDebt := 4000 }]
        payments := [{ fixturePayment with
          status := .completed
          verifiedBy := some 77
          verifiedAt := some 1700000000000 }] } ∧
    (updatePayment fixtureEnv fixturePaidDb fixtureOtherAdmin 1
      { status := none, notes := some "n", verifiedBy := none, otherKeys := [] }).2.statusCode
      = 404 := by
  refine ⟨?_, ?_, ?_, ?_, ?_, ?_⟩ <;> decide

/-! ## Receipts by mail, totals paid, late fees and the two aggregations
(C23, C24, C26, C27) -/

/-- The handler `createPayment` once `processPayment` has succeeded: 201 with the payment,
whatever the senders do. -/
theorem createPayment_created {env : Env} {db db' : Db} {user : User} {body : PaymentData}
    {payment : Payment} (notifier : Notifier)
    (h : processPayment env db { body with organizationId := user.organizationId } user.id =
      (db', .ok payment)) :
    (createPayment env notifier db user body).1 = db' ∧
    (createPayment env notifier db user body).2.1 =
      createdResponse "Payment created successfully" (some payment) := by
  obtain ⟨-, -, s, hs, -⟩ := processPayment_ok h
  have hs' : Student.findById db
      ({ body with organizationId := user.organizationId } : PaymentData).studentId =
      some s := hs
  unfold createPayment
  simp only [hs', h, and_self]

/-- C23: the store that `createPayment` leaves and the response it sends do not depend on
whether the receipt senders resolve or throw; whenever `processPayment` succeeds on the
request, the response is 201 with that payment and the store is the one `processPayment`
left. -/
theorem createPayment_notifier_independent (env : Env) (db : Db) (user : User)
    (body : PaymentData) :
    (∀ notifier1 notifier2 : Notifier,
      (createPayment env notifier1 db user body).1 =
        (createPayment env notifier2 db user body).1 ∧
      (createPayment env notifier1 db user body).2.1 =
        (createPayment env notifier2 db user body).2.1) ∧
    (∀ db' payment,
      processPayment env db { body with organizationId := user.organizationId } user.id =
        (db', .ok payment) →
      ∀ notifier : Notifier,
        (createPayment env notifier db user body).1 = db' ∧
        (createPayment env notifier db user body).2.1 =
          createdResponse "Payment created successfully" (some payment) ∧
        (createPayment env notifier db user body).2.1.statusCode = 201) := by
  constructor
  · intro notifier1 notifier2
    unfold createPayment
    simp only
    cases Student.findById db
      ({ body with organizationId := user.organizationId } : PaymentData).studentId with
    | none => exact ⟨rfl, rfl⟩
    | some s =>
      simp only
      rcases processPayment env db { body with organizationId := user.organizationId }
        user.id with ⟨d, e | r⟩
      · exact ⟨rfl, rfl⟩
      · exact ⟨rfl, rfl⟩
  · intro db' payment h notifier
    obtain ⟨h1, h2⟩ := createPayment_created notifier h
    refine ⟨h1, h2, ?_⟩
    rw [h2]
    rfl

/-- C23 on the fixtures: with senders that throw, the payment is created all the same, 201,
950 paid and 4050 owed, and the first error is what gets logged. -/
theorem createPayment_notifier_independent_witness :
    (createPayment fixtureEnv fixtureFailingNotifier fixtureDb fixtureAccountant
      fixtureRequest).2.1.statusCode = 201 ∧
    (createPayment fixtureEnv fixtureFailingNotifier fixtureDb fixtureAccountant
      fixtureRequest).1 =
      (createPayment fixtureEnv fixtureNotifier fixtureDb fixtureAccountant fixtureRequest).1 ∧
    Student.findById
      (createPayment fixtureEnv fixtureFailingNotifier fixtureDb fixtureAccountant
        fixtureRequest).1 123 =
      some { fixtureStudent with totalPaid := 950, totalDebt := 4050 } ∧
    (createPayment fixtureEnv fixtureFailingNotifier fixtureDb fixtureAccountant
      fixtureRequest).2.2 = [.error "SMTP connection refused"] :=
  ⟨((createPayment_notifier_independent fixtureEnv fixtureDb fixtureAccountant
      fixtureRequest).2 _ _ rfl fixtureFailingNotifier).2.2,
    ((createPayment_notifier_independent fixtureEnv fixtureDb fixtureAccountant
      fixtureRequest).1 fixtureFailingNotifier fixtureNotifier).1,
    by decide, rfl⟩

/-- Looking a student up reads the students only. -/
theorem findStudent_congr {db db' : Db} (h : db'.students = db.students) (id : ObjectId) :
    Student.findById db' id = Student.findById db id := by
  unfold Student.findById
  rw [h]

/-- A balance update by an amount that is not negative lowers no student's `totalPaid`. -/
theorem totalPaid_after_update (db : Db) (studentId : ObjectId) (a : Int) (ha : 0 ≤ a) :
    ∀ j s0, Student.findById db j = some s0 →
      ∃ s1, Student.findById (updateStudentFinancials db studentId a).1 j = some s1 ∧
        s0.totalPaid ≤ s1.totalPaid := by
  intro j s0 hs0
  cases hs : Student.findById db studentId with
  | none =>
    rw [updateStudentFinancials_none a hs]
    exact ⟨s0, hs0, le_refl _⟩
  | some s =>
    rw [updateStudentFinancials_eq a hs]
    simp only
    rw [findStudent_save]
    by_cases hj : j = s.id
    · have hjs : j = studentId := by rw [hj, findStudent_id hs]
      rw [if_pos hj, hs0]
      rw [hjs, hs] at hs0
      simp only [Option.some.injEq] at hs0
      refine ⟨_, rfl, ?_⟩
      rw [← hs0]
      show s.totalPaid ≤ s.totalPaid + a
      omega
    · rw [if_neg hj]
      exact ⟨s0, hs0, le_refl _⟩

/-- C24 as stated fails: a payment of 100 with a discount of 500 has a net amount of -400, and
`processPayment` lowers `totalPaid` from 0 to -400. -/
theorem totalPaid_monotone_counterexample :
    Student.findById fixtureDb 123 = some fixtureStudent ∧
    fixtureStudent.totalPaid = 0 ∧
    Student.findById
      (processPayment fixtureEnv fixtureDb
        { fixtureRequest with amount := 100, discount := some 500, lateFee := some 0 } 99).1
      123 = some { fixtureStudent with totalPaid := -400, totalDebt := 5400 } := by
  refine ⟨?_, ?_, ?_⟩ <;> decide

/-- C24, amended: `processPayment` lowers no student's `totalPaid` when the discount does not
exceed the amount plus the late fee (the net amount is not negative), and `verifyPayment`
lowers no student's `totalPaid` when the amount of the payment is not negative, as the
schema demands. -/
theorem totalPaid_monotone (env : Env) (db : Db) :
    (∀ (paymentData : PaymentData) (collectedBy : ObjectId),
      paymentData.discount.getD 0 ≤ paymentData.amount + paymentData.lateFee.getD 0 →
      ∀ j s0, Student.findById db j = some s0 →
        ∃ s1, Student.findById (processPayment env db paymentData collectedBy).1 j
            = some s1 ∧
          s0.totalPaid ≤ s1.totalPaid) ∧
    (∀ (user : User) (id : ObjectId),
      (∀ p, Payment.findById db id = some p → 0 ≤ p.amount) →
      ∀ j s0, Student.findById db j = some s0 →
        ∃ s1, Student.findById (verifyPayment env db user id).1 j = some s1 ∧
          s0.totalPaid ≤ s1.totalPaid) := by
  constructor
  · intro paymentData collectedBy hnet j s0 hs0
    rw [processPayment_eq]
    rcases hc : Payment.create db env.now
        { paymentData with
          receiptNumber := some (generateReceiptNumber env.now env.random)
          collectedBy := some collectedBy
          status := some .completed } with ⟨db1, e1 | created⟩
    · refine ⟨s0, ?_, le_refl _⟩
      rw [Payment.create_error hc]
      exact hs0
    · have hst : db1.students = db.students := by
        have h := Payment.create_students db env.now
          { paymentData with
            receiptNumber := some (generateReceiptNumber env.now env.random)
            collectedBy := some collectedBy
            status := some .completed }
        rw [hc] at h
        exact h
      have hs1 : Student.findById db1 j = some s0 := by
        rw [findStudent_congr hst]
        exact hs0
      obtain ⟨s1, h1, h2⟩ := totalPaid_after_update db1 paymentData.studentId
        (paymentData.amount - paymentData.discount.getD 0 + paymentData.lateFee.getD 0)
        (by omega) j s0 hs1
      refine ⟨s1, ?_, h2⟩
      simp only
      rcases hu : updateStudentFinancials db1 paymentData.studentId
        (paymentData.amount - paymentData.discount.getD 0 + paymentData.lateFee.getD 0)
        with ⟨db2, e2 | r2⟩
      · rw [hu] at h1
        exact h1
      · rw [hu] at h1
        exact h1
  · intro user id hamount j s0 hs0
    cases hp : Payment.findById db id with
    | none =>
      refine ⟨s0, ?_, le_refl _⟩
      unfold verifyPayment
      rw [hp]
      exact hs0
    | some p =>
      rw [verifyPayment_found env user hp]
      by_cases hst : p.status = .pending
      · rw [if_neg (not_not.mpr hst)]
        have hs1 : Student.findById
            (Payment.save db
              { p with
                status := .completed
                verifiedBy := some user.id
                verifiedAt := some env.now.time }) j = some s0 := hs0
        obtain ⟨s1, h1, h2⟩ := totalPaid_after_update _ p.studentId p.amount
          (hamount p hp) j s0 hs1
        refine ⟨s1, ?_, h2⟩
        rcases hu : updateStudentFinancials
          (Payment.save db
            { p with
              status := .completed
              verifiedBy := some user.id
              verifiedAt := some env.now.time }) p.studentId p.amount with ⟨db2, e2 | r2⟩
        · rw [hu] at h1
          exact h1
        · rw [hu] at h1
          exact h1
      · rw [if_pos hst]
        exact ⟨s0, hs0, le_refl _⟩

/-- C24, amended, on the fixtures: the payment of 1000 with discount 100 and late fee 50
takes `totalPaid` from 0 to a value that is not below 0. -/
theorem totalPaid_monotone_witness :
    ∃ s1, Student.findById (processPayment fixtureEnv fixtureDb fixtureRequest 99).1 123
        = some s1 ∧
      fixtureStudent.totalPaid ≤ s1.totalPaid :=
  (totalPaid_monotone fixtureEnv fixtureDb).1 fixtureRequest 99 (by decide) 123
    fixtureStudent rfl

/-- The function `calculateLateFee` when the student and the organization exist. -/
theorem calculateLateFee_found {db : Db} {organizations : List Organization}
    {studentId : ObjectId} {s : Student} {o : Organization} (daysLate baseFee : Int)
    (hs : Student.findById db studentId = some s)
    (ho : Organization.findById organizations s.organizationId = some o) :
    calculateLateFee db organizations studentId daysLate baseFee =
      if daysLate ≤ o.financialSettings.gracePeriodDays then
        .ok { amount := 0, daysLate := 0 }
      else
        .ok
          { amount :=
              (daysLate - o.financialSettings.gracePeriodDays)
                * o.financialSettings.lateFeePerDay
            daysLate := daysLate - o.financialSettings.gracePeriodDays } := by
  unfold calculateLateFee
  rw [hs]
  simp only [ho]

/-- C26: with the student and the organization found, `calculateLateFee` returns amount 0
and days 0 within the grace period, and otherwise the days beyond the grace period and that
many times the fee per day; with a fee per day that is not negative the amount is not
negative and does not decrease when the days late grow. -/
theorem calculateLateFee_spec (db : Db) (organizations : List Organization)
    (studentId : ObjectId) (baseFee : Int) (s : Student) (o : Organization)
    (hs : Student.findById db studentId = some s)
    (ho : Organization.findById organizations s.organizationId = some o) :
    (∀ daysLate, daysLate ≤ o.financialSettings.gracePeriodDays →
      calculateLateFee db organizations studentId daysLate baseFee =
        .ok { amount := 0, daysLate := 0 }) ∧
    (∀ daysLate, o.financialSettings.gracePeriodDays < daysLate →
      calculateLateFee db organizations studentId daysLate baseFee =
        .ok
          { amount :=
              (daysLate - o.financialSettings.gracePeriodDays)
                * o.financialSettings.lateFeePerDay
            daysLate := daysLate - o.financialSettings.gracePeriodDays }) ∧
    (0 ≤ o.financialSettings.lateFeePerDay →
      ∀ daysLate, ∃ fee,
        calculateLateFee db organizations studentId daysLate baseFee = .ok fee ∧
        0 ≤ fee.amount) ∧
    (0 ≤ o.financialSettings.lateFeePerDay →
      ∀ d1 d2 fee1 fee2, d1 ≤ d2 →
        calculateLateFee db organizations studentId d1 baseFee = .ok fee1 →
        calculateLateFee db organizations studentId d2 baseFee = .ok fee2 →
        fee1.amount ≤ fee2.amount) := by
  refine ⟨?_, ?_, ?_, ?_⟩
  · intro daysLate h
    rw [calculateLateFee_found daysLate baseFee hs ho, if_pos h]
  · intro daysLate h
    rw [calculateLateFee_found daysLate baseFee hs ho, if_neg (not_le.mpr h)]
  · intro hfee daysLate
    rw [calculateLateFee_found daysLate baseFee hs ho]
    by_cases h : daysLate ≤ o.financialSettings.gracePeriodDays
    · rw [if_pos h]
      exact ⟨_, rfl, le_refl _⟩
    · rw [if_neg h]
      refine ⟨_, rfl, ?_⟩
      exact Int.mul_nonneg (by omega) hfee
  · intro hfee d1 d2 fee1 fee2 hle h1 h2
    rw [calculateLateFee_found d1 baseFee hs ho] at h1
    rw [calculateLateFee_found d2 baseFee hs ho] at h2
    by_cases hd1 : d1 ≤ o.financialSettings.gracePeriodDays
    · rw [if_pos hd1] at h1
      by_cases hd2 : d2 ≤ o.financialSettings.gracePeriodDays
      · rw [if_pos hd2] at h2
        cases h1
        cases h2
        exact le_refl _
      · rw [if_neg hd2] at h2
        cases h1
        cases h2
        exact Int.mul_nonneg (by omega) hfee
    · have hd2 : ¬ d2 ≤ o.financialSettings.gracePeriodDays := by omega
      rw [if_neg hd1] at h1
      rw [if_neg hd2] at h2
      cases h1
      cases h2
      exact Int.mul_le_mul_of_nonneg_right (by omega) hfee

/-- C26 on the fixtures, three days of grace and 10 a day: 3 days late cost nothing, 10 days
late cost 70 for 7 days. -/
theorem calculateLateFee_spec_witness :
    calculateLateFee fixtureDb fixtureOrganizations 123 3 0 =
      .ok { amount := 0, daysLate := 0 } ∧
    calculateLateFee fixtureDb fixtureOrganizations 123 10 0 =
      .ok { amount := 70, daysLate := 7 } :=
  ⟨(calculateLateFee_spec fixtureDb fixtureOrganizations 123 0 fixtureStudent
      { id := 7, financialSettings := { lateFeePerDay := 10, gracePeriodDays := 3 } }
      rfl rfl).1 3 (by decide),
    (calculateLateFee_spec fixtureDb fixtureOrganizations 123 0 fixtureStudent
      { id := 7, financialSettings := { lateFeePerDay := 10, gracePeriodDays := 3 } }
      rfl rfl).2.1 10 (by decide)⟩

/-- One more document adds its amount to the summed amounts of the groups and one to their
summed counts. -/
theorem addToGroups_sums (groups : List MethodGroup) (p : Payment) :
    ((addToGroups groups p).map (fun g => g.amount)).sum =
      (groups.map (fun g => g.amount)).sum + p.amount ∧
    ((addToGroups groups p).map (fun g => g.count)).sum =
      (groups.map (fun g => g.count)).sum + 1 := by
  induction groups with
  | nil => simp [addToGroups]
  | cons g rest ih =>
    unfold addToGroups
    by_cases h : g.id = p.paymentMethod
    · rw [if_pos h]
      simp only [List.map_cons, List.sum_cons]
      constructor <;> omega
    · rw [if_neg h]
      simp only [List.map_cons, List.sum_cons, ih.1, ih.2]
      constructor <;> omega

/-- The groups by method add up to the totals over all documents. -/
theorem groupByMethod_sums (docs : List Payment) :
    ((groupByMethod docs).map (fun g => g.amount)).sum = (docs.map (fun p => p.amount)).sum ∧
    ((groupByMethod docs).map (fun g => g.count)).sum = docs.length := by
  induction docs using List.reverseRecOn with
  | nil => simp [groupByMethod]
  | append_singleton docs p ih =>
    rw [groupByMethod_append]
    obtain ⟨h1, h2⟩ := addToGroups_sums (groupByMethod docs) p
    rw [h1, h2, ih.1, ih.2]
    simp

/-- The `$match` stage sees the stored form of a payment as it sees the payment. -/
theorem holdsNumber_toNumber (q : MatchQuery) (p : Payment) :
    q.holdsNumber p.toNumber = q.holds p := rfl

/-- Selecting the stored forms is selecting the payments. -/
theorem filter_toNumber (q : MatchQuery) (l : List Payment) :
    (l.map Payment.toNumber).filter q.holdsNumber = (l.filter q.holds).map Payment.toNumber := by
  induction l with
  | nil => rfl
  | cons p l ih =>
    simp only [List.map_cons, List.filter_cons, holdsNumber_toNumber]
    by_cases h : q.holds p = true
    · rw [if_pos h, if_pos h, List.map_cons, ih]
    · rw [if_neg h, if_neg h, ih]

/-- One more document raises the absolute values of the group amounts by at most its own. -/
theorem addToGroups_natAbs (groups : List MethodGroup) (p : Payment) :
    ((addToGroups groups p).map (fun g => g.amount.natAbs)).sum ≤
      (groups.map (fun g => g.amount.natAbs)).sum + p.amount.natAbs := by
  induction groups with
  | nil => simp [addToGroups]
  | cons g rest ih =>
    unfold addToGroups
    by_cases h : g.id = p.paymentMethod
    · rw [if_pos h]
      simp only [List.map_cons, List.sum_cons]
      omega
    · rw [if_neg h]
      simp only [List.map_cons, List.sum_cons]
      omega

/-- The absolute values of the group amounts add up to at most those of the documents. -/
theorem groupByMethod_natAbs (docs : List Payment) :
    ((groupByMethod docs).map (fun g => g.amount.natAbs)).sum ≤
      (docs.map (fun p => p.amount.natAbs)).sum := by
  induction docs using List.reverseRecOn with
  | nil => simp [groupByMethod]
  | append_singleton docs p ih =>
    rw [groupByMethod_append]
    have h := addToGroups_natAbs (groupByMethod docs) p
    simp only [List.map_append, List.sum_append, List.map_cons, List.map_nil, List.sum_cons,
      List.sum_nil]
    omega

/-- One step of the grouping in doubles is the step in whole numbers, as long as the absolute
values stay within the safe integers. -/
theorem addToGroupsNumber_toNumber (groups : List MethodGroup) (p : Payment)
    (h : (groups.map (fun g => g.amount.natAbs)).sum + p.amount.natAbs ≤ MAX_SAFE_INTEGER) :
    addToGroupsNumber (groups.map MethodGroup.toNumber) p.toNumber =
      (addToGroups groups p).map MethodGroup.toNumber := by
  induction groups with
  | nil =>
    simp only [List.map_nil, List.sum_nil] at h
    have hsafe : isSafeInteger p.amount := by
      unfold isSafeInteger
      omega
    simp only [List.map_nil, addToGroupsNumber, addToGroups, List.map_cons, Payment.toNumber,
      MethodGroup.toNumber, add_ofInt 0 p.amount (by decide) hsafe, zero_add]
  | cons g rest ih =>
    simp only [List.map_cons, List.sum_cons] at h
    unfold addToGroupsNumber addToGroups
    by_cases hg : g.id = p.paymentMethod
    · have hsafe : Number.add (Number.ofInt g.amount) (Number.ofInt p.amount) =
          Number.ofInt (g.amount + p.amount) :=
        add_ofInt _ _ (by unfold isSafeInteger; omega) (by unfold isSafeInteger; omega)
      have hg' : (MethodGroup.toNumber g).id = (Payment.toNumber p).paymentMethod := hg
      simp only [List.map_cons]
      rw [if_pos hg, if_pos hg']
      simp only [List.map_cons, MethodGroup.toNumber, Payment.toNumber, hsafe]
    · have hg' : ¬ (MethodGroup.toNumber g).id = (Payment.toNumber p).paymentMethod := hg
      simp only [List.map_cons]
      rw [if_neg hg, if_neg hg', List.map_cons, ih (by omega)]

/-- The groups in doubles after one more document. -/
theorem groupByMethodNumber_append (docs : List NumberPayment) (p : NumberPayment) :
    groupByMethodNumber (docs ++ [p]) = addToGroupsNumber (groupByMethodNumber docs) p := by
  simp [groupByMethodNumber, List.foldl_append]

/-- The grouping in doubles of whole-number payments is the grouping in whole numbers, as
long as the absolute values of the amounts add up to a safe integer. -/
theorem groupByMethodNumber_toNumber (docs : List Payment)
    (h : (docs.map (fun p => p.amount.natAbs)).sum ≤ MAX_SAFE_INTEGER) :
    groupByMethodNumber (docs.map Payment.toNumber) =
      (groupByMethod docs).map MethodGroup.toNumber := by
  induction docs using List.reverseRecOn with
  | nil => rfl
  | append_singleton docs p ih =>
    simp only [List.map_append, List.sum_append, List.map_cons, List.map_nil, List.sum_cons,
      List.sum_nil] at h
    rw [List.map_append, List.map_cons, List.map_nil, groupByMethodNumber_append,
      groupByMethod_append, ih (by omega)]
    exact addToGroupsNumber_toNumber _ p (by
      have := groupByMethod_natAbs docs
      omega)

/-- One more document adds one to the summed counts of the groups in doubles. -/
theorem addToGroupsNumber_counts (groups : List NumberMethodGroup) (p : NumberPayment) :
    ((addToGroupsNumber groups p).map (fun g => g.count)).sum =
      (groups.map (fun g => g.count)).sum + 1 := by
  induction groups with
  | nil => simp [addToGroupsNumber]
  | cons g rest ih =>
    unfold addToGroupsNumber
    by_cases h : g.id = p.paymentMethod
    · rw [if_pos h]
      simp only [List.map_cons, List.sum_cons]
      omega
    · rw [if_neg h]
      simp only [List.map_cons, List.sum_cons, ih]
      omega

/-- The counts of the groups in doubles add up to the number of documents. -/
theorem groupByMethodNumber_counts (docs : List NumberPayment) :
    ((groupByMethodNumber docs).map (fun g => g.count)).sum = docs.length := by
  induction docs using List.reverseRecOn with
  | nil => simp [groupByMethodNumber]
  | append_singleton docs p ih =>
    rw [groupByMethodNumber_append, addToGroupsNumber_counts, ih]
    simp

/-- On whole-number amounts whose absolute values add up to a safe integer, the statistics
in doubles are the doubles of the statistics in whole numbers. -/
theorem getPaymentStatisticsNumber_toNumber (db : Db) (organizationId : ObjectId)
    (startDate endDate : Option Nat)
    (hsafe : ((db.payments.filter (statisticsQuery organizationId startDate endDate).holds).map
      (fun p => p.amount.natAbs)).sum ≤ MAX_SAFE_INTEGER) :
    (getPaymentStatisticsNumber (db.payments.map Payment.toNumber) organizationId startDate
        endDate).summary.totalAmount =
      Number.ofInt
        (getPaymentStatistics db organizationId startDate endDate).summary.totalAmount ∧
    (getPaymentStatisticsNumber (db.payments.map Payment.toNumber) organizationId startDate
        endDate).summary.totalPayments =
      (getPaymentStatistics db organizationId startDate endDate).summary.totalPayments ∧
    (getPaymentStatisticsNumber (db.payments.map Payment.toNumber) organizationId startDate
        endDate).byMethod =
      (getPaymentStatistics db organizationId startDate endDate).byMethod.map
        MethodGroup.toNumber := by
  unfold statisticsQuery at hsafe
  unfold getPaymentStatisticsNumber getPaymentStatistics
  simp only [filter_toNumber]
  generalize db.payments.filter
    (MatchQuery.holds
      { organizationId := organizationId
        status := .completed
        paymentDate :=
          if startDate.isSome || endDate.isSome then
            some { gte := startDate, lte := endDate }
          else none }) = docs at hsafe ⊢
  refine ⟨?_, ?_, groupByMethodNumber_toNumber docs hsafe⟩
  · cases docs with
    | nil => simp only [groupAllNumber, groupAll, List.map_nil, List.head?_nil, Option.getD_none]
    | cons a t =>
      have h := sum_ofInt ((a :: t).map (fun p => p.amount)) (by simpa [List.map_map] using hsafe)
      simp only [List.map_map] at h
      simpa [groupAllNumber, groupAll, List.map_map, Payment.toNumber] using h
  · cases docs with
    | nil => rfl
    | cons a t => simp [groupAllNumber, groupAll]

/-- The fraction fixture does not depend on how `$sum` rounds on its way: rounded once, the
exact sum of the three amounts is still 0.06 and that of the two cash amounts 0.05. -/
theorem fixtureFractionPayments_once :
    Number.round ((fixtureFractionPayments.map (fun p => p.amount.units)).sum) =
      fixtureSixCents ∧
    Number.round (fixtureCent.units + fixtureFourCents.units) = fixtureFiveCents := by
  decide!

/-- C27 as stated fails on fractions: for 0.01 in cash, 0.01 by card and 0.04 in cash the
summary has `totalAmount` 0.06, the groups are cash 0.05 and card 0.01, and their amounts add
up to 0.060000000000000005, in doubles and also as exact values not 0.06. -/
theorem getPaymentStatistics_agree_counterexample :
    (getPaymentStatisticsNumber fixtureFractionPayments 7 none none).summary =
      { totalAmount := fixtureSixCents, totalPayments := 3 } ∧
    (getPaymentStatisticsNumber fixtureFractionPayments 7 none none).byMethod =
      [{ id := .cash, count := 2, amount := fixtureFiveCents },
       { id := .card, count := 1, amount := fixtureCent }] ∧
    Number.sum
        ((getPaymentStatisticsNumber fixtureFractionPayments 7 none none).byMethod.map
          (fun g => g.amount)) =
      { units := 8646911284551353 * 2 ^ 1017 } ∧
    Number.sum
        ((getPaymentStatisticsNumber fixtureFractionPayments 7 none none).byMethod.map
          (fun g => g.amount)) ≠
      (getPaymentStatisticsNumber fixtureFractionPayments 7 none none).summary.totalAmount ∧
    ((getPaymentStatisticsNumber fixtureFractionPayments 7 none none).byMethod.map
        (fun g => g.amount.units)).sum ≠
      (getPaymentStatisticsNumber fixtureFractionPayments 7 none
        none).summary.totalAmount.units := by
  decide!

/-- C27, amended: when the payments that `getPaymentStatistics` selects have whole-number
amounts whose absolute values add up to a safe integer, the amounts of `byMethod`, added in
doubles, give `summary.totalAmount`, and that total is the double of the `totalAmount` in
whole numbers; the counts of `byMethod` add up to `summary.totalPayments` for every collection
of stored payments, whether or not a payment matches. -/
theorem getPaymentStatistics_agree (db : Db) (organizationId : ObjectId)
    (startDate endDate : Option Nat)
    (hsafe : ((db.payments.filter (statisticsQuery organizationId startDate endDate).holds).map
      (fun p => p.amount.natAbs)).sum ≤ MAX_SAFE_INTEGER) :
    Number.sum
        ((getPaymentStatisticsNumber (db.payments.map Payment.toNumber) organizationId startDate
          endDate).byMethod.map (fun g => g.amount)) =
      (getPaymentStatisticsNumber (db.payments.map Payment.toNumber) organizationId startDate
        endDate).summary.totalAmount ∧
    (getPaymentStatisticsNumber (db.payments.map Payment.toNumber) organizationId startDate
        endDate).summary.totalAmount =
      Number.ofInt
        (getPaymentStatistics db organizationId startDate endDate).summary.totalAmount ∧
    ∀ payments : List NumberPayment,
      ((getPaymentStatisticsNumber payments organizationId startDate endDate).byMethod.map
          (fun g => g.count)).sum =
        (getPaymentStatisticsNumber payments organizationId startDate
          endDate).summary.totalPayments := by
  obtain ⟨h1, -, h3⟩ :=
    getPaymentStatisticsNumber_toNumber db organizationId startDate endDate hsafe
  refine ⟨?_, h1, ?_⟩
  · rw [h1, h3]
    unfold statisticsQuery at hsafe
    unfold getPaymentStatistics
    simp only
    generalize db.payments.filter
      (MatchQuery.holds
        { organizationId := organizationId
          status := .completed
          paymentDate :=
            if startDate.isSome || endDate.isSome then
              some { gte := startDate, lte := endDate }
            else none }) = docs at hsafe ⊢
    have hgroups := groupByMethod_natAbs docs
    have h := sum_ofInt ((groupByMethod docs).map (fun g => g.amount))
      (by
        rw [List.map_map]
        exact le_trans hgroups hsafe)
    rw [(groupByMethod_sums docs).1] at h
    have hn : Number.sum
        (((groupByMethod docs).map MethodGroup.toNumber).map (fun g => g.amount)) =
        Number.ofInt ((docs.map (fun p => p.amount)).sum) := by
      rw [← h]
      simp only [List.map_map]
      rfl
    rw [hn]
    cases docs with
    | nil => simp only [groupAll, List.map_nil, List.sum_nil, List.head?_nil, Option.getD_none]
    | cons a t => simp only [groupAll, List.head?_cons, Option.getD_some]
  · intro payments
    unfold getPaymentStatisticsNumber
    simp only
    rw [groupByMethodNumber_counts]
    cases payments.filter
      (MatchQuery.holdsNumber
        { organizationId := organizationId
          status := .completed
          paymentDate :=
            if startDate.isSome || endDate.isSome then
              some { gte := startDate, lte := endDate }
            else none }) with
    | nil => rfl
    | cons a t => rfl

/-- C27, amended, on the statistics fixture: organization 7 has 1000 in cash and 500 by card
completed, safe integers, and the two groups add up to the total of 1500 in doubles; on the
fraction fixture the counts 2 and 1 add up to the 3 payments. -/
theorem getPaymentStatistics_agree_witness :
    ((fixtureStatsDb.payments.filter (statisticsQuery 7 none none).holds).map
        (fun p => p.amount.natAbs)).sum = 1500 ∧
    Number.sum
        ((getPaymentStatisticsNumber (fixtureStatsDb.payments.map Payment.toNumber) 7 none
          none).byMethod.map (fun g => g.amount)) =
      (getPaymentStatisticsNumber (fixtureStatsDb.payments.map Payment.toNumber) 7 none
        none).summary.totalAmount ∧
    (getPaymentStatisticsNumber (fixtureStatsDb.payments.map Payment.toNumber) 7 none
        none).summary.totalAmount =
      Number.ofInt (getPaymentStatistics fixtureStatsDb 7 none none).summary.totalAmount ∧
    ((getPaymentStatisticsNumber fixtureFractionPayments 7 none none).byMethod.map
        (fun g => g.count)).sum =
      (getPaymentStatisticsNumber fixtureFractionPayments 7 none none).summary.totalPayments :=
  ⟨by decide,
    (getPaymentStatistics_agree fixtureStatsDb 7 none none (by decide)).1,
    (getPaymentStatistics_agree fixtureStatsDb 7 none none (by decide)).2.1,
    (getPaymentStatistics_agree fixtureStatsDb 7 none none (by decide)).2.2
      fixtureFractionPayments⟩

/-! ## Conversion of leads and group capacity (C25, C30) -/

/-- Looking a lead up reads the leads only. -/
theorem findLead_congr {db db' : Crm} (h : db'.leads = db.leads) (id : ObjectId) :
    Lead.findById db' id = Lead.findById db id := by
  unfold Lead.findById
  rw [h]

/-- Looking a group up reads the groups only. -/
theorem findGroup_congr {db db' : Crm} (h : db'.groups = db.groups) (id : ObjectId) :
    Group.findById db' id = Group.findById db id := by
  unfold Group.findById
  rw [h]

theorem findLead_id {db : Crm} {i : ObjectId} {l : Lead}
    (h : Lead.findById db i = some l) : l.id = i := by
  have h' := List.find?_some h
  simpa using h'

theorem findGroup_id {db : Crm} {i : ObjectId} {g : Group}
    (h : Group.findById db i = some g) : g.id = i := by
  have h' := List.find?_some h
  simpa using h'

/-- `User.create` writes to the users only. -/
theorem userCreate_frame (userValidation : List UserAccount → UserAccount → Option JsError)
    (db : Crm) (doc : UserAccount) :
    (User.create userValidation db doc).1.leads = db.leads ∧
    (User.create userValidation db doc).1.groups = db.groups ∧
    (User.create userValidation db doc).1.ledger = db.ledger := by
  unfold User.create
  cases userValidation db.users doc <;> exact ⟨rfl, rfl, rfl⟩

/-- `Student.create` writes to the students only. -/
theorem studentCreate_frame (db : Crm) (userId : ObjectId) (studentId : String)
    (organizationId : ObjectId) (body : ConvertBody) :
    (Student.create db userId studentId organizationId body).1.leads = db.leads ∧
    (Student.create db userId studentId organizationId body).1.groups = db.groups ∧
    (Student.create db userId studentId organizationId body).1.users = db.users := by
  unfold Student.create
  split
  · exact ⟨rfl, rfl, rfl⟩
  · exact ⟨rfl, rfl, rfl⟩
  · split
    · exact ⟨rfl, rfl, rfl⟩
    · split
      · exact ⟨rfl, rfl, rfl⟩
      · split <;> exact ⟨rfl, rfl, rfl⟩

/-- A failed `User.create` has written nothing. -/
theorem userCreate_error {userValidation : List UserAccount → UserAccount → Option JsError}
    {db db1 : Crm} {doc : UserAccount} {e : JsError}
    (h : User.create userValidation db doc = (db1, .error e)) : db1 = db := by
  unfold User.create at h
  cases hv : userValidation db.users doc with
  | none =>
    rw [hv] at h
    simp at h
  | some e' =>
    rw [hv] at h
    simp only [Prod.mk.injEq] at h
    exact h.1.symm

/-- The response to a thrown error is never 201 or 200. -/
theorem errorHandler_code (e : JsError) :
    (errorHandler e).statusCode ≠ 201 ∧ (errorHandler e).statusCode ≠ 200 := by
  cases e <;> simp [errorHandler, errorResponse]

/-- The two outcomes of `convertToStudent`: either the leads and the groups are as they
were and the response is not 201, or the lead was found unconverted, the group found with
a free place, the response is 201, the group has one more active member and the lead is
marked enrolled. -/
theorem convertToStudent_result (env : Env) (tempPassword : String)
    (userValidation : List UserAccount → UserAccount → Option JsError) (db : Crm)
    (id : ObjectId) (body : ConvertBody) :
    ((convertToStudent env tempPassword userValidation db id body).1.groups = db.groups ∧
      (convertToStudent env tempPassword userValidation db id body).1.leads = db.leads ∧
      (convertToStudent env tempPassword userValidation db id body).2.statusCode ≠ 201) ∨
    (∃ lead group studentId,
      Lead.findById db id = some lead ∧ lead.enrollmentStatus.isEnrolled = false ∧
      Group.findById db body.groupId = some group ∧ group.isFull = false ∧
      (convertToStudent env tempPassword userValidation db id body).1.groups =
        db.groups.map (fun g =>
          if g.id == group.id then
            { group with
              currentStudents := group.currentStudents ++
                [{ studentId := studentId
                   enrollmentDate := env.now.time
                   status := "active" }] }
          else g) ∧
      (convertToStudent env tempPassword userValidation db id body).1.leads =
        db.leads.map (fun l =>
          if l.id == lead.id then
            { lead with
              enrollmentStatus :=
                { isEnrolled := true
                  enrolledDate := some env.now.time
                  enrolledGroupId := some body.groupId
                  studentId := some studentId }
              status := "enrolled" }
          else l) ∧
      (convertToStudent env tempPassword userValidation db id body).2.statusCode = 201) := by
  unfold convertToStudent
  cases hl : Lead.findById db id with
  | none => exact Or.inl ⟨rfl, rfl, (show (404 : Nat) ≠ 201 by decide)⟩
  | some lead =>
    simp only
    by_cases hen : lead.enrollmentStatus.isEnrolled = true
    · rw [if_pos hen]
      exact Or.inl ⟨rfl, rfl, (show (400 : Nat) ≠ 201 by decide)⟩
    · rw [if_neg hen]
      cases hg : Group.findById db body.groupId with
      | none => exact Or.inl ⟨rfl, rfl, (show (404 : Nat) ≠ 201 by decide)⟩
      | some group =>
        simp only
        by_cases hfull : group.isFull = true
        · rw [if_pos hfull]
          exact Or.inl ⟨rfl, rfl, (show (400 : Nat) ≠ 201 by decide)⟩
        · rw [if_neg hfull]
          have hu := userCreate_frame userValidation db
            { id := 0
              firstName := lead.firstName
              lastName := lead.lastName
              email :=
                if lead.email.getD "" = "" then lead.phone ++ "@educrm.temp"
                else lead.email.getD ""
              password := tempPassword
              phone := lead.phone
              role := "student"
              organizationId := lead.organizationId }
          rcases hcu : User.create userValidation db
            { id := 0
              firstName := lead.firstName
              lastName := lead.lastName
              email :=
                if lead.email.getD "" = "" then lead.phone ++ "@educrm.temp"
                else lead.email.getD ""
              password := tempPassword
              phone := lead.phone
              role := "student"
              organizationId := lead.organizationId } with ⟨db1, e1 | user⟩
          · rw [hcu] at hu
            exact Or.inl ⟨hu.2.1, hu.1, (errorHandler_code e1).1⟩
          · rw [hcu] at hu
            simp only
            have hs := studentCreate_frame db1 user.id
              (generateStudentId env.now env.random) lead.organizationId body
            rcases hcs : Student.create db1 user.id (generateStudentId env.now env.random)
              lead.organizationId body with ⟨db2, e2 | student⟩
            · rw [hcs] at hs
              exact Or.inl ⟨hs.2.1.trans hu.2.1, hs.1.trans hu.1, (errorHandler_code e2).1⟩
            · rw [hcs] at hs
              right
              refine ⟨lead, group, student.id, rfl, by simpa using hen, rfl,
                by simpa using hfull, ?_, ?_, rfl⟩
              · show (db2.groups.map _) = _
                rw [hs.2.1, hu.2.1]
              · show (db2.leads.map _) = _
                rw [hs.1, hu.1]

/-- The handler `convertToStudent` on a lead that is already enrolled. -/
theorem convertToStudent_enrolled {db : Crm} {id : ObjectId} {lead : Lead} (env : Env)
    (tempPassword : String)
    (userValidation : List UserAccount → UserAccount → Option JsError) (body : ConvertBody)
    (hl : Lead.findById db id = some lead) (hen : lead.enrollmentStatus.isEnrolled = true) :
    convertToStudent env tempPassword userValidation db id body =
      (db, badRequestResponse "Lead already converted to student") := by
  unfold convertToStudent
  rw [hl]
  simp only [hen, if_true]

/-- C25: for a lead that is already enrolled `convertToStudent` answers 400 and leaves the
whole store, users, students and groups included, as it is; and after every conversion
answered 201 the lead is found with `isEnrolled` true and the status `enrolled`, so that
every further conversion of it is answered 400 with nothing changed. -/
theorem convertToStudent_once (env : Env) (tempPassword : String)
    (userValidation : List UserAccount → UserAccount → Option JsError) (db : Crm)
    (id : ObjectId) (body : ConvertBody) :
    (∀ lead, Lead.findById db id = some lead → lead.enrollmentStatus.isEnrolled = true →
      convertToStudent env tempPassword userValidation db id body =
        (db, badRequestResponse "Lead already converted to student") ∧
      (badRequestResponse "Lead already converted to student").statusCode = 400) ∧
    ((convertToStudent env tempPassword userValidation db id body).2.statusCode = 201 →
      (∃ lead', Lead.findById
          (convertToStudent env tempPassword userValidation db id body).1 id = some lead' ∧
        lead'.enrollmentStatus.isEnrolled = true ∧ lead'.status = "enrolled") ∧
      ∀ (env2 : Env) (tempPassword2 : String)
        (userValidation2 : List UserAccount → UserAccount → Option JsError)
        (body2 : ConvertBody),
        convertToStudent env2 tempPassword2 userValidation2
            (convertToStudent env tempPassword userValidation db id body).1 id body2 =
          ((convertToStudent env tempPassword userValidation db id body).1,
            badRequestResponse "Lead already converted to student")) := by
  constructor
  · intro lead hl hen
    exact ⟨convertToStudent_enrolled env tempPassword userValidation body hl hen, rfl⟩
  · intro hcode
    rcases convertToStudent_result env tempPassword userValidation db id body with
      ⟨-, -, hne⟩ | ⟨lead, group, studentId, hl, -, -, -, -, hleads, -⟩
    · exact absurd hcode hne
    · have hfound : Lead.findById
          (convertToStudent env tempPassword userValidation db id body).1 id =
          some
            { lead with
              enrollmentStatus :=
                { isEnrolled := true
                  enrolledDate := some env.now.time
                  enrolledGroupId := some body.groupId
                  studentId := some studentId }
              status := "enrolled" } := by
        unfold Lead.findById
        rw [hleads]
        have h := find?_replace (fun l : Lead => l.id) db.leads
          { lead with
            enrollmentStatus :=
              { isEnrolled := true
                enrolledDate := some env.now.time
                enrolledGroupId := some body.groupId
                studentId := some studentId }
            status := "enrolled" } id
        simp only at h
        rw [h, if_pos (findLead_id hl).symm]
        unfold Lead.findById at hl
        rw [hl]
        rfl
      refine ⟨⟨_, hfound, rfl, rfl⟩, ?_⟩
      intro env2 tempPassword2 userValidation2 body2
      exact convertToStudent_enrolled env2 tempPassword2 userValidation2 body2 hfound rfl

/-- C25 on the fixtures: the first conversion of the lead is answered 201 and leaves it
enrolled; the second is answered 400 and changes nothing. -/
theorem convertToStudent_once_witness :
    (convertToStudent fixtureEnv "Temp1234" fixtureUserValidation fixtureCrm 1
      fixtureConvertBody).2.statusCode = 201 ∧
    (∃ lead', Lead.findById
        (convertToStudent fixtureEnv "Temp1234" fixtureUserValidation fixtureCrm 1
          fixtureConvertBody).1 1 = some lead' ∧
      lead'.enrollmentStatus.isEnrolled = true ∧ lead'.status = "enrolled") ∧
    convertToStudent fixtureEnvLater "Temp5678" fixtureUserValidation
        (convertToStudent fixtureEnv "Temp1234" fixtureUserValidation fixtureCrm 1
          fixtureConvertBody).1 1 fixtureConvertBody =
      ((convertToStudent fixtureEnv "Temp1234" fixtureUserValidation fixtureCrm 1
          fixtureConvertBody).1,
        badRequestResponse "Lead already converted to student") :=
  ⟨by decide,
    ((convertToStudent_once fixtureEnv "Temp1234" fixtureUserValidation fixtureCrm 1
      fixtureConvertBody).2 (by decide)).1,
    ((convertToStudent_once fixtureEnv "Temp1234" fixtureUserValidation fixtureCrm 1
      fixtureConvertBody).2 (by decide)).2 fixtureEnvLater "Temp5678" fixtureUserValidation
      fixtureConvertBody⟩

/-- What `isFull` says in numbers. -/
theorem isFull_iff (g : Group) :
    g.isFull = true ↔
      g.maxStudents -
        ((g.currentStudents.filter (fun s => s.status == "active")).length : Int) ≤ 0 := by
  unfold Group.isFull Group.getAvailableSlots
  exact decide_eq_true_iff

/-- When a group with a free place gets one more active member, every group that was within
its capacity still is. -/
theorem capacity_after_join {db db' : Crm} {groupId : ObjectId} {group : Group}
    (member : GroupMember) (hm : member.status = "active")
    (hg : Group.findById db groupId = some group) (hfull : group.isFull = false)
    (hgroups : db'.groups =
      db.groups.map (fun g =>
        if g.id == group.id then
          { group with currentStudents := group.currentStudents ++ [member] }
        else g)) :
    ∀ j g0, Group.findById db j = some g0 →
      ((g0.currentStudents.filter (fun s => s.status == "active")).length : Int)
        ≤ g0.maxStudents →
      ∃ g1, Group.findById db' j = some g1 ∧ g1.maxStudents = g0.maxStudents ∧
        ((g1.currentStudents.filter (fun s => s.status == "active")).length : Int)
          ≤ g1.maxStudents := by
  intro j g0 hg0 hcap
  have h := find?_replace (fun g : Group => g.id) db.groups
    { group with currentStudents := group.currentStudents ++ [member] } j
  simp only at h
  unfold Group.findById
  rw [hgroups, h]
  by_cases hj : j = group.id
  · have hjg : j = groupId := by rw [hj, findGroup_id hg]
    rw [if_pos hj]
    unfold Group.findById at hg0 hg
    rw [hg0]
    rw [hjg, hg] at hg0
    simp only [Option.some.injEq] at hg0
    refine ⟨_, rfl, ?_, ?_⟩
    · rw [← hg0]
    · have hnot : ¬ (group.maxStudents -
          ((group.currentStudents.filter (fun s => s.status == "active")).length : Int)
            ≤ 0) := by
        rw [← isFull_iff, hfull]
        simp
      simp only [List.filter_append, List.length_append, List.filter_cons, hm, beq_self_eq_true,
        if_true, List.filter_nil, List.length_cons, List.length_nil]
      push_cast
      omega
  · rw [if_neg hj]
    unfold Group.findById at hg0
    exact ⟨g0, hg0, rfl, hcap⟩

/-- The same when the groups have not changed. -/
theorem capacity_unchanged {db db' : Crm} (hgroups : db'.groups = db.groups) :
    ∀ j g0, Group.findById db j = some g0 →
      ((g0.currentStudents.filter (fun s => s.status == "active")).length : Int)
        ≤ g0.maxStudents →
      ∃ g1, Group.findById db' j = some g1 ∧ g1.maxStudents = g0.maxStudents ∧
        ((g1.currentStudents.filter (fun s => s.status == "active")).length : Int)
          ≤ g1.maxStudents := by
  intro j g0 hg0 hcap
  rw [findGroup_congr hgroups]
  exact ⟨g0, hg0, rfl, hcap⟩

/-- The two outcomes of `enrollStudent` for the groups: unchanged, or the group found with a
free place has one more active member. -/
theorem enrollStudent_result (env : Env) (db : Crm) (id groupId : ObjectId) :
    (enrollStudent env db id groupId).1.groups = db.groups ∨
    (∃ group student,
      Student.findById db.ledger id = some student ∧
      Group.findById db groupId = some group ∧ group.isFull = false ∧
      (enrollStudent env db id groupId).1.groups =
        db.groups.map (fun g =>
          if g.id == group.id then
            { group with
              currentStudents := group.currentStudents ++
                [{ studentId := student.id
                   enrollmentDate := env.now.time
                   status := "active" }] }
          else g) ∧
      (enrollStudent env db id groupId).2.statusCode = 200) := by
  unfold enrollStudent
  cases hs : Student.findById db.ledger id with
  | none => exact Or.inl rfl
  | some student =>
    simp only
    cases hg : Group.findById db groupId with
    | none => exact Or.inl rfl
    | some group =>
      simp only
      by_cases hfull : group.isFull = true
      · rw [if_pos hfull]
        exact Or.inl rfl
      · rw [if_neg hfull]
        by_cases hin : student.currentGroups.contains groupId = true
        · rw [if_pos hin]
          exact Or.inl rfl
        · rw [if_neg hin]
          right
          exact ⟨group, student, rfl, rfl, by simpa using hfull, rfl, rfl⟩

/-- C30: `isFull` holds exactly when `maxStudents` minus the number of active entries of
`currentStudents` is at most 0; for a full group `enrollStudent` and `convertToStudent`
leave the whole store as it is and answer 400 "Group is full" once the student, or the
unconverted lead, is found; and every group whose active count is within `maxStudents` is
still within it after either operation. -/
theorem group_capacity (env : Env) (tempPassword : String)
    (userValidation : List UserAccount → UserAccount → Option JsError) (db : Crm) :
    (∀ g : Group, g.isFull = true ↔
      g.maxStudents -
        ((g.currentStudents.filter (fun s => s.status == "active")).length : Int) ≤ 0) ∧
    (∀ id groupId group, Group.findById db groupId = some group → group.isFull = true →
      (enrollStudent env db id groupId).1 = db ∧
      (∀ student, Student.findById db.ledger id = some student →
        enrollStudent env db id groupId = (db, badRequestResponse "Group is full"))) ∧
    (∀ id body group, Group.findById db body.groupId = some group → group.isFull = true →
      (convertToStudent env tempPassword userValidation db id body).1 = db ∧
      (∀ lead, Lead.findById db id = some lead → lead.enrollmentStatus.isEnrolled = false →
        convertToStudent env tempPassword userValidation db id body =
          (db, badRequestResponse "Group is full"))) ∧
    (∀ id groupId j g0, Group.findById db j = some g0 →
      ((g0.currentStudents.filter (fun s => s.status == "active")).length : Int)
        ≤ g0.maxStudents →
      ∃ g1, Group.findById (enrollStudent env db id groupId).1 j = some g1 ∧
        g1.maxStudents = g0.maxStudents ∧
        ((g1.currentStudents.filter (fun s => s.status == "active")).length : Int)
          ≤ g1.maxStudents) ∧
    (∀ id body j g0, Group.findById db j = some g0 →
      ((g0.currentStudents.filter (fun s => s.status == "active")).length : Int)
        ≤ g0.maxStudents →
      ∃ g1, Group.findById
          (convertToStudent env tempPassword userValidation db id body).1 j = some g1 ∧
        g1.maxStudents = g0.maxStudents ∧
        ((g1.currentStudents.filter (fun s => s.status == "active")).length : Int)
          ≤ g1.maxStudents) := by
  refine ⟨isFull_iff, ?_, ?_, ?_, ?_⟩
  · intro id groupId group hg hfull
    constructor
    · unfold enrollStudent
      cases Student.findById db.ledger id with
      | none => rfl
      | some student =>
        simp only [hg, hfull, if_true]
    · intro student hs
      unfold enrollStudent
      rw [hs]
      simp only [hg, hfull, if_true]
  · intro id body group hg hfull
    constructor
    · unfold convertToStudent
      cases Lead.findById db id with
      | none => rfl
      | some lead =>
        simp only
        by_cases hen : lead.enrollmentStatus.isEnrolled = true
        · rw [if_pos hen]
        · rw [if_neg hen]
          simp only [hg, hfull, if_true]
    · intro lead hl hen
      unfold convertToStudent
      rw [hl]
      simp only [hen, Bool.false_eq_true, if_false, hg, hfull, if_true]
  · intro id groupId j g0 hg0 hcap
    rcases enrollStudent_result env db id groupId with h | ⟨group, student, -, hg, hfull, h, -⟩
    · exact capacity_unchanged h j g0 hg0 hcap
    · exact capacity_after_join _ rfl hg hfull h j g0 hg0 hcap
  · intro id body j g0 hg0 hcap
    rcases convertToStudent_result env tempPassword userValidation db id body with
      ⟨h, -, -⟩ | ⟨lead, group, studentId, -, -, hg, hfull, h, -, -⟩
    · exact capacity_unchanged h j g0 hg0 hcap
    · exact capacity_after_join _ rfl hg hfull h j g0 hg0 hcap

/-- C30 on the fixtures: the group of two places has one active member, so a conversion
fills it; the enrollment of another student is then answered 400 with nothing changed, and
the group is still within its capacity. -/
theorem group_capacity_witness :
    (∃ g1, Group.findById
        (convertToStudent fixtureEnv "Temp1234" fixtureUserValidation fixtureCrm 1
          fixtureConvertBody).1 5 = some g1 ∧
      g1.maxStudents = fixtureGroup.maxStudents ∧
      ((g1.currentStudents.filter (fun s => s.status == "active")).length : Int)
        ≤ g1.maxStudents) ∧
    enrollStudent fixtureEnv
        (convertToStudent fixtureEnv "Temp1234" fixtureUserValidation fixtureCrm 1
          fixtureConvertBody).1 123 5 =
      ((convertToStudent fixtureEnv "Temp1234" fixtureUserValidation fixtureCrm 1
          fixtureConvertBody).1,
        badRequestResponse "Group is full") :=
  ⟨(group_capacity fixtureEnv "Temp1234" fixtureUserValidation fixtureCrm).2.2.2.2 1
      fixtureConvertBody 5 fixtureGroup rfl (by decide),
    ((group_capacity fixtureEnv "Temp1234" fixtureUserValidation
      (convertToStudent fixtureEnv "Temp1234" fixtureUserValidation fixtureCrm 1
        fixtureConvertBody).1).2.1 123 5
      { fixtureGroup with
        currentStudents := fixtureGroup.currentStudents ++
          [{ studentId := 124, enrollmentDate := 1700000000000, status := "active" }] }
      (by decide) (by decide)).2
      { fixtureStudent with studentId := "STD-20230901-1234" } (by decide)⟩

end EduCRM
